import Mathlib

/-!
# OPAL RTP media stream and local-RTP bypass cache

A shallow embedding of `src/src/opal/rtpep.cxx` (the endpoint's cache of
connections keyed by local RTP data port) and of `src/src/rtp/rtp_stream.cxx`
(the RTP media stream), followed by theorems about them.

Conventions of the embedding.

* Connections, sessions, patches and jitter buffer instances are identified by
  natural numbers; ports and SSRCs are natural numbers (no arithmetic is done
  on them, so their width plays no role).
* Calls into collaborators whose code is outside these two files (the manager's
  `OnLocalRTP`, the session's `WriteData`, the jitter buffer's `ReadData`, the
  base class `OpalMediaStream`) take their answer from an explicit argument and
  are recorded, in call order, in an event list.
-/

namespace Opal

/-! ## Data read from an RTP session by the endpoint -/

/-- The part of an `RTP_UDP` session that `rtpep.cxx` reads.
`remoteIsLocalHost` is the value of
`PIPSocket::IsLocalHost(rtp->GetRemoteAddress())`. -/
structure RTP_UDP where
  remoteIsLocalHost : Bool
  localDataPort : Nat
  remoteDataPort : Nat
  sessionID : Nat
deriving DecidableEq, Repr

/-- Media type of a media format, as far as the stream code distinguishes it. -/
inductive OpalMediaType where
  | Audio
  | Video
  | Other
deriving DecidableEq, Repr

/-- An RTP data frame: the header fields the stream code reads or writes. -/
structure RTP_DataFrame where
  payloadSize : Nat
  marker : Bool
  timestamp : Nat
  sequenceNumber : Nat
  syncSource : Nat
  discontinuity : Nat
deriving DecidableEq, Repr

/-- Modelled from the spec: the declaration of `OpalJitterBuffer::Init` is not
in the sources; the spec gives a buffer configuration as minimum delay, maximum
delay and time units per millisecond. -/
structure JitterInit where
  m_minJitterDelay : Nat
  m_maxJitterDelay : Nat
  m_timeUnits : Nat
deriving DecidableEq, Repr

/-- A jitter buffer instance: its identity, the configuration it was created
from, and whether it has been closed. -/
structure OpalJitterBuffer where
  id : Nat
  init : JitterInit
  closed : Bool
deriving DecidableEq, Repr

/-- The state of an `OpalRTPMediaStream` together with the values it reads
from its connection, media format and session. -/
structure OpalRTPMediaStream where
  /-- The owning connection, `GetConnection()`. -/
  connection : Nat
  /-- Direction, `IsSource()`; `IsSink()` is its negation. -/
  isSource : Bool
  /-- The base class flag `OpalMediaStream::m_isOpen`. -/
  m_isOpen : Bool
  /-- The base class flag `OpalMediaStream::m_paused`. -/
  m_paused : Bool
  /-- The value of `mediaFormat.GetMediaType()`. -/
  mediaType : OpalMediaType
  /-- The value of `mediaFormat.NeedsJitterBuffer()`. -/
  needsJitterBuffer : Bool
  /-- The value of `connection.GetMaxAudioJitterDelay()`. -/
  maxAudioJitterDelay : Nat
  /-- The value of `m_rtpSession.IsOpen()`. -/
  sessionIsOpen : Bool
  /-- The result of `dynamic_cast<RTP_UDP *>(&GetRtpSession())`. -/
  rtp : Option RTP_UDP
  m_rewriteHeaders : Bool
  m_syncSource : Nat
  m_jitterBuffer : OpalJitterBuffer
  m_forceIntraFrameFlag : Bool
  /-- The instant (in ms) at which `m_forceIntraFrameTimer` expires. -/
  m_forceIntraFrameTimer : Nat
  /-- The base class member `timestamp` (the last timestamp seen). -/
  timestamp : Nat
  /-- The patch the stream is attached to, `m_mediaPatch`. -/
  m_mediaPatch : Option Nat
deriving DecidableEq, Repr

/-- A media stream as the endpoint receives it: either an RTP media stream or
some other kind of stream, of which only the connection is visible. -/
inductive OpalMediaStream where
  | rtpStream (s : OpalRTPMediaStream)
  | otherStream (connection : Nat)
deriving DecidableEq, Repr

/-- The connection of a stream, `stream.GetConnection()`. -/
def OpalMediaStream.GetConnection : OpalMediaStream → Nat
  | .rtpStream s => s.connection
  | .otherStream c => c

/-- The static helper `GetRTPFromStream` of `rtpep.cxx`: `NULL` when the stream
is not an `OpalRTPMediaStream` or its session is not an `RTP_UDP`. -/
def GetRTPFromStream : OpalMediaStream → Option RTP_UDP
  | .rtpStream rtpStream => rtpStream.rtp
  | .otherStream _ => none

/-! ## The cache `m_connectionsByRtpLocalPort` -/

/-- Modelled from the spec: the declaration of `LocalRtpInfo` (in `rtpep.h`) is
not in the sources. An entry holds the peer connection and the memoized
decision `m_previousResult`: negative is Unknown, `0` is Normal, non-zero
non-negative is Bypass. -/
structure LocalRtpInfo where
  m_connection : Nat
  m_previousResult : Int
deriving DecidableEq, Repr

/-- Modelled from the spec: a new `LocalRtpInfo` is constructed from a
connection with the decision Unknown (`-1`). -/
def LocalRtpInfo.mk1 (connection : Nat) : LocalRtpInfo :=
  { m_connection := connection, m_previousResult := -1 }

/-- The map `std::map<WORD, LocalRtpInfo>` as an association list. Iteration
order is never observed by the code, so entries are kept in insertion order. -/
abbrev LocalRtpInfoMap := List (Nat × LocalRtpInfo)

namespace LocalRtpInfoMap

/-- Lookup by key, `std::map::find`: `none` stands for `end()`. -/
def find : LocalRtpInfoMap → Nat → Option LocalRtpInfo
  | [], _ => none
  | (k, v) :: rest, port => if k = port then some v else find rest port

/-- Insertion, `std::map::insert`: an existing entry is kept as it is; the
second component tells whether the entry is new. -/
def insert (m : LocalRtpInfoMap) (port : Nat) (connection : Nat) : LocalRtpInfoMap × Bool :=
  match find m port with
  | some _ => (m, false)
  | none => ((port, LocalRtpInfo.mk1 connection) :: m, true)

/-- Removal of the entry with the given key, `std::map::erase`. -/
def erase : LocalRtpInfoMap → Nat → LocalRtpInfoMap
  | [], _ => []
  | (k, v) :: rest, port => if k = port then erase rest port else (k, v) :: erase rest port

/-- Assignment through an iterator to the entry of the given key:
`it->second.m_previousResult = r`. -/
def setPreviousResult : LocalRtpInfoMap → Nat → Int → LocalRtpInfoMap
  | [], _, _ => []
  | (k, v) :: rest, port, r =>
    if k = port then (k, { v with m_previousResult := r }) :: setPreviousResult rest port r
    else (k, v) :: setPreviousResult rest port r

end LocalRtpInfoMap

/-! ## Active connections -/

/-- An `OpalRTPConnection` as the scan of `CheckForLocalRTP` sees it: its
identity and the local data ports its sessions are bound to. -/
structure OpalRTPConnection where
  id : Nat
  sessionLocalPorts : List Nat
deriving DecidableEq, Repr

/-- Modelled from the spec: `OpalRTPConnection::FindSessionByLocalPort` is not
in the sources; it looks for a session of the connection bound to exactly that
local port. The result is whether a session was found (non-`NULL`). -/
def OpalRTPConnection.FindSessionByLocalPort (c : OpalRTPConnection) (port : Nat) : Bool :=
  decide (port ∈ c.sessionLocalPorts)

/-- The loop over `connectionsActive` in `CheckForLocalRTP`. An element is
`none` when `GetAt`/`PSafePtrCast` yields `NULL` (the connection is going away
or is not an RTP connection). Returns the first connection with a session bound
to the port. -/
def scanConnectionsActive : List (Option OpalRTPConnection) → Nat → Option Nat
  | [], _ => none
  | none :: rest, port => scanConnectionsActive rest port
  | some connection :: rest, port =>
    if connection.FindSessionByLocalPort port then some connection.id
    else scanConnectionsActive rest port

/-! ## The endpoint -/

/-- What the endpoint does to its collaborators, in call order. -/
inductive EpEvent where
  /-- The scan of the active connections for a port was performed. -/
  | scan (port : Nat)
  /-- One invocation of `OnLocalRTP` with its arguments and its result. -/
  | OnLocalRTP (connection1 connection2 sessionID : Nat) (opened : Bool) (result : Bool)
deriving DecidableEq, Repr

/-- The decision callback `manager.OnLocalRTP`. It is outside the sources and
may depend on anything that happened before, so it takes the history of events
so far besides its four arguments. -/
abbrev LocalRTPCallback := List EpEvent → Nat → Nat → Nat → Bool → Bool

/-- The state of an `OpalRTPEndPoint`: the cache, and the history of calls it
made to its collaborators. -/
structure OpalRTPEndPoint where
  m_connectionsByRtpLocalPort : LocalRtpInfoMap
  history : List EpEvent
deriving DecidableEq, Repr

/-- The conversion of a `bool` to `int` in `m_previousResult = OnLocalRTP(...)`. -/
def boolToInt (b : Bool) : Int := if b then 1 else 0

/-- The method `OpalRTPEndPoint::CheckForLocalRTP`. Returns the result and the
endpoint afterwards. -/
def CheckForLocalRTP (OnLocalRTP : LocalRTPCallback)
    (connectionsActive : List (Option OpalRTPConnection))
    (ep : OpalRTPEndPoint) (stream : OpalRTPMediaStream) : Bool × OpalRTPEndPoint :=
  match GetRTPFromStream (.rtpStream stream) with
  | none => (false, ep)
  | some rtp =>
    if !rtp.remoteIsLocalHost then (false, ep)
    else
      let insertResult := ep.m_connectionsByRtpLocalPort.insert rtp.localDataPort stream.connection
      -- it = find(remote port); when absent, scan and insert
      let found : Option (LocalRtpInfoMap × LocalRtpInfo × List EpEvent) :=
        match insertResult.1.find rtp.remoteDataPort with
        | some info => some (insertResult.1, info, ep.history)
        | none =>
          match scanConnectionsActive connectionsActive rtp.remoteDataPort with
          | some connection =>
            some ((insertResult.1.insert rtp.remoteDataPort connection).1,
                  LocalRtpInfo.mk1 connection,
                  ep.history ++ [EpEvent.scan rtp.remoteDataPort])
          | none => none
      match found with
      | none =>
        (false, { m_connectionsByRtpLocalPort := insertResult.1,
                  history := ep.history ++ [EpEvent.scan rtp.remoteDataPort] })
      | some (m, it, h) =>
        if it.m_previousResult < 0 then
          let result := OnLocalRTP h stream.connection it.m_connection rtp.sessionID true
          let m1 := m.setPreviousResult rtp.remoteDataPort (boolToInt result)
          let m2 := if insertResult.2 then m1.setPreviousResult rtp.localDataPort (boolToInt result) else m1
          (boolToInt result != 0,
           { m_connectionsByRtpLocalPort := m2,
             history := h ++ [EpEvent.OnLocalRTP stream.connection it.m_connection rtp.sessionID true result] })
        else
          (it.m_previousResult != 0, { m_connectionsByRtpLocalPort := m, history := h })

/-- The method `OpalRTPEndPoint::CheckEndLocalRTP`. -/
def CheckEndLocalRTP (OnLocalRTP : LocalRTPCallback) (ep : OpalRTPEndPoint)
    (connection : Nat) (rtp : Option RTP_UDP) : OpalRTPEndPoint :=
  match rtp with
  | none => ep
  | some rtp =>
    match ep.m_connectionsByRtpLocalPort.find rtp.localDataPort with
    | none => ep
    | some _ =>
      let m := ep.m_connectionsByRtpLocalPort.erase rtp.localDataPort
      match m.find rtp.remoteDataPort with
      | none => { m_connectionsByRtpLocalPort := m, history := ep.history }
      | some it =>
        let result := OnLocalRTP ep.history connection it.m_connection rtp.sessionID false
        { m_connectionsByRtpLocalPort := m,
          history := ep.history ++ [EpEvent.OnLocalRTP connection it.m_connection rtp.sessionID false result] }

/-- The method `OpalRTPEndPoint::OnClosedMediaStream`; the base class method it
ends with does not touch the cache. -/
def OnClosedMediaStream (OnLocalRTP : LocalRTPCallback) (ep : OpalRTPEndPoint)
    (stream : OpalMediaStream) : OpalRTPEndPoint :=
  CheckEndLocalRTP OnLocalRTP ep stream.GetConnection (GetRTPFromStream stream)

/-! ## The RTP media stream -/

/-- Modelled from the spec: the build option `OPAL_VIDEO` comes from
`opal_config.h`, which is not in the sources; the spec describes the video
behaviour, so the option is on. -/
def OPAL_VIDEO : Bool := true

/-- The rewrite mode handed to the session's `WriteData`. -/
inductive RewriteMode where
  | e_RewriteHeader
  | e_RewriteSSRC
  | e_RewriteNothing
deriving DecidableEq, Repr

/-- The media commands the stream issues through `ExecuteCommand`. -/
inductive OpalMediaCommand where
  | OpalVideoPictureLoss (sequenceNumber timestamp : Nat)
  | OpalVideoUpdatePicture
deriving DecidableEq, Repr

/-- What a stream method does to its collaborators, in call order. -/
inductive StreamEvent where
  /-- The call `m_rtpSession.AddDataNotifier(m_receiveNotifier)`. -/
  | AddDataNotifier
  /-- The base class call `OpalMediaStream::Open()`. -/
  | BaseOpen
  /-- The base class call `OpalMediaStream::InternalSetPaused(...)`. -/
  | BaseInternalSetPaused (pause fromUser fromPatch : Bool)
  /-- The base class call `OpalMediaStream::SetPatch(patch)`. -/
  | BaseSetPatch (patch : Option Nat)
  | InternalSetPatchPart1 (patch : Option Nat)
  | InternalSetPatchPart2 (oldPatch : Option Nat)
  /-- The call `mediaPatch->EnableJitterBuffer(enab)`. -/
  | EnableJitterBuffer (patch : Nat) (enab : Bool)
  /-- The call `m_jitterBuffer->ReadData(packet)` on the given instance. -/
  | ReadData (jitterBuffer : Nat)
  /-- The call `m_jitterBuffer->WriteData(frame)` on the given instance. -/
  | JitterWriteData (jitterBuffer : Nat) (frame : RTP_DataFrame)
  /-- The call `m_rtpSession.WriteData(packet, mode)`. -/
  | WriteData (packet : RTP_DataFrame) (mode : RewriteMode)
  | ExecuteCommand (command : OpalMediaCommand)
  | JitterClose (jitterBuffer : Nat)
  | JitterRestart (jitterBuffer : Nat)
  | JitterDelete (jitterBuffer : Nat)
  | JitterCreate (jitterBuffer : Nat) (init : JitterInit)
  /-- The call `m_rtpSession.SetJitterBuffer(jitterBuffer, ssrc)`. -/
  | SetJitterBuffer (jitterBuffer : Nat) (ssrc : Nat)
  /-- The call `m_jitterMutex.StartRead()`, also made by a `PReadWaitAndSignal`
  when it is constructed. -/
  | StartRead
  /-- The call `m_jitterMutex.StartWrite()`. -/
  | StartWrite
  /-- The call `m_jitterMutex.EndWrite()`. -/
  | EndWrite
  /-- The call `m_jitterMutex.EndRead()`, also made by a `PReadWaitAndSignal`
  when its scope ends. -/
  | EndRead
deriving DecidableEq, Repr

namespace OpalRTPMediaStream

/-- The method `OpalRTPMediaStream::IsOpen`. -/
def IsOpen (s : OpalRTPMediaStream) : Bool :=
  s.m_isOpen && s.sessionIsOpen

/-- The test `m_forceIntraFrameTimer.HasExpired()` at the instant `now`. -/
def HasExpired (s : OpalRTPMediaStream) (now : Nat) : Bool :=
  decide (s.m_forceIntraFrameTimer ≤ now)

/-- The method `OpalRTPMediaStream::Open`, called at the instant `now`.
Modelled from the spec: the base class `OpalMediaStream::Open()` is not in the
sources; `baseOpen` is its result, and the stream is open afterwards exactly
when it succeeded. -/
def Open (baseOpen : Bool) (now : Nat) (s : OpalRTPMediaStream) :
    Bool × OpalRTPMediaStream × List StreamEvent :=
  if s.m_isOpen then (true, s, [])
  else
    let ev := if s.isSource then [StreamEvent.AddDataNotifier] else []
    let s1 := if OPAL_VIDEO then
        { s with m_forceIntraFrameFlag := decide (s.mediaType = OpalMediaType.Video),
                 m_forceIntraFrameTimer := now + 500 }
      else s
    (baseOpen, { s1 with m_isOpen := baseOpen }, ev ++ [StreamEvent.BaseOpen])

/-- The method `OpalRTPMediaStream::InternalClose`. -/
def InternalClose (s : OpalRTPMediaStream) : OpalRTPMediaStream × List StreamEvent :=
  if s.isSource then
    ({ s with m_jitterBuffer := { s.m_jitterBuffer with closed := true } },
     [StreamEvent.JitterClose s.m_jitterBuffer.id])
  else (s, [])

/-- The method `OpalRTPMediaStream::InternalSetPaused`. The base class
`OpalMediaStream::InternalSetPaused` is not in the sources: `baseChanged` is
what it reports (whether the paused state changed).
Modelled from the spec: when the base class reports a change, the paused state
is the requested one afterwards. -/
def InternalSetPaused (baseChanged : Bool) (s : OpalRTPMediaStream)
    (pause fromUser fromPatch : Bool) :
    Bool × OpalRTPMediaStream × List StreamEvent :=
  let base := [StreamEvent.BaseInternalSetPaused pause fromUser fromPatch]
  if !baseChanged then (false, s, base)
  else
    let s1 := { s with m_paused := pause }
    if s.isSource then
      let s2 := if !pause then { s1 with m_jitterBuffer := { s1.m_jitterBuffer with closed := true } } else s1
      let ev1 := if !pause then [StreamEvent.JitterClose s.m_jitterBuffer.id] else []
      let ev2 := match s.m_mediaPatch with
        | some mediaPatch => [StreamEvent.EnableJitterBuffer mediaPatch (!pause)]
        | none => []
      (true, s2, base ++ ev1 ++ ev2)
    else (true, s1, base)

/-- The method `OpalRTPMediaStream::OnReceivedPacket`: under read access to
`m_jitterMutex`, the received frame is written to the jitter buffer. -/
def OnReceivedPacket (s : OpalRTPMediaStream) (frame : RTP_DataFrame) : List StreamEvent :=
  [StreamEvent.StartRead, StreamEvent.JitterWriteData s.m_jitterBuffer.id frame,
   StreamEvent.EndRead]

/-- The method `OpalRTPMediaStream::ReadPacket`. `ReadData` is the answer of
the jitter buffer: `none` when its `ReadData` returns false, the delivered
frame otherwise. The call of the jitter buffer is made under read access to
`m_jitterMutex`, released when the inner block is left. Returns the result, the
stream, the caller's packet and the events. -/
def ReadPacket (ReadData : Option RTP_DataFrame) (s : OpalRTPMediaStream) (packet : RTP_DataFrame) :
    Bool × OpalRTPMediaStream × RTP_DataFrame × List StreamEvent :=
  if !s.IsOpen then (false, s, packet, [])
  else if !s.isSource then (false, s, packet, [])
  else
    match ReadData with
    | none =>
      (false, s, packet,
       [StreamEvent.StartRead, StreamEvent.ReadData s.m_jitterBuffer.id, StreamEvent.EndRead])
    | some packet1 =>
      let ev :=
        if OPAL_VIDEO && (decide (packet1.discontinuity > 0) && decide (s.mediaType = OpalMediaType.Video)) then
          [StreamEvent.ExecuteCommand
            (OpalMediaCommand.OpalVideoPictureLoss packet1.sequenceNumber packet1.timestamp)]
        else []
      (true, { s with timestamp := packet1.timestamp }, packet1,
       StreamEvent.StartRead :: StreamEvent.ReadData s.m_jitterBuffer.id :: StreamEvent.EndRead :: ev)

/-- The method `OpalRTPMediaStream::WritePacket`, called at the instant `now`.
`WriteData` is the answer of the session to `WriteData(packet, mode)`. Returns
the result, the stream, the caller's packet and the events. -/
def WritePacket (WriteData : RTP_DataFrame → RewriteMode → Bool) (now : Nat)
    (s : OpalRTPMediaStream) (packet : RTP_DataFrame) :
    Bool × OpalRTPMediaStream × RTP_DataFrame × List StreamEvent :=
  if !s.IsOpen then (false, s, packet, [])
  else if s.isSource then (false, s, packet, [])
  else
    let force := OPAL_VIDEO && (s.m_forceIntraFrameFlag && s.HasExpired now)
    let ev := if force then [StreamEvent.ExecuteCommand OpalMediaCommand.OpalVideoUpdatePicture] else []
    let s1 := if force then { s with m_forceIntraFrameFlag := false } else s
    let s2 := { s1 with timestamp := packet.timestamp }
    if s.m_rewriteHeaders && packet.payloadSize == 0
        && (!OPAL_VIDEO || (!packet.marker || s.mediaType != OpalMediaType.Video)) then
      (true, s2, packet, ev)
    else
      let packet1 := if s.m_syncSource != 0 then { packet with syncSource := s.m_syncSource } else packet
      let mode := if s.m_rewriteHeaders then RewriteMode.e_RewriteHeader else RewriteMode.e_RewriteSSRC
      (WriteData packet1 mode, s2, packet1, ev ++ [StreamEvent.WriteData packet1 mode])

/-- The method `OpalRTPMediaStream::RequiresPatchThread`: the negation of the
endpoint's `CheckForLocalRTP` on this stream. -/
def RequiresPatchThread (OnLocalRTP : LocalRTPCallback)
    (connectionsActive : List (Option OpalRTPConnection))
    (ep : OpalRTPEndPoint) (s : OpalRTPMediaStream) : Bool × OpalRTPEndPoint :=
  let r := CheckForLocalRTP OnLocalRTP connectionsActive ep s
  (!r.1, r.2)

/-- The method `OpalRTPMediaStream::IsSynchronous`. -/
def IsSynchronous (OnLocalRTP : LocalRTPCallback)
    (connectionsActive : List (Option OpalRTPConnection))
    (ep : OpalRTPEndPoint) (s : OpalRTPMediaStream) : Bool × OpalRTPEndPoint :=
  if !s.isSource then (false, ep)
  else if !s.needsJitterBuffer then (true, ep)
  else if s.maxAudioJitterDelay == 0 then (true, ep)
  else RequiresPatchThread OnLocalRTP connectionsActive ep s

/-- The method `OpalRTPMediaStream::InternalSetJitterBuffer`; `newId` is the
identity of the instance `OpalJitterBuffer::Create` returns. -/
def InternalSetJitterBuffer (OnLocalRTP : LocalRTPCallback)
    (connectionsActive : List (Option OpalRTPConnection))
    (ep : OpalRTPEndPoint) (newId : Nat) (s : OpalRTPMediaStream) (init : JitterInit) :
    Bool × OpalRTPMediaStream × OpalRTPEndPoint × List StreamEvent :=
  if !s.IsOpen then (false, s, ep, [])
  else if !s.isSource then (false, s, ep, [])
  else
    let r := RequiresPatchThread OnLocalRTP connectionsActive ep s
    if !r.1 then (false, s, r.2, [])
    else
      (true, { s with m_jitterBuffer := { id := newId, init := init, closed := false } }, r.2,
       [StreamEvent.StartRead, StreamEvent.JitterClose s.m_jitterBuffer.id, StreamEvent.StartWrite,
        StreamEvent.JitterDelete s.m_jitterBuffer.id, StreamEvent.JitterCreate newId init,
        StreamEvent.EndWrite, StreamEvent.SetJitterBuffer newId s.m_syncSource, StreamEvent.EndRead])

/-- The method `OpalRTPMediaStream::SetPatch`; `baseSetPatch` is the result of
the base class `OpalMediaStream::SetPatch`, which is not in the sources. -/
def SetPatch (baseSetPatch : Bool) (s : OpalRTPMediaStream) (patch : Option Nat) :
    Bool × OpalRTPMediaStream × List StreamEvent :=
  if !s.IsOpen || !s.isSource then
    (baseSetPatch, (if baseSetPatch then { s with m_mediaPatch := patch } else s),
     [StreamEvent.BaseSetPatch patch])
  else
    (true,
     { s with m_mediaPatch := patch, m_jitterBuffer := { s.m_jitterBuffer with closed := false } },
     [StreamEvent.InternalSetPatchPart1 patch, StreamEvent.JitterClose s.m_jitterBuffer.id,
      StreamEvent.InternalSetPatchPart2 s.m_mediaPatch, StreamEvent.JitterRestart s.m_jitterBuffer.id])

end OpalRTPMediaStream

/-! ## Sequences of calls on the endpoint -/

/-- A sequence of `CheckForLocalRTP` calls, one per stream of the list, all
against the same active connections; returns the results in call order and the
endpoint afterwards. -/
def runCheckForLocalRTP (OnLocalRTP : LocalRTPCallback)
    (connectionsActive : List (Option OpalRTPConnection)) :
    OpalRTPEndPoint → List OpalRTPMediaStream → List Bool × OpalRTPEndPoint
  | ep, [] => ([], ep)
  | ep, stream :: rest =>
    let r := CheckForLocalRTP OnLocalRTP connectionsActive ep stream
    let rs := runCheckForLocalRTP OnLocalRTP connectionsActive r.2 rest
    (r.1 :: rs.1, rs.2)

/-- The invocations of `OnLocalRTP(..., opened = true)` in a history, as the
list of their results. -/
def openedResults : List EpEvent → List Bool
  | [] => []
  | EpEvent.OnLocalRTP _ _ _ true result :: rest => result :: openedResults rest
  | _ :: rest => openedResults rest

/-- The number of invocations of `OnLocalRTP` (either value of `opened`) in a
history. -/
def callbackCount : List EpEvent → Nat
  | [] => 0
  | EpEvent.OnLocalRTP _ _ _ _ _ :: rest => callbackCount rest + 1
  | _ :: rest => callbackCount rest

/-- The number of scans of the active connections in a history. -/
def scanCount : List EpEvent → Nat
  | [] => 0
  | EpEvent.scan _ :: rest => scanCount rest + 1
  | _ :: rest => scanCount rest

/-- The empty endpoint: no cache entry, nothing called yet. -/
def OpalRTPEndPoint.empty : OpalRTPEndPoint :=
  { m_connectionsByRtpLocalPort := [], history := [] }

/-- A sequence of `CheckForLocalRTP` calls, each with the stream it is made
from and the active connections at the time of the call; returns the results in
call order and the endpoint afterwards. -/
def runCheckForLocalRTPWith (OnLocalRTP : LocalRTPCallback) :
    OpalRTPEndPoint → List (List (Option OpalRTPConnection) × OpalRTPMediaStream) →
      List Bool × OpalRTPEndPoint
  | ep, [] => ([], ep)
  | ep, (connectionsActive, stream) :: rest =>
    let r := CheckForLocalRTP OnLocalRTP connectionsActive ep stream
    let rs := runCheckForLocalRTPWith OnLocalRTP r.2 rest
    (r.1 :: rs.1, rs.2)

/-- One call on the endpoint's cache: a `CheckForLocalRTP` with its stream and
the active connections at that time, or a `CheckEndLocalRTP` with its
connection and session. -/
inductive EndPointCall where
  | checkForLocalRTP (connectionsActive : List (Option OpalRTPConnection))
      (stream : OpalRTPMediaStream)
  | checkEndLocalRTP (connection : Nat) (rtp : Option RTP_UDP)

/-- The endpoint after a sequence of calls on its cache. -/
def runEndPointCalls (OnLocalRTP : LocalRTPCallback) :
    OpalRTPEndPoint → List EndPointCall → OpalRTPEndPoint
  | ep, [] => ep
  | ep, EndPointCall.checkForLocalRTP connectionsActive stream :: rest =>
    runEndPointCalls OnLocalRTP (CheckForLocalRTP OnLocalRTP connectionsActive ep stream).2 rest
  | ep, EndPointCall.checkEndLocalRTP connection rtp :: rest =>
    runEndPointCalls OnLocalRTP (CheckEndLocalRTP OnLocalRTP ep connection rtp) rest

/-- Whether the entry of a port holds a decision (`m_previousResult >= 0`), as
`1` or `0`. -/
def decidedCount (m : LocalRtpInfoMap) (port : Nat) : Nat :=
  match m.find port with
  | some info => if 0 ≤ info.m_previousResult then 1 else 0
  | none => 0

/-- Every stored decision is Unknown (`-1`) or the value of a result that an
invocation `OnLocalRTP(..., opened = true)` in the history returned. -/
def decisionsComeFromCallback (ep : OpalRTPEndPoint) : Prop :=
  ∀ entry ∈ ep.m_connectionsByRtpLocalPort,
    entry.2.m_previousResult = -1 ∨
    ∃ result ∈ openedResults ep.history, entry.2.m_previousResult = boolToInt result

/-! ## Projections of the events of a stream method -/

/-- The calls of the session's `WriteData` among the events, in call order,
each with the packet handed over and the rewrite mode. -/
def writeDataCalls : List StreamEvent → List (RTP_DataFrame × RewriteMode)
  | [] => []
  | StreamEvent.WriteData packet mode :: rest => (packet, mode) :: writeDataCalls rest
  | _ :: rest => writeDataCalls rest

/-- The media commands issued through `ExecuteCommand` among the events, in
call order. -/
def executedCommands : List StreamEvent → List OpalMediaCommand
  | [] => []
  | StreamEvent.ExecuteCommand command :: rest => command :: executedCommands rest
  | _ :: rest => executedCommands rest

/-- The calls made on jitter buffer instances and the hand-over to the session
among the events, in call order: the locking of `m_jitterMutex` is left out. -/
def jitterBufferCalls : List StreamEvent → List StreamEvent
  | [] => []
  | StreamEvent.JitterClose b :: rest => StreamEvent.JitterClose b :: jitterBufferCalls rest
  | StreamEvent.JitterRestart b :: rest => StreamEvent.JitterRestart b :: jitterBufferCalls rest
  | StreamEvent.JitterDelete b :: rest => StreamEvent.JitterDelete b :: jitterBufferCalls rest
  | StreamEvent.JitterCreate b init :: rest =>
    StreamEvent.JitterCreate b init :: jitterBufferCalls rest
  | StreamEvent.SetJitterBuffer b ssrc :: rest =>
    StreamEvent.SetJitterBuffer b ssrc :: jitterBufferCalls rest
  | _ :: rest => jitterBufferCalls rest

/-- The calls that close, restart, destroy or create a jitter buffer instance
among the events, in call order, each with whether `m_jitterMutex` is held for
writing at that point (`held` tells whether it is held at the start). -/
def jitterCallsWithWriteAccess : Bool → List StreamEvent → List (StreamEvent × Bool)
  | _, [] => []
  | _, StreamEvent.StartWrite :: rest => jitterCallsWithWriteAccess true rest
  | _, StreamEvent.EndWrite :: rest => jitterCallsWithWriteAccess false rest
  | held, StreamEvent.JitterClose b :: rest =>
    (StreamEvent.JitterClose b, held) :: jitterCallsWithWriteAccess held rest
  | held, StreamEvent.JitterRestart b :: rest =>
    (StreamEvent.JitterRestart b, held) :: jitterCallsWithWriteAccess held rest
  | held, StreamEvent.JitterDelete b :: rest =>
    (StreamEvent.JitterDelete b, held) :: jitterCallsWithWriteAccess held rest
  | held, StreamEvent.JitterCreate b init :: rest =>
    (StreamEvent.JitterCreate b init, held) :: jitterCallsWithWriteAccess held rest
  | held, _ :: rest => jitterCallsWithWriteAccess held rest

/-- The locking calls on `m_jitterMutex` among the events, in call order. -/
def jitterMutexCalls : List StreamEvent → List StreamEvent
  | [] => []
  | StreamEvent.StartRead :: rest => StreamEvent.StartRead :: jitterMutexCalls rest
  | StreamEvent.StartWrite :: rest => StreamEvent.StartWrite :: jitterMutexCalls rest
  | StreamEvent.EndWrite :: rest => StreamEvent.EndWrite :: jitterMutexCalls rest
  | StreamEvent.EndRead :: rest => StreamEvent.EndRead :: jitterMutexCalls rest
  | _ :: rest => jitterMutexCalls rest

/-! ## Sequences of calls on a stream -/

/-- A sequence of `WritePacket` calls on a stream, each with its instant, its
packet and the answer of the session; returns for every call its instant, its
result and its events, and the stream afterwards. -/
def runWritePacket :
    OpalRTPMediaStream → List (Nat × RTP_DataFrame × (RTP_DataFrame → RewriteMode → Bool)) →
      List (Nat × Bool × List StreamEvent) × OpalRTPMediaStream
  | s, [] => ([], s)
  | s, (now, packet, WriteData) :: rest =>
    let r := s.WritePacket WriteData now packet
    let rs := runWritePacket r.2.1 rest
    ((now, r.1, r.2.2.2) :: rs.1, rs.2)

/-- The number of `OpalVideoUpdatePicture` commands among a list of commands. -/
def updatePictureCount : List OpalMediaCommand → Nat
  | [] => 0
  | OpalMediaCommand.OpalVideoUpdatePicture :: rest => updatePictureCount rest + 1
  | _ :: rest => updatePictureCount rest

/-- The number of `OpalVideoUpdatePicture` commands issued over a sequence of
calls. -/
def forcedUpdateCount : List (Nat × Bool × List StreamEvent) → Nat
  | [] => 0
  | (_, _, events) :: rest => updatePictureCount (executedCommands events) + forcedUpdateCount rest

/-! ## Threads sharing the jitter buffer of a stream

The methods of a stream run on several threads: `ReadPacket` on the patch
thread, `OnReceivedPacket` on the session's delivery thread, and
`InternalSetJitterBuffer` or `SetPatch` on a control thread. They share the
pointer `m_jitterBuffer` and the lock `m_jitterMutex`. A thread is given by the
calls it still has to make, in order (the events of a method); a schedule picks
which thread makes its next call. -/

/-- What a call of a stream method does to the pointer `m_jitterBuffer` and to
the lock `m_jitterMutex`. -/
inductive JitterAction where
  | startRead
  | endRead
  | startWrite
  | endWrite
  /-- The statement `delete m_jitterBuffer`. -/
  | destroy
  /-- The statement `m_jitterBuffer = OpalJitterBuffer::Create(init)`. -/
  | create (jitterBuffer : Nat)
  /-- A call `m_jitterBuffer->ReadData(...)` or `m_jitterBuffer->WriteData(...)`:
  the thread reads the pointer and stays inside the instance until the call
  returns. -/
  | use
  /-- Any other call. -/
  | other
deriving DecidableEq, Repr

/-- The action of an event. Closing and restarting an instance are calls of
the control thread on the instance the stream holds; they are not among the
reads of `ReadPacket` and `OnReceivedPacket` and count as other calls. -/
def StreamEvent.jitterAction : StreamEvent → JitterAction
  | StreamEvent.StartRead => JitterAction.startRead
  | StreamEvent.EndRead => JitterAction.endRead
  | StreamEvent.StartWrite => JitterAction.startWrite
  | StreamEvent.EndWrite => JitterAction.endWrite
  | StreamEvent.JitterDelete _ => JitterAction.destroy
  | StreamEvent.JitterCreate b _ => JitterAction.create b
  | StreamEvent.ReadData _ => JitterAction.use
  | StreamEvent.JitterWriteData _ _ => JitterAction.use
  | _ => JitterAction.other

/-- The pointer, the lock and the threads. Threads are numbered; `program t` is
what thread `t` still has to do, and `inCall t` is the instance thread `t` is
inside a call of, if any. -/
structure JitterSystem where
  /-- The instance `m_jitterBuffer` points to. -/
  current : Nat
  /-- The instances that have been deleted. -/
  destroyed : List Nat
  /-- The threads that hold read access to `m_jitterMutex`, once per
  `StartRead` not yet ended. -/
  readers : List Nat
  /-- The thread that holds write access to `m_jitterMutex`, if any. -/
  writer : Option Nat
  program : Nat → List JitterAction
  inCall : Nat → Option Nat

namespace JitterSystem

/-- Modelled from the spec: `m_jitterMutex` is a read/write lock of the PTLib
library, whose code is not in the sources; readers take shared access and a
replacement takes exclusive access. Read access is granted unless another
thread holds write access; write access is granted when no other thread holds
read or write access (a thread may take write access while it holds read access
itself, as `InternalSetJitterBuffer` does). Every other call can always be
made. -/
def enabled (sys : JitterSystem) (t : Nat) : JitterAction → Bool
  | JitterAction.startRead => decide (sys.writer = none ∨ sys.writer = some t)
  | JitterAction.startWrite =>
    decide (sys.writer = none ∨ sys.writer = some t) && sys.readers.all (fun r => decide (r = t))
  | _ => true

/-- Thread `t` makes the call `a` and has `rest` left to do. Any call the
thread was inside has returned. A `use` reads the pointer as it is now. -/
def perform (sys : JitterSystem) (t : Nat) (a : JitterAction) (rest : List JitterAction) :
    JitterSystem :=
  match a with
  | JitterAction.startRead =>
    { sys with readers := t :: sys.readers,
               program := Function.update sys.program t rest,
               inCall := Function.update sys.inCall t none }
  | JitterAction.endRead =>
    { sys with readers := sys.readers.erase t,
               program := Function.update sys.program t rest,
               inCall := Function.update sys.inCall t none }
  | JitterAction.startWrite =>
    { sys with writer := some t,
               program := Function.update sys.program t rest,
               inCall := Function.update sys.inCall t none }
  | JitterAction.endWrite =>
    { sys with writer := if sys.writer = some t then none else sys.writer,
               program := Function.update sys.program t rest,
               inCall := Function.update sys.inCall t none }
  | JitterAction.destroy =>
    { sys with destroyed := sys.current :: sys.destroyed,
               program := Function.update sys.program t rest,
               inCall := Function.update sys.inCall t none }
  | JitterAction.create b =>
    { sys with current := b,
               destroyed := sys.destroyed.filter (fun d => decide (d ≠ b)),
               program := Function.update sys.program t rest,
               inCall := Function.update sys.inCall t none }
  | JitterAction.use =>
    { sys with program := Function.update sys.program t rest,
               inCall := Function.update sys.inCall t (some sys.current) }
  | JitterAction.other =>
    { sys with program := Function.update sys.program t rest,
               inCall := Function.update sys.inCall t none }

/-- One step of the schedule: thread `t` makes its next call if it has one and
the lock lets it; otherwise nothing happens (the thread is done, or waits). -/
def step (sys : JitterSystem) (t : Nat) : JitterSystem :=
  match sys.program t with
  | [] => sys
  | a :: rest => if sys.enabled t a then sys.perform t a rest else sys

/-- The system after a schedule, the list of the threads picked in turn. -/
def run (sys : JitterSystem) : List Nat → JitterSystem
  | [] => sys
  | t :: schedule => (sys.step t).run schedule

/-- The system at the start: the stream holds the instance `current`, nothing
has been deleted, the lock is free, and thread `t` is about to make the calls
`programs t`. -/
def start (current : Nat) (programs : Nat → List StreamEvent) : JitterSystem :=
  { current := current, destroyed := [], readers := [], writer := none,
    program := fun t => (programs t).map StreamEvent.jitterAction,
    inCall := fun _ => none }

/-- No thread is inside a call of an instance that has been superseded: the
instance a thread is inside of is the one the stream holds, and it has not been
deleted. -/
def raceFree (sys : JitterSystem) : Prop :=
  ∀ t p, sys.inCall t = some p → p = sys.current ∧ p ∉ sys.destroyed

/-- The lock discipline of what a thread still has to do, from the read access
it holds (`depth`), whether it holds write access (`write`), and whether it has
deleted the instance without having installed a new one yet (`dangling`):
the pointer is deleted and assigned only under write access, write access is
released only with a live instance installed, and the instance is used only
under read or write access, with a live instance installed. -/
def disciplined : Nat → Bool → Bool → List JitterAction → Bool
  | _, _, dangling, [] => !dangling
  | depth, write, dangling, JitterAction.startRead :: rest =>
    disciplined (depth + 1) write dangling rest
  | depth, write, dangling, JitterAction.endRead :: rest =>
    decide (0 < depth) && disciplined (depth - 1) write dangling rest
  | depth, write, dangling, JitterAction.startWrite :: rest =>
    !write && disciplined depth true dangling rest
  | depth, write, dangling, JitterAction.endWrite :: rest =>
    write && !dangling && disciplined depth false dangling rest
  | depth, write, _, JitterAction.destroy :: rest =>
    write && disciplined depth write true rest
  | depth, write, _, JitterAction.create _ :: rest =>
    write && disciplined depth write false rest
  | depth, write, dangling, JitterAction.use :: rest =>
    (decide (0 < depth) || write) && !dangling && disciplined depth write dangling rest
  | depth, write, dangling, JitterAction.other :: rest =>
    disciplined depth write dangling rest

/-- What holds of the system along every schedule when all threads keep the
lock discipline. -/
structure Invariant (sys : JitterSystem) : Prop where
  /-- While a thread holds write access, no other thread holds read access. -/
  exclusive : ∀ w, sys.writer = some w → ∀ r ∈ sys.readers, r = w
  /-- Every thread keeps the discipline from where it stands. -/
  discipline : ∀ t, disciplined (sys.readers.count t) (decide (sys.writer = some t))
    (decide (sys.writer = some t ∧ sys.current ∈ sys.destroyed)) (sys.program t) = true
  /-- The pointer is dangling only while some thread holds write access. -/
  dangling : sys.current ∈ sys.destroyed → ∃ w, sys.writer = some w
  /-- A thread inside a call holds access, and the instance is live. -/
  inside : ∀ t p, sys.inCall t = some p →
    (0 < sys.readers.count t ∨ sys.writer = some t) ∧ p = sys.current ∧ p ∉ sys.destroyed

end JitterSystem

/-- One call made on a thread that reads from or writes to the jitter buffer
of a stream: a `ReadPacket` with the answer of the jitter buffer and the
caller's packet, or an `OnReceivedPacket` with the received frame. -/
inductive ReaderCall where
  | readPacket (ReadData : Option RTP_DataFrame) (packet : RTP_DataFrame)
  | onReceivedPacket (frame : RTP_DataFrame)
deriving DecidableEq, Repr

/-- The events of one such call on the stream. -/
def ReaderCall.events (s : OpalRTPMediaStream) : ReaderCall → List StreamEvent
  | ReaderCall.readPacket ReadData packet => (s.ReadPacket ReadData packet).2.2.2
  | ReaderCall.onReceivedPacket frame => s.OnReceivedPacket frame

/-- The events of a thread that makes the given calls one after the other. -/
def readerProgram (s : OpalRTPMediaStream) : List ReaderCall → List StreamEvent
  | [] => []
  | call :: rest => call.events s ++ readerProgram s rest

/-! ## Sample data -/

/-- An open source stream of connection `connection` whose `RTP_UDP` session is
bound to `localPort` and sends to `remotePort` on a loopback address. -/
def loopbackStream (connection localPort remotePort : Nat) : OpalRTPMediaStream :=
  { connection := connection, isSource := true, m_isOpen := true, m_paused := false,
    mediaType := OpalMediaType.Audio, needsJitterBuffer := true, maxAudioJitterDelay := 50,
    sessionIsOpen := true,
    rtp := some { remoteIsLocalHost := true, localDataPort := localPort,
                  remoteDataPort := remotePort, sessionID := 1 },
    m_rewriteHeaders := true, m_syncSource := 0,
    m_jitterBuffer := { id := 0, init := { m_minJitterDelay := 20, m_maxJitterDelay := 100, m_timeUnits := 8 },
                        closed := false },
    m_forceIntraFrameFlag := false, m_forceIntraFrameTimer := 0, timestamp := 0,
    m_mediaPatch := none }

/-- The same stream with a session whose remote address is not local. -/
def remoteStream (connection localPort remotePort : Nat) : OpalRTPMediaStream :=
  { loopbackStream connection localPort remotePort with
    rtp := some { remoteIsLocalHost := false, localDataPort := localPort,
                  remoteDataPort := remotePort, sessionID := 1 } }

/-- An open sink stream with the given `m_rewriteHeaders`. -/
def sinkStream (rewriteHeaders : Bool) : OpalRTPMediaStream :=
  { loopbackStream 1 5000 6000 with isSource := false, m_rewriteHeaders := rewriteHeaders }

/-- Connection `1`, with a session bound to local port 5000. -/
def connectionA : OpalRTPConnection := { id := 1, sessionLocalPorts := [5000] }

/-- Connection `2`, with a session bound to local port 6000. -/
def connectionB : OpalRTPConnection := { id := 2, sessionLocalPorts := [6000] }

/-- An open video source stream attached to patch `7`. -/
def videoSourceStream : OpalRTPMediaStream :=
  { loopbackStream 1 5000 6000 with mediaType := OpalMediaType.Video, m_mediaPatch := some 7 }

/-- A closed sink stream that has never been opened. -/
def closedSinkStream : OpalRTPMediaStream :=
  { loopbackStream 1 5000 6000 with isSource := false, m_isOpen := false }

/-- A frame with payload that follows three lost packets. -/
def frameAfterLoss : RTP_DataFrame :=
  { payloadSize := 160, marker := false, timestamp := 4800, sequenceNumber := 31,
    syncSource := 99, discontinuity := 3 }

/-- A video sink that has not been opened yet. -/
def closedVideoSink : OpalRTPMediaStream :=
  { loopbackStream 1 5000 6000 with
    isSource := false, m_isOpen := false, mediaType := OpalMediaType.Video }

/-- Connection `9`, with a session bound to local port 5000. -/
def connectionC : OpalRTPConnection := { id := 9, sessionLocalPorts := [5000] }

/-- A callback that decides for bypass the first time it is invoked and against
it every time after. -/
def bypassOnlyFirst : LocalRTPCallback := fun history _ _ _ _ => decide (callbackCount history = 0)

/-- A callback that always decides for bypass. -/
def alwaysBypass : LocalRTPCallback := fun _ _ _ _ _ => true

/-- A callback that always decides against bypass. -/
def neverBypass : LocalRTPCallback := fun _ _ _ _ _ => false

/-- An empty audio frame without marker. -/
def keepAliveFrame : RTP_DataFrame :=
  { payloadSize := 0, marker := false, timestamp := 160, sequenceNumber := 7,
    syncSource := 99, discontinuity := 0 }

/-! ## Facts about the map -/

namespace LocalRtpInfoMap

theorem find_insert_self (m : LocalRtpInfoMap) (p c : Nat) :
    find (insert m p c).1 p = some ((find m p).getD (LocalRtpInfo.mk1 c)) := by
  unfold insert
  cases h : find m p with
  | none => simp [find]
  | some v => simp [h]

theorem find_insert_of_ne (m : LocalRtpInfoMap) (p c q : Nat) (h : p ≠ q) :
    find (insert m p c).1 q = find m q := by
  unfold insert
  cases find m p with
  | none => simp [find, h]
  | some v => simp

theorem find_insert_of_some (m : LocalRtpInfoMap) (p c q : Nat) (v : LocalRtpInfo)
    (h : find m q = some v) : find (insert m p c).1 q = some v := by
  by_cases hpq : p = q
  · subst hpq
    rw [find_insert_self, h]
    rfl
  · rw [find_insert_of_ne m p c q hpq, h]

theorem insert_of_some (m : LocalRtpInfoMap) (p c : Nat) (v : LocalRtpInfo)
    (h : find m p = some v) : insert m p c = (m, false) := by
  simp [insert, h]

theorem insert_of_none (m : LocalRtpInfoMap) (p c : Nat)
    (h : find m p = none) : insert m p c = ((p, LocalRtpInfo.mk1 c) :: m, true) := by
  simp [insert, h]

theorem find_setPreviousResult_self (m : LocalRtpInfoMap) (p : Nat) (r : Int) :
    find (setPreviousResult m p r) p
      = (find m p).map (fun v => { v with m_previousResult := r }) := by
  induction m with
  | nil => simp [setPreviousResult, find]
  | cons e rest ih =>
    obtain ⟨k, v⟩ := e
    by_cases hk : k = p
    · simp [setPreviousResult, find, hk]
    · simp [setPreviousResult, find, hk, ih]

theorem find_setPreviousResult_of_ne (m : LocalRtpInfoMap) (p q : Nat) (r : Int) (h : p ≠ q) :
    find (setPreviousResult m p r) q = find m q := by
  induction m with
  | nil => simp [setPreviousResult, find]
  | cons e rest ih =>
    obtain ⟨k, v⟩ := e
    by_cases hk : k = p
    · have hkq : k ≠ q := by rw [hk]; exact h
      simp [setPreviousResult, find, hk, ih]
      simp [h]
    · by_cases hkq : k = q
      · subst hkq
        simp [setPreviousResult, find, hk]
      · simp [setPreviousResult, find, hk, hkq, ih]

theorem find_erase_self (m : LocalRtpInfoMap) (p : Nat) : find (erase m p) p = none := by
  induction m with
  | nil => simp [erase, find]
  | cons e rest ih =>
    obtain ⟨k, v⟩ := e
    by_cases hk : k = p
    · simp [erase, hk, ih]
    · simp [erase, find, hk, ih]

theorem find_erase_of_ne (m : LocalRtpInfoMap) (p q : Nat) (h : p ≠ q) :
    find (erase m p) q = find m q := by
  induction m with
  | nil => simp [erase, find]
  | cons e rest ih =>
    obtain ⟨k, v⟩ := e
    by_cases hk : k = p
    · have hkq : k ≠ q := by rw [hk]; exact h
      simp [erase, find, hk, ih]
      simp [h]
    · by_cases hkq : k = q
      · subst hkq
        simp [erase, find, hk]
      · simp [erase, find, hk, hkq, ih]

end LocalRtpInfoMap

/-! ## Facts about `CheckForLocalRTP` -/

/-- A stream that is not an RTP/UDP stream, or whose remote address is not
local, leaves the endpoint untouched. -/
theorem CheckForLocalRTP_not_local (OnLocalRTP : LocalRTPCallback)
    (connectionsActive : List (Option OpalRTPConnection))
    (ep : OpalRTPEndPoint) (stream : OpalRTPMediaStream)
    (h : ∀ rtp, stream.rtp = some rtp → rtp.remoteIsLocalHost = false) :
    CheckForLocalRTP OnLocalRTP connectionsActive ep stream = (false, ep) := by
  unfold CheckForLocalRTP
  cases hr : stream.rtp with
  | none => simp [GetRTPFromStream, hr]
  | some rtp => simp [GetRTPFromStream, hr, h rtp hr]

/-- When the remote port's entry already holds a decision, the call returns it
without calling anybody; the cache is the one after recording the own port. -/
theorem CheckForLocalRTP_memoized (OnLocalRTP : LocalRTPCallback)
    (connectionsActive : List (Option OpalRTPConnection))
    (ep : OpalRTPEndPoint) (stream : OpalRTPMediaStream) (rtp : RTP_UDP) (info : LocalRtpInfo)
    (hr : stream.rtp = some rtp) (hl : rtp.remoteIsLocalHost = true)
    (hf : ep.m_connectionsByRtpLocalPort.find rtp.remoteDataPort = some info)
    (hd : 0 ≤ info.m_previousResult) :
    CheckForLocalRTP OnLocalRTP connectionsActive ep stream
      = (info.m_previousResult != 0,
         { m_connectionsByRtpLocalPort :=
             (ep.m_connectionsByRtpLocalPort.insert rtp.localDataPort stream.connection).1,
           history := ep.history }) := by
  have hf2 := LocalRtpInfoMap.find_insert_of_some ep.m_connectionsByRtpLocalPort
    rtp.localDataPort stream.connection rtp.remoteDataPort info hf
  have hd2 : ¬ info.m_previousResult < 0 := not_lt.mpr hd
  simp [CheckForLocalRTP, GetRTPFromStream, hr, hl, hf2, hd2]

/-- When both the own port and the remote port are cached and the remote entry
holds a decision, the call changes nothing at all. -/
theorem CheckForLocalRTP_stable (OnLocalRTP : LocalRTPCallback)
    (connectionsActive : List (Option OpalRTPConnection))
    (ep : OpalRTPEndPoint) (stream : OpalRTPMediaStream) (rtp : RTP_UDP) (own info : LocalRtpInfo)
    (hr : stream.rtp = some rtp) (hl : rtp.remoteIsLocalHost = true)
    (ho : ep.m_connectionsByRtpLocalPort.find rtp.localDataPort = some own)
    (hf : ep.m_connectionsByRtpLocalPort.find rtp.remoteDataPort = some info)
    (hd : 0 ≤ info.m_previousResult) :
    CheckForLocalRTP OnLocalRTP connectionsActive ep stream = (info.m_previousResult != 0, ep) := by
  rw [CheckForLocalRTP_memoized OnLocalRTP connectionsActive ep stream rtp info hr hl hf hd,
    LocalRtpInfoMap.insert_of_some _ _ _ own ho]

/-- The scan finds a connection as soon as an active connection has a session
bound to the port. -/
theorem scanConnectionsActive_of_mem (connectionsActive : List (Option OpalRTPConnection))
    (port : Nat) (c : OpalRTPConnection) (hc : some c ∈ connectionsActive)
    (hp : port ∈ c.sessionLocalPorts) :
    ∃ found, scanConnectionsActive connectionsActive port = some found := by
  induction connectionsActive with
  | nil => simp at hc
  | cons x rest ih =>
    cases x with
    | none =>
      have hc2 : some c ∈ rest := by simpa using hc
      simpa [scanConnectionsActive] using ih hc2
    | some y =>
      by_cases hy : y.FindSessionByLocalPort port = true
      · exact ⟨y.id, by simp [scanConnectionsActive, hy]⟩
      · have hne : c ≠ y := by
          intro hcy
          apply hy
          rw [← hcy]
          simp [OpalRTPConnection.FindSessionByLocalPort, hp]
        have hc2 : some c ∈ rest := by
          rcases List.mem_cons.mp hc with h1 | h1
          · exact absurd (Option.some.inj h1) hne
          · exact h1
        obtain ⟨found, hfound⟩ := ih hc2
        exact ⟨found, by simp [scanConnectionsActive, hy, hfound]⟩

/-- The scan finds nothing when no active connection has a session bound to
the port. -/
theorem scanConnectionsActive_eq_none (connectionsActive : List (Option OpalRTPConnection))
    (port : Nat) (h : ∀ c, some c ∈ connectionsActive → port ∉ c.sessionLocalPorts) :
    scanConnectionsActive connectionsActive port = none := by
  induction connectionsActive with
  | nil => rfl
  | cons x rest ih =>
    have hrest : ∀ c, some c ∈ rest → port ∉ c.sessionLocalPorts :=
      fun c hc => h c (List.mem_cons_of_mem _ hc)
    cases x with
    | none => simpa [scanConnectionsActive] using ih hrest
    | some y =>
      have hy : port ∉ y.sessionLocalPorts := h y (List.mem_cons_self _ _)
      simp [scanConnectionsActive, OpalRTPConnection.FindSessionByLocalPort, hy, ih hrest]

theorem boolToInt_ne_zero (b : Bool) : (boolToInt b != 0) = b := by
  cases b <;> simp [boolToInt]

theorem boolToInt_nonneg (b : Bool) : 0 ≤ boolToInt b := by
  cases b <;> simp [boolToInt]

/-- The first call of a pair, from an endpoint with an empty cache, when the
scan finds the peer: one scan, one callback, and both entries hold the
decision. -/
theorem CheckForLocalRTP_first (OnLocalRTP : LocalRTPCallback)
    (connectionsActive : List (Option OpalRTPConnection))
    (stream : OpalRTPMediaStream) (rtp : RTP_UDP) (peer : Nat)
    (hr : stream.rtp = some rtp) (hl : rtp.remoteIsLocalHost = true)
    (hne : rtp.localDataPort ≠ rtp.remoteDataPort)
    (hs : scanConnectionsActive connectionsActive rtp.remoteDataPort = some peer) :
    CheckForLocalRTP OnLocalRTP connectionsActive OpalRTPEndPoint.empty stream
      = (OnLocalRTP [EpEvent.scan rtp.remoteDataPort] stream.connection peer rtp.sessionID true,
         { m_connectionsByRtpLocalPort :=
             [(rtp.remoteDataPort,
               { m_connection := peer,
                 m_previousResult := boolToInt
                   (OnLocalRTP [EpEvent.scan rtp.remoteDataPort] stream.connection peer rtp.sessionID true) }),
              (rtp.localDataPort,
               { m_connection := stream.connection,
                 m_previousResult := boolToInt
                   (OnLocalRTP [EpEvent.scan rtp.remoteDataPort] stream.connection peer rtp.sessionID true) })],
           history :=
             [EpEvent.scan rtp.remoteDataPort,
              EpEvent.OnLocalRTP stream.connection peer rtp.sessionID true
                (OnLocalRTP [EpEvent.scan rtp.remoteDataPort] stream.connection peer rtp.sessionID true)] }) := by
  simp [CheckForLocalRTP, GetRTPFromStream, hr, hl, hs, OpalRTPEndPoint.empty,
    LocalRtpInfoMap.insert, LocalRtpInfoMap.find, LocalRtpInfoMap.setPreviousResult,
    LocalRtpInfo.mk1, hne, Ne.symm hne, boolToInt_ne_zero]

/-- Once the entries of both ports hold the same decision, any sequence of
calls from streams of the two paired port assignments returns that decision and
leaves the endpoint as it is. -/
theorem runCheckForLocalRTP_stable (OnLocalRTP : LocalRTPCallback)
    (connectionsActive : List (Option OpalRTPConnection))
    (ep : OpalRTPEndPoint) (p q : Nat) (ip iq : LocalRtpInfo) (d : Int) (hd : 0 ≤ d)
    (hp : ep.m_connectionsByRtpLocalPort.find p = some ip) (hpd : ip.m_previousResult = d)
    (hq : ep.m_connectionsByRtpLocalPort.find q = some iq) (hqd : iq.m_previousResult = d)
    (calls : List OpalRTPMediaStream)
    (hcalls : ∀ s ∈ calls, ∃ rtp, s.rtp = some rtp ∧ rtp.remoteIsLocalHost = true ∧
      ((rtp.localDataPort = p ∧ rtp.remoteDataPort = q) ∨
       (rtp.localDataPort = q ∧ rtp.remoteDataPort = p))) :
    runCheckForLocalRTP OnLocalRTP connectionsActive ep calls
      = (List.replicate calls.length (d != 0), ep) := by
  induction calls with
  | nil => rfl
  | cons s rest ih =>
    have hrest : ∀ s ∈ rest, ∃ rtp, s.rtp = some rtp ∧ rtp.remoteIsLocalHost = true ∧
        ((rtp.localDataPort = p ∧ rtp.remoteDataPort = q) ∨
         (rtp.localDataPort = q ∧ rtp.remoteDataPort = p)) :=
      fun s hs => hcalls s (List.mem_cons_of_mem _ hs)
    obtain ⟨rtp, hr, hl, hports⟩ := hcalls s (List.mem_cons_self _ _)
    have hstep : CheckForLocalRTP OnLocalRTP connectionsActive ep s = (d != 0, ep) := by
      rcases hports with ⟨h1, h2⟩ | ⟨h1, h2⟩
      · have := CheckForLocalRTP_stable OnLocalRTP connectionsActive ep s rtp ip iq hr hl
          (by rw [h1]; exact hp) (by rw [h2]; exact hq) (by rw [hqd]; exact hd)
        rw [this, hqd]
      · have := CheckForLocalRTP_stable OnLocalRTP connectionsActive ep s rtp iq ip hr hl
          (by rw [h1]; exact hq) (by rw [h2]; exact hp) (by rw [hpd]; exact hd)
        rw [this, hpd]
    simp [runCheckForLocalRTP, hstep, ih hrest, List.replicate_succ]

/-- The three remaining outcomes of `CheckForLocalRTP` on a loopback stream, in
terms of the cache after the own port has been recorded. First: the remote
port is cached with the decision still unknown. -/
theorem CheckForLocalRTP_cached_unknown (OnLocalRTP : LocalRTPCallback)
    (connectionsActive : List (Option OpalRTPConnection))
    (ep : OpalRTPEndPoint) (stream : OpalRTPMediaStream) (rtp : RTP_UDP) (info : LocalRtpInfo)
    (hr : stream.rtp = some rtp) (hl : rtp.remoteIsLocalHost = true)
    (hf : (ep.m_connectionsByRtpLocalPort.insert rtp.localDataPort stream.connection).1.find
      rtp.remoteDataPort = some info)
    (hd : info.m_previousResult < 0) :
    CheckForLocalRTP OnLocalRTP connectionsActive ep stream
      = (OnLocalRTP ep.history stream.connection info.m_connection rtp.sessionID true,
         { m_connectionsByRtpLocalPort :=
             if (ep.m_connectionsByRtpLocalPort.insert rtp.localDataPort stream.connection).2 then
               (((ep.m_connectionsByRtpLocalPort.insert rtp.localDataPort stream.connection).1.setPreviousResult
                  rtp.remoteDataPort
                  (boolToInt (OnLocalRTP ep.history stream.connection info.m_connection rtp.sessionID true))).setPreviousResult
                  rtp.localDataPort
                  (boolToInt (OnLocalRTP ep.history stream.connection info.m_connection rtp.sessionID true)))
             else
               ((ep.m_connectionsByRtpLocalPort.insert rtp.localDataPort stream.connection).1.setPreviousResult
                  rtp.remoteDataPort
                  (boolToInt (OnLocalRTP ep.history stream.connection info.m_connection rtp.sessionID true))),
           history := ep.history ++
             [EpEvent.OnLocalRTP stream.connection info.m_connection rtp.sessionID true
               (OnLocalRTP ep.history stream.connection info.m_connection rtp.sessionID true)] }) := by
  simp [CheckForLocalRTP, GetRTPFromStream, hr, hl, hf, hd, boolToInt_ne_zero]

/-- Second: the remote port is not cached and the scan finds a connection. -/
theorem CheckForLocalRTP_scanned (OnLocalRTP : LocalRTPCallback)
    (connectionsActive : List (Option OpalRTPConnection))
    (ep : OpalRTPEndPoint) (stream : OpalRTPMediaStream) (rtp : RTP_UDP) (peer : Nat)
    (hr : stream.rtp = some rtp) (hl : rtp.remoteIsLocalHost = true)
    (hf : (ep.m_connectionsByRtpLocalPort.insert rtp.localDataPort stream.connection).1.find
      rtp.remoteDataPort = none)
    (hs : scanConnectionsActive connectionsActive rtp.remoteDataPort = some peer) :
    CheckForLocalRTP OnLocalRTP connectionsActive ep stream
      = (OnLocalRTP (ep.history ++ [EpEvent.scan rtp.remoteDataPort]) stream.connection peer
           rtp.sessionID true,
         { m_connectionsByRtpLocalPort :=
             if (ep.m_connectionsByRtpLocalPort.insert rtp.localDataPort stream.connection).2 then
               ((((ep.m_connectionsByRtpLocalPort.insert rtp.localDataPort stream.connection).1.insert
                   rtp.remoteDataPort peer).1.setPreviousResult
                  rtp.remoteDataPort
                  (boolToInt (OnLocalRTP (ep.history ++ [EpEvent.scan rtp.remoteDataPort])
                    stream.connection peer rtp.sessionID true))).setPreviousResult
                  rtp.localDataPort
                  (boolToInt (OnLocalRTP (ep.history ++ [EpEvent.scan rtp.remoteDataPort])
                    stream.connection peer rtp.sessionID true)))
             else
               (((ep.m_connectionsByRtpLocalPort.insert rtp.localDataPort stream.connection).1.insert
                   rtp.remoteDataPort peer).1.setPreviousResult
                  rtp.remoteDataPort
                  (boolToInt (OnLocalRTP (ep.history ++ [EpEvent.scan rtp.remoteDataPort])
                    stream.connection peer rtp.sessionID true))),
           history := ep.history ++
             [EpEvent.scan rtp.remoteDataPort,
              EpEvent.OnLocalRTP stream.connection peer rtp.sessionID true
               (OnLocalRTP (ep.history ++ [EpEvent.scan rtp.remoteDataPort]) stream.connection peer
                 rtp.sessionID true)] }) := by
  simp [CheckForLocalRTP, GetRTPFromStream, hr, hl, hf, hs, boolToInt_ne_zero, LocalRtpInfo.mk1]

/-- Third: the remote port is not cached and the scan finds nothing. -/
theorem CheckForLocalRTP_scan_failed (OnLocalRTP : LocalRTPCallback)
    (connectionsActive : List (Option OpalRTPConnection))
    (ep : OpalRTPEndPoint) (stream : OpalRTPMediaStream) (rtp : RTP_UDP)
    (hr : stream.rtp = some rtp) (hl : rtp.remoteIsLocalHost = true)
    (hf : (ep.m_connectionsByRtpLocalPort.insert rtp.localDataPort stream.connection).1.find
      rtp.remoteDataPort = none)
    (hs : scanConnectionsActive connectionsActive rtp.remoteDataPort = none) :
    CheckForLocalRTP OnLocalRTP connectionsActive ep stream
      = (false,
         { m_connectionsByRtpLocalPort :=
             (ep.m_connectionsByRtpLocalPort.insert rtp.localDataPort stream.connection).1,
           history := ep.history ++ [EpEvent.scan rtp.remoteDataPort] }) := by
  simp [CheckForLocalRTP, GetRTPFromStream, hr, hl, hf, hs]

/-- The remaining outcome: the remote port is cached with a decision. -/
theorem CheckForLocalRTP_cached_decided (OnLocalRTP : LocalRTPCallback)
    (connectionsActive : List (Option OpalRTPConnection))
    (ep : OpalRTPEndPoint) (stream : OpalRTPMediaStream) (rtp : RTP_UDP) (info : LocalRtpInfo)
    (hr : stream.rtp = some rtp) (hl : rtp.remoteIsLocalHost = true)
    (hf : (ep.m_connectionsByRtpLocalPort.insert rtp.localDataPort stream.connection).1.find
      rtp.remoteDataPort = some info)
    (hd : ¬ info.m_previousResult < 0) :
    CheckForLocalRTP OnLocalRTP connectionsActive ep stream
      = (info.m_previousResult != 0,
         { m_connectionsByRtpLocalPort :=
             (ep.m_connectionsByRtpLocalPort.insert rtp.localDataPort stream.connection).1,
           history := ep.history }) := by
  simp [CheckForLocalRTP, GetRTPFromStream, hr, hl, hf, hd]

theorem callbackCount_append (h1 h2 : List EpEvent) :
    callbackCount (h1 ++ h2) = callbackCount h1 + callbackCount h2 := by
  induction h1 with
  | nil => simp [callbackCount]
  | cons e rest ih =>
    cases e with
    | scan port => simpa [callbackCount] using ih
    | OnLocalRTP c1 c2 sid opened result => simp [callbackCount, ih]; omega

theorem scanCount_append (h1 h2 : List EpEvent) :
    scanCount (h1 ++ h2) = scanCount h1 + scanCount h2 := by
  induction h1 with
  | nil => simp [scanCount]
  | cons e rest ih =>
    cases e with
    | scan port => simp [scanCount, ih]; omega
    | OnLocalRTP c1 c2 sid opened result => simpa [scanCount] using ih

/-- After the decision has been written through both iterators (or only through
the remote one), the remote port's entry holds it. -/
theorem memoized_remote (m : LocalRtpInfoMap) (localPort remotePort : Nat) (d : Int) (b : Bool)
    (info : LocalRtpInfo) (h : m.find remotePort = some info) :
    ((if b then (m.setPreviousResult remotePort d).setPreviousResult localPort d
        else m.setPreviousResult remotePort d).find remotePort).map (fun i => i.m_previousResult)
      = some d := by
  cases b with
  | false => simp [LocalRtpInfoMap.find_setPreviousResult_self, h]
  | true =>
    by_cases hne : localPort = remotePort
    · subst hne
      simp [LocalRtpInfoMap.find_setPreviousResult_self, h]
    · simp [LocalRtpInfoMap.find_setPreviousResult_of_ne _ _ _ _ hne,
        LocalRtpInfoMap.find_setPreviousResult_self, h]

/-- After the decision has been written through both iterators, the own port's
entry holds it. -/
theorem memoized_own_new (m : LocalRtpInfoMap) (localPort remotePort : Nat) (d : Int)
    (info : LocalRtpInfo) (h : m.find localPort = some info) :
    (((m.setPreviousResult remotePort d).setPreviousResult localPort d).find localPort).map
      (fun i => i.m_previousResult) = some d := by
  by_cases hne : remotePort = localPort
  · subst hne
    simp [LocalRtpInfoMap.find_setPreviousResult_self, h]
  · simp [LocalRtpInfoMap.find_setPreviousResult_of_ne _ _ _ _ hne,
      LocalRtpInfoMap.find_setPreviousResult_self, h]

/-! ## The bypass cache: claims -/

/-- C1. Bypass-cache scenario: from the empty cache, with A (local port 5000,
remote port 6000) and B (local port 6000, remote port 5000) both active and
both on loopback, any non-empty sequence `first :: rest` of `CheckForLocalRTP`
calls from A's or B's stream invokes `OnLocalRTP(..., opened = true)` exactly
once, in the first call, invokes the callback no other time, and every call
returns what that invocation returned. -/
theorem C1_bypass_scenario_single_callback
    (OnLocalRTP : LocalRTPCallback) (connectionsActive : List (Option OpalRTPConnection))
    (streamA streamB : OpalRTPMediaStream) (rtpA rtpB : RTP_UDP) (connA connB : OpalRTPConnection)
    (hA : streamA.rtp = some rtpA) (hAlocal : rtpA.remoteIsLocalHost = true)
    (hAl : rtpA.localDataPort = 5000) (hAr : rtpA.remoteDataPort = 6000)
    (hB : streamB.rtp = some rtpB) (hBlocal : rtpB.remoteIsLocalHost = true)
    (hBl : rtpB.localDataPort = 6000) (hBr : rtpB.remoteDataPort = 5000)
    (hAact : some connA ∈ connectionsActive) (hAport : 5000 ∈ connA.sessionLocalPorts)
    (hBact : some connB ∈ connectionsActive) (hBport : 6000 ∈ connB.sessionLocalPorts)
    (first : OpalRTPMediaStream) (rest : List OpalRTPMediaStream)
    (hfirst : first = streamA ∨ first = streamB)
    (hrest : ∀ s ∈ rest, s = streamA ∨ s = streamB) :
    ∃ result : Bool,
      openedResults
        (CheckForLocalRTP OnLocalRTP connectionsActive OpalRTPEndPoint.empty first).2.history
          = [result] ∧
      openedResults
        (runCheckForLocalRTP OnLocalRTP connectionsActive OpalRTPEndPoint.empty (first :: rest)).2.history
          = [result] ∧
      callbackCount
        (runCheckForLocalRTP OnLocalRTP connectionsActive OpalRTPEndPoint.empty (first :: rest)).2.history
          = 1 ∧
      (runCheckForLocalRTP OnLocalRTP connectionsActive OpalRTPEndPoint.empty (first :: rest)).1
          = List.replicate (rest.length + 1) result := by
  obtain ⟨peerB, hscanB⟩ := scanConnectionsActive_of_mem connectionsActive 6000 connB hBact hBport
  obtain ⟨peerA, hscanA⟩ := scanConnectionsActive_of_mem connectionsActive 5000 connA hAact hAport
  have hcalls : ∀ s ∈ rest, ∃ rtp, s.rtp = some rtp ∧ rtp.remoteIsLocalHost = true ∧
      ((rtp.localDataPort = 5000 ∧ rtp.remoteDataPort = 6000) ∨
       (rtp.localDataPort = 6000 ∧ rtp.remoteDataPort = 5000)) := by
    intro s hs
    rcases hrest s hs with h | h
    · exact ⟨rtpA, by rw [h]; exact hA, hAlocal, Or.inl ⟨hAl, hAr⟩⟩
    · exact ⟨rtpB, by rw [h]; exact hB, hBlocal, Or.inr ⟨hBl, hBr⟩⟩
  rcases hfirst with h | h
  · subst h
    have h1 := CheckForLocalRTP_first OnLocalRTP connectionsActive first rtpA peerB hA hAlocal
      (by rw [hAl, hAr]; decide) (by rw [hAr]; exact hscanB)
    refine ⟨OnLocalRTP [EpEvent.scan rtpA.remoteDataPort] first.connection peerB rtpA.sessionID true,
      ?_, ?_, ?_, ?_⟩
    · rw [h1]; simp [openedResults]
    all_goals
      simp only [runCheckForLocalRTP]
      rw [h1]
      rw [runCheckForLocalRTP_stable OnLocalRTP connectionsActive _ 5000 6000 _ _ _
        (boolToInt_nonneg _)
        (by simp [LocalRtpInfoMap.find, hAl, hAr]; rfl) rfl
        (by simp [LocalRtpInfoMap.find, hAl, hAr]; rfl) rfl rest hcalls]
    · simp [openedResults]
    · simp [callbackCount]
    · simp [boolToInt_ne_zero, List.replicate_succ, hAr]
  · subst h
    have h1 := CheckForLocalRTP_first OnLocalRTP connectionsActive first rtpB peerA hB hBlocal
      (by rw [hBl, hBr]; decide) (by rw [hBr]; exact hscanA)
    refine ⟨OnLocalRTP [EpEvent.scan rtpB.remoteDataPort] first.connection peerA rtpB.sessionID true,
      ?_, ?_, ?_, ?_⟩
    · rw [h1]; simp [openedResults]
    all_goals
      simp only [runCheckForLocalRTP]
      rw [h1]
      rw [runCheckForLocalRTP_stable OnLocalRTP connectionsActive _ 5000 6000 _ _ _
        (boolToInt_nonneg _)
        (by simp [LocalRtpInfoMap.find, hBl, hBr]; rfl) rfl
        (by simp [LocalRtpInfoMap.find, hBl, hBr]; rfl) rfl rest hcalls]
    · simp [openedResults]
    · simp [callbackCount]
    · simp [boolToInt_ne_zero, List.replicate_succ, hBr]

/-- C1 at a concrete sequence: B calls first, then A, then B, with a callback
that always decides for bypass. -/
theorem C1_bypass_scenario_single_callback_witness :
    ∃ result : Bool,
      openedResults
        (CheckForLocalRTP alwaysBypass [some connectionA, some connectionB] OpalRTPEndPoint.empty
          (loopbackStream 2 6000 5000)).2.history = [result] ∧
      openedResults
        (runCheckForLocalRTP alwaysBypass [some connectionA, some connectionB] OpalRTPEndPoint.empty
          (loopbackStream 2 6000 5000 ::
            [loopbackStream 1 5000 6000, loopbackStream 2 6000 5000])).2.history = [result] ∧
      callbackCount
        (runCheckForLocalRTP alwaysBypass [some connectionA, some connectionB] OpalRTPEndPoint.empty
          (loopbackStream 2 6000 5000 ::
            [loopbackStream 1 5000 6000, loopbackStream 2 6000 5000])).2.history = 1 ∧
      (runCheckForLocalRTP alwaysBypass [some connectionA, some connectionB] OpalRTPEndPoint.empty
          (loopbackStream 2 6000 5000 ::
            [loopbackStream 1 5000 6000, loopbackStream 2 6000 5000])).1
        = List.replicate ([loopbackStream 1 5000 6000, loopbackStream 2 6000 5000].length + 1) result :=
  C1_bypass_scenario_single_callback alwaysBypass [some connectionA, some connectionB]
    (loopbackStream 1 5000 6000) (loopbackStream 2 6000 5000)
    { remoteIsLocalHost := true, localDataPort := 5000, remoteDataPort := 6000, sessionID := 1 }
    { remoteIsLocalHost := true, localDataPort := 6000, remoteDataPort := 5000, sessionID := 1 }
    connectionA connectionB rfl rfl rfl rfl rfl rfl rfl rfl
    (by simp) (by simp [connectionA]) (by simp) (by simp [connectionB])
    (loopbackStream 2 6000 5000) [loopbackStream 1 5000 6000, loopbackStream 2 6000 5000]
    (Or.inr rfl) (by intro s hs; simp at hs; rcases hs with h | h <;> simp [h])

/-- C2, as stated, fails: with entries for ports 5000 and 6000 in the cache,
`CheckEndLocalRTP` for the session bound to 5000 and sending to 6000 removes
the entry of 5000 and leaves the entry of 6000 in the cache. -/
theorem C2_counterexample :
    LocalRtpInfoMap.find
        [(5000, { m_connection := 1, m_previousResult := 1 }),
         (6000, { m_connection := 2, m_previousResult := 1 })] 5000
      = some { m_connection := 1, m_previousResult := 1 } ∧
    LocalRtpInfoMap.find
        [(5000, { m_connection := 1, m_previousResult := 1 }),
         (6000, { m_connection := 2, m_previousResult := 1 })] 6000
      = some { m_connection := 2, m_previousResult := 1 } ∧
    (CheckEndLocalRTP alwaysBypass
        { m_connectionsByRtpLocalPort :=
            [(5000, { m_connection := 1, m_previousResult := 1 }),
             (6000, { m_connection := 2, m_previousResult := 1 })],
          history := [] }
        1 (some { remoteIsLocalHost := true, localDataPort := 5000, remoteDataPort := 6000,
                  sessionID := 1 })).m_connectionsByRtpLocalPort
      = [(6000, { m_connection := 2, m_previousResult := 1 })] := by
  decide

/-- C2, amended. For every cache holding an entry for the session's local data
port and one for its remote data port, after `CheckEndLocalRTP` (and so after
`OnClosedMediaStream` on a stream of that session) the local-port entry is gone,
and the paired remote-port entry, when its port is another one, is still in the
cache, unchanged. -/
theorem C2_teardown_removes_own_entry_only
    (OnLocalRTP : LocalRTPCallback) (ep : OpalRTPEndPoint) (connection : Nat) (rtp : RTP_UDP)
    (own paired : LocalRtpInfo)
    (ho : ep.m_connectionsByRtpLocalPort.find rtp.localDataPort = some own)
    (hp : ep.m_connectionsByRtpLocalPort.find rtp.remoteDataPort = some paired) :
    (CheckEndLocalRTP OnLocalRTP ep connection (some rtp)).m_connectionsByRtpLocalPort.find
        rtp.localDataPort = none ∧
    (rtp.localDataPort ≠ rtp.remoteDataPort →
      (CheckEndLocalRTP OnLocalRTP ep connection (some rtp)).m_connectionsByRtpLocalPort.find
        rtp.remoteDataPort = some paired) ∧
    (∀ s : OpalRTPMediaStream, s.rtp = some rtp →
      OnClosedMediaStream OnLocalRTP ep (OpalMediaStream.rtpStream s)
        = CheckEndLocalRTP OnLocalRTP ep s.connection (some rtp)) := by
  have hcache : (CheckEndLocalRTP OnLocalRTP ep connection (some rtp)).m_connectionsByRtpLocalPort
      = ep.m_connectionsByRtpLocalPort.erase rtp.localDataPort := by
    simp only [CheckEndLocalRTP, ho]
    cases (ep.m_connectionsByRtpLocalPort.erase rtp.localDataPort).find rtp.remoteDataPort <;> rfl
  refine ⟨?_, ?_, ?_⟩
  · rw [hcache]
    exact LocalRtpInfoMap.find_erase_self _ _
  · intro hne
    rw [hcache, LocalRtpInfoMap.find_erase_of_ne _ _ _ hne]
    exact hp
  · intro s hs
    simp [OnClosedMediaStream, OpalMediaStream.GetConnection, GetRTPFromStream, hs]

/-- C2, amended, at the cache with entries for ports 5000 and 6000. -/
theorem C2_teardown_removes_own_entry_only_witness :
    (CheckEndLocalRTP alwaysBypass
        { m_connectionsByRtpLocalPort :=
            [(5000, { m_connection := 1, m_previousResult := 1 }),
             (6000, { m_connection := 2, m_previousResult := 1 })],
          history := [] }
        1 (some { remoteIsLocalHost := true, localDataPort := 5000, remoteDataPort := 6000,
                  sessionID := 1 })).m_connectionsByRtpLocalPort.find 6000
      = some { m_connection := 2, m_previousResult := 1 } :=
  (C2_teardown_removes_own_entry_only alwaysBypass
    { m_connectionsByRtpLocalPort :=
        [(5000, { m_connection := 1, m_previousResult := 1 }),
         (6000, { m_connection := 2, m_previousResult := 1 })],
      history := [] }
    1 { remoteIsLocalHost := true, localDataPort := 5000, remoteDataPort := 6000, sessionID := 1 }
    { m_connection := 1, m_previousResult := 1 } { m_connection := 2, m_previousResult := 1 }
    (by decide) (by decide)).2.1 (by decide)

/-- C3, as stated, fails. A first call from the stream of ports 5000/6000 finds
no peer and records only its own port; a second call from the same stream
finds the peer, invokes the callback (which returns true), stores the decision
in the entry of port 6000, and leaves the own entry of port 5000 Unknown. -/
theorem C3_counterexample :
    CheckForLocalRTP alwaysBypass [some connectionB]
        (CheckForLocalRTP alwaysBypass [] OpalRTPEndPoint.empty (loopbackStream 1 5000 6000)).2
        (loopbackStream 1 5000 6000)
      = (true,
         { m_connectionsByRtpLocalPort :=
             [(6000, { m_connection := 2, m_previousResult := 1 }),
              (5000, { m_connection := 1, m_previousResult := -1 })],
           history := [EpEvent.scan 6000, EpEvent.scan 6000, EpEvent.OnLocalRTP 1 2 1 true true] }) := by
  decide

/-- C3, amended. Whenever a `CheckForLocalRTP` call on a loopback stream invokes
the decision callback, it invokes it once, as the last thing it does, returns
its result, and on return the entry of the remote data port holds the decision;
the entry of the own local data port holds it too when this call created that
entry, and an own entry that existed before (under another port) is left as it
was. -/
theorem C3_memoization_on_decision
    (OnLocalRTP : LocalRTPCallback) (connectionsActive : List (Option OpalRTPConnection))
    (ep : OpalRTPEndPoint) (stream : OpalRTPMediaStream) (rtp : RTP_UDP)
    (hr : stream.rtp = some rtp) (hl : rtp.remoteIsLocalHost = true)
    (hcall : callbackCount (CheckForLocalRTP OnLocalRTP connectionsActive ep stream).2.history
      ≠ callbackCount ep.history) :
    ∃ peer result,
      (CheckForLocalRTP OnLocalRTP connectionsActive ep stream).2.history.getLast?
        = some (EpEvent.OnLocalRTP stream.connection peer rtp.sessionID true result) ∧
      callbackCount (CheckForLocalRTP OnLocalRTP connectionsActive ep stream).2.history
        = callbackCount ep.history + 1 ∧
      (CheckForLocalRTP OnLocalRTP connectionsActive ep stream).1 = result ∧
      ((CheckForLocalRTP OnLocalRTP connectionsActive ep stream).2.m_connectionsByRtpLocalPort.find
          rtp.remoteDataPort).map (fun i => i.m_previousResult) = some (boolToInt result) ∧
      (ep.m_connectionsByRtpLocalPort.find rtp.localDataPort = none →
        ((CheckForLocalRTP OnLocalRTP connectionsActive ep stream).2.m_connectionsByRtpLocalPort.find
          rtp.localDataPort).map (fun i => i.m_previousResult) = some (boolToInt result)) ∧
      (∀ own, ep.m_connectionsByRtpLocalPort.find rtp.localDataPort = some own →
        rtp.localDataPort ≠ rtp.remoteDataPort →
        (CheckForLocalRTP OnLocalRTP connectionsActive ep stream).2.m_connectionsByRtpLocalPort.find
          rtp.localDataPort = some own) := by
  cases hfind : (ep.m_connectionsByRtpLocalPort.insert rtp.localDataPort stream.connection).1.find
      rtp.remoteDataPort with
  | some info =>
    by_cases hlt : info.m_previousResult < 0
    · rw [CheckForLocalRTP_cached_unknown OnLocalRTP connectionsActive ep stream rtp info hr hl hfind hlt]
      refine ⟨info.m_connection,
        OnLocalRTP ep.history stream.connection info.m_connection rtp.sessionID true,
        ?_, ?_, rfl, ?_, ?_, ?_⟩
      · simp
      · simp [callbackCount_append, callbackCount]
      · exact memoized_remote _ _ _ _ _ info hfind
      · intro hnone
        have hins := LocalRtpInfoMap.insert_of_none _ _ stream.connection hnone
        have hown := LocalRtpInfoMap.find_insert_self ep.m_connectionsByRtpLocalPort
          rtp.localDataPort stream.connection
        simp only [hins] at hown ⊢
        exact memoized_own_new _ _ _ _ _ hown
      · intro own hown hne
        have hins := LocalRtpInfoMap.insert_of_some _ _ stream.connection own hown
        simp only [hins]
        simp only [Bool.false_eq_true, if_false]
        rw [LocalRtpInfoMap.find_setPreviousResult_of_ne _ _ _ _ (Ne.symm hne)]
        exact hown
    · rw [CheckForLocalRTP_cached_decided OnLocalRTP connectionsActive ep stream rtp info hr hl hfind hlt]
        at hcall
      exact absurd rfl hcall
  | none =>
    cases hscan : scanConnectionsActive connectionsActive rtp.remoteDataPort with
    | none =>
      rw [CheckForLocalRTP_scan_failed OnLocalRTP connectionsActive ep stream rtp hr hl hfind hscan]
        at hcall
      simp [callbackCount_append, callbackCount] at hcall
    | some peer =>
      have hne : rtp.localDataPort ≠ rtp.remoteDataPort := by
        intro heq
        rw [← heq, LocalRtpInfoMap.find_insert_self] at hfind
        exact Option.noConfusion hfind
      have hremote := LocalRtpInfoMap.find_insert_self
        (ep.m_connectionsByRtpLocalPort.insert rtp.localDataPort stream.connection).1
        rtp.remoteDataPort peer
      rw [CheckForLocalRTP_scanned OnLocalRTP connectionsActive ep stream rtp peer hr hl hfind hscan]
      refine ⟨peer,
        OnLocalRTP (ep.history ++ [EpEvent.scan rtp.remoteDataPort]) stream.connection peer
          rtp.sessionID true,
        ?_, ?_, rfl, ?_, ?_, ?_⟩
      · simp
      · simp [callbackCount_append, callbackCount]
      · exact memoized_remote _ _ _ _ _ _ hremote
      · intro hnone
        have hins := LocalRtpInfoMap.insert_of_none _ _ stream.connection hnone
        have hown := LocalRtpInfoMap.find_insert_self ep.m_connectionsByRtpLocalPort
          rtp.localDataPort stream.connection
        have hown2 := LocalRtpInfoMap.find_insert_of_some
          (ep.m_connectionsByRtpLocalPort.insert rtp.localDataPort stream.connection).1
          rtp.remoteDataPort peer rtp.localDataPort _ hown
        simp only [hins] at hown2 ⊢
        exact memoized_own_new _ _ _ _ _ hown2
      · intro own hown _
        have hins := LocalRtpInfoMap.insert_of_some _ _ stream.connection own hown
        simp only [hins]
        simp only [Bool.false_eq_true, if_false]
        rw [LocalRtpInfoMap.find_setPreviousResult_of_ne _ _ _ _ (Ne.symm hne),
          LocalRtpInfoMap.find_insert_of_ne _ _ _ _ (Ne.symm hne)]
        exact hown

/-- C3, amended, at the first call of the scenario: from the empty cache the
call from the stream of ports 5000/6000 creates its own entry, so both entries
hold the decision. -/
theorem C3_memoization_on_decision_witness :
    ∃ peer result,
      (CheckForLocalRTP alwaysBypass [some connectionB] OpalRTPEndPoint.empty
          (loopbackStream 1 5000 6000)).2.history.getLast?
        = some (EpEvent.OnLocalRTP 1 peer 1 true result) ∧
      ((CheckForLocalRTP alwaysBypass [some connectionB] OpalRTPEndPoint.empty
          (loopbackStream 1 5000 6000)).2.m_connectionsByRtpLocalPort.find 6000).map
            (fun i => i.m_previousResult) = some (boolToInt result) ∧
      ((CheckForLocalRTP alwaysBypass [some connectionB] OpalRTPEndPoint.empty
          (loopbackStream 1 5000 6000)).2.m_connectionsByRtpLocalPort.find 5000).map
            (fun i => i.m_previousResult) = some (boolToInt result) := by
  obtain ⟨peer, result, h1, _, _, h4, h5, _⟩ :=
    C3_memoization_on_decision alwaysBypass [some connectionB] OpalRTPEndPoint.empty
      (loopbackStream 1 5000 6000)
      { remoteIsLocalHost := true, localDataPort := 5000, remoteDataPort := 6000, sessionID := 1 }
      rfl rfl (by decide)
  exact ⟨peer, result, h1, h4, h5 (by decide)⟩

/-- C4. No recomputation: when the entry of the stream's remote data port
already holds a decision (`m_previousResult >= 0`), `CheckForLocalRTP` on a
loopback stream calls nobody (the history is unchanged, so the callback is
invoked zero times), leaves that entry as it is, and returns true exactly when
the decision is non-zero. -/
theorem C4_no_recomputation
    (OnLocalRTP : LocalRTPCallback) (connectionsActive : List (Option OpalRTPConnection))
    (ep : OpalRTPEndPoint) (stream : OpalRTPMediaStream) (rtp : RTP_UDP) (info : LocalRtpInfo)
    (hr : stream.rtp = some rtp) (hl : rtp.remoteIsLocalHost = true)
    (hf : ep.m_connectionsByRtpLocalPort.find rtp.remoteDataPort = some info)
    (hd : 0 ≤ info.m_previousResult) :
    (CheckForLocalRTP OnLocalRTP connectionsActive ep stream).2.history = ep.history ∧
    callbackCount (CheckForLocalRTP OnLocalRTP connectionsActive ep stream).2.history
      = callbackCount ep.history ∧
    (CheckForLocalRTP OnLocalRTP connectionsActive ep stream).2.m_connectionsByRtpLocalPort.find
      rtp.remoteDataPort = some info ∧
    ((CheckForLocalRTP OnLocalRTP connectionsActive ep stream).1 = true
      ↔ info.m_previousResult ≠ 0) := by
  rw [CheckForLocalRTP_memoized OnLocalRTP connectionsActive ep stream rtp info hr hl hf hd]
  refine ⟨rfl, rfl, ?_, ?_⟩
  · exact LocalRtpInfoMap.find_insert_of_some _ _ _ _ _ hf
  · simp

/-- C4 at a cache whose entry for port 6000 holds the decision Bypass. -/
theorem C4_no_recomputation_witness :
    (CheckForLocalRTP neverBypass []
        { m_connectionsByRtpLocalPort := [(6000, { m_connection := 2, m_previousResult := 1 })],
          history := [] }
        (loopbackStream 1 5000 6000)).2.history = [] ∧
    (CheckForLocalRTP neverBypass []
        { m_connectionsByRtpLocalPort := [(6000, { m_connection := 2, m_previousResult := 1 })],
          history := [] }
        (loopbackStream 1 5000 6000)).1 = true :=
  have h := C4_no_recomputation neverBypass []
    { m_connectionsByRtpLocalPort := [(6000, { m_connection := 2, m_previousResult := 1 })],
      history := [] }
    (loopbackStream 1 5000 6000)
    { remoteIsLocalHost := true, localDataPort := 5000, remoteDataPort := 6000, sessionID := 1 }
    { m_connection := 2, m_previousResult := 1 } rfl rfl (by decide) (by decide)
  ⟨h.1, h.2.2.2.mpr (by decide)⟩

/-- C5. Non-local streams are rejected without caching: when the stream's
session is not an RTP/UDP session, or its remote address is not local-host,
`CheckForLocalRTP` returns false and leaves cache and history as they were (no
entry added, removed or modified; no callback; no scan). -/
theorem C5_non_local_rejected
    (OnLocalRTP : LocalRTPCallback) (connectionsActive : List (Option OpalRTPConnection))
    (ep : OpalRTPEndPoint) (stream : OpalRTPMediaStream)
    (h : ∀ rtp, stream.rtp = some rtp → rtp.remoteIsLocalHost = false) :
    (CheckForLocalRTP OnLocalRTP connectionsActive ep stream).1 = false ∧
    (CheckForLocalRTP OnLocalRTP connectionsActive ep stream).2.m_connectionsByRtpLocalPort
      = ep.m_connectionsByRtpLocalPort ∧
    (CheckForLocalRTP OnLocalRTP connectionsActive ep stream).2.history = ep.history ∧
    callbackCount (CheckForLocalRTP OnLocalRTP connectionsActive ep stream).2.history
      = callbackCount ep.history ∧
    scanCount (CheckForLocalRTP OnLocalRTP connectionsActive ep stream).2.history
      = scanCount ep.history := by
  rw [CheckForLocalRTP_not_local OnLocalRTP connectionsActive ep stream h]
  exact ⟨rfl, rfl, rfl, rfl, rfl⟩

/-- C5 at a stream sending to a remote host, with the peer port cached and the
peer connection active. -/
theorem C5_non_local_rejected_witness :
    (CheckForLocalRTP alwaysBypass [some connectionB]
        { m_connectionsByRtpLocalPort := [(6000, { m_connection := 2, m_previousResult := -1 })],
          history := [] }
        (remoteStream 1 5000 6000)).1 = false ∧
    (CheckForLocalRTP alwaysBypass [some connectionB]
        { m_connectionsByRtpLocalPort := [(6000, { m_connection := 2, m_previousResult := -1 })],
          history := [] }
        (remoteStream 1 5000 6000)).2.m_connectionsByRtpLocalPort
      = [(6000, { m_connection := 2, m_previousResult := -1 })] :=
  have h := C5_non_local_rejected alwaysBypass [some connectionB]
    { m_connectionsByRtpLocalPort := [(6000, { m_connection := 2, m_previousResult := -1 })],
      history := [] }
    (remoteStream 1 5000 6000)
    (by intro rtp hrtp; simp [remoteStream, loopbackStream] at hrtp; rw [← hrtp])
  ⟨h.1, h.2.1⟩

/-- C6. Failed scan is uncached: for every loopback stream of an active
connection (the connection `own` of the stream is among the active connections
and has the stream's session, bound to the stream's local data port), whose
remote data port has no cache entry and for which no active connection has a
session bound to that port, `CheckForLocalRTP` returns false, invokes no
callback, and leaves the cache without an entry for the remote data port; a
later call from the stream, whatever the active connections then are, performs
the scan again. -/
theorem C6_failed_scan_uncached
    (OnLocalRTP : LocalRTPCallback) (connectionsActive : List (Option OpalRTPConnection))
    (ep : OpalRTPEndPoint) (stream : OpalRTPMediaStream) (rtp : RTP_UDP)
    (own : OpalRTPConnection)
    (hr : stream.rtp = some rtp) (hl : rtp.remoteIsLocalHost = true)
    (hown : some own ∈ connectionsActive ∧ own.id = stream.connection ∧
      rtp.localDataPort ∈ own.sessionLocalPorts)
    (hf : ep.m_connectionsByRtpLocalPort.find rtp.remoteDataPort = none)
    (hs : ∀ c, some c ∈ connectionsActive → rtp.remoteDataPort ∉ c.sessionLocalPorts) :
    (CheckForLocalRTP OnLocalRTP connectionsActive ep stream).1 = false ∧
    callbackCount (CheckForLocalRTP OnLocalRTP connectionsActive ep stream).2.history
      = callbackCount ep.history ∧
    (CheckForLocalRTP OnLocalRTP connectionsActive ep stream).2.m_connectionsByRtpLocalPort.find
      rtp.remoteDataPort = none ∧
    (∀ (laterOnLocalRTP : LocalRTPCallback) (laterActive : List (Option OpalRTPConnection)),
      scanCount (CheckForLocalRTP laterOnLocalRTP laterActive
          (CheckForLocalRTP OnLocalRTP connectionsActive ep stream).2 stream).2.history
        = scanCount (CheckForLocalRTP OnLocalRTP connectionsActive ep stream).2.history + 1) := by
  have hne : rtp.localDataPort ≠ rtp.remoteDataPort := by
    intro heq
    apply hs own hown.1
    rw [← heq]
    exact hown.2.2
  have hf1 : (ep.m_connectionsByRtpLocalPort.insert rtp.localDataPort stream.connection).1.find
      rtp.remoteDataPort = none := by
    rw [LocalRtpInfoMap.find_insert_of_ne _ _ _ _ hne]
    exact hf
  have hscan := scanConnectionsActive_eq_none connectionsActive rtp.remoteDataPort hs
  rw [CheckForLocalRTP_scan_failed OnLocalRTP connectionsActive ep stream rtp hr hl hf1 hscan]
  refine ⟨rfl, ?_, hf1, ?_⟩
  · simp [callbackCount_append, callbackCount]
  · intro laterOnLocalRTP laterActive
    have hf2 : ((ep.m_connectionsByRtpLocalPort.insert rtp.localDataPort stream.connection).1.insert
        rtp.localDataPort stream.connection).1.find rtp.remoteDataPort = none := by
      rw [LocalRtpInfoMap.find_insert_of_ne _ _ _ _ hne]
      exact hf1
    cases hlater : scanConnectionsActive laterActive rtp.remoteDataPort with
    | none =>
      rw [CheckForLocalRTP_scan_failed laterOnLocalRTP laterActive _ stream rtp hr hl hf2 hlater]
      simp [scanCount_append, scanCount]
    | some peer =>
      rw [CheckForLocalRTP_scanned laterOnLocalRTP laterActive _ stream rtp peer hr hl hf2 hlater]
      simp [scanCount_append, scanCount]

/-- C6 at the stream of connection 1 (ports 5000/6000) with an empty cache
while only connection 1 is active. -/
theorem C6_failed_scan_uncached_witness :
    (CheckForLocalRTP alwaysBypass [some connectionA] OpalRTPEndPoint.empty
        (loopbackStream 1 5000 6000)).1 = false ∧
    (CheckForLocalRTP alwaysBypass [some connectionA] OpalRTPEndPoint.empty
        (loopbackStream 1 5000 6000)).2.m_connectionsByRtpLocalPort.find 6000 = none :=
  have h := C6_failed_scan_uncached alwaysBypass [some connectionA] OpalRTPEndPoint.empty
    (loopbackStream 1 5000 6000)
    { remoteIsLocalHost := true, localDataPort := 5000, remoteDataPort := 6000, sessionID := 1 }
    connectionA rfl rfl
    ⟨by simp, rfl, by decide⟩ (by decide)
    (by intro c hc; simp at hc; subst hc; decide)
  ⟨h.1, h.2.2.1⟩

/-! ## The media stream: claims -/

/-- C7. Direction/closed guard of `WritePacket`: on a stream that is a source,
or that is not open, `WritePacket` returns false, leaves the stream as it was
(so `timestamp` is unchanged), leaves the packet as it was (so its SSRC is
unchanged) and calls nobody (no `WriteData`, no key-frame request). -/
theorem C7_WritePacket_guard
    (WriteData : RTP_DataFrame → RewriteMode → Bool) (now : Nat)
    (s : OpalRTPMediaStream) (packet : RTP_DataFrame)
    (h : s.isSource = true ∨ s.IsOpen = false) :
    (s.WritePacket WriteData now packet).1 = false ∧
    (s.WritePacket WriteData now packet).2.1 = s ∧
    (s.WritePacket WriteData now packet).2.1.timestamp = s.timestamp ∧
    (s.WritePacket WriteData now packet).2.2.1 = packet ∧
    (s.WritePacket WriteData now packet).2.2.1.syncSource = packet.syncSource ∧
    (s.WritePacket WriteData now packet).2.2.2 = [] := by
  unfold OpalRTPMediaStream.WritePacket
  rcases h with h | h
  · cases ho : s.IsOpen <;> simp [h]
  · simp [h]

/-- C7 at an open source stream with an explicit sync source, whose session
would accept the packet. -/
theorem C7_WritePacket_guard_witness :
    (({ loopbackStream 1 5000 6000 with m_syncSource := 5 } : OpalRTPMediaStream).WritePacket
        (fun _ _ => true) 1000 keepAliveFrame).1 = false ∧
    (({ loopbackStream 1 5000 6000 with m_syncSource := 5 } : OpalRTPMediaStream).WritePacket
        (fun _ _ => true) 1000 keepAliveFrame).2.2.2 = [] :=
  have h := C7_WritePacket_guard (fun _ _ => true) 1000
    ({ loopbackStream 1 5000 6000 with m_syncSource := 5 } : OpalRTPMediaStream) keepAliveFrame
    (Or.inl rfl)
  ⟨h.1, h.2.2.2.2.2⟩

/-- C8. Failure conditions of `ReadPacket`: it returns true exactly when the
base stream is open, the session is open, the stream is a source and the jitter
buffer's `ReadData` returned true; on a sink or a closed stream it calls nobody
(in particular not `ReadData`); and whenever it returns false the stream is as
it was (`timestamp` unchanged) and no command is issued. -/
theorem C8_ReadPacket_failure_conditions
    (ReadData : Option RTP_DataFrame) (s : OpalRTPMediaStream) (packet : RTP_DataFrame) :
    ((s.ReadPacket ReadData packet).1 = true ↔
      (s.m_isOpen = true ∧ s.sessionIsOpen = true) ∧ s.isSource = true ∧ ReadData.isSome = true) ∧
    (s.isSource = false ∨ s.IsOpen = false →
      (s.ReadPacket ReadData packet).1 = false ∧ (s.ReadPacket ReadData packet).2.2.2 = []) ∧
    ((s.ReadPacket ReadData packet).1 = false →
      (s.ReadPacket ReadData packet).2.1.timestamp = s.timestamp ∧
      (s.ReadPacket ReadData packet).2.1 = s ∧
      ∀ command, StreamEvent.ExecuteCommand command ∉ (s.ReadPacket ReadData packet).2.2.2) := by
  unfold OpalRTPMediaStream.ReadPacket OpalRTPMediaStream.IsOpen
  cases h1 : s.m_isOpen <;> cases h2 : s.sessionIsOpen <;> cases h3 : s.isSource <;>
    cases ReadData <;> simp

/-- C9, as stated, fails. For a source whose format needs a jitter buffer and
whose connection has jitter buffering enabled: when `CheckForLocalRTP` reports
bypass, `IsSynchronous` returns false; when it reports no bypass,
`IsSynchronous` returns true. -/
theorem C9_counterexample :
    (loopbackStream 1 5000 6000).isSource = true ∧
    (loopbackStream 1 5000 6000).needsJitterBuffer = true ∧
    (loopbackStream 1 5000 6000).maxAudioJitterDelay = 50 ∧
    (CheckForLocalRTP alwaysBypass [some connectionB] OpalRTPEndPoint.empty
      (loopbackStream 1 5000 6000)).1 = true ∧
    ((loopbackStream 1 5000 6000).IsSynchronous alwaysBypass [some connectionB]
      OpalRTPEndPoint.empty).1 = false ∧
    (CheckForLocalRTP neverBypass [some connectionB] OpalRTPEndPoint.empty
      (loopbackStream 1 5000 6000)).1 = false ∧
    ((loopbackStream 1 5000 6000).IsSynchronous neverBypass [some connectionB]
      OpalRTPEndPoint.empty).1 = true := by
  decide

/-- C9, amended. Truth table of `IsSynchronous`: for a sink it returns false;
for a source it returns true exactly when the media format needs no jitter
buffer, or the maximum audio jitter delay is 0, or the stream is not in
local-bypass mode (`CheckForLocalRTP` reports false, so a patch thread is
required); it returns false for a source when the jitter buffer is needed,
enabled, and bypass is active. -/
theorem C9_IsSynchronous_truth_table
    (OnLocalRTP : LocalRTPCallback) (connectionsActive : List (Option OpalRTPConnection))
    (ep : OpalRTPEndPoint) (s : OpalRTPMediaStream) :
    (s.isSource = false → (s.IsSynchronous OnLocalRTP connectionsActive ep).1 = false) ∧
    (s.isSource = true →
      ((s.IsSynchronous OnLocalRTP connectionsActive ep).1 = true ↔
        (s.needsJitterBuffer = false ∨ s.maxAudioJitterDelay = 0 ∨
          (CheckForLocalRTP OnLocalRTP connectionsActive ep s).1 = false))) ∧
    (s.isSource = true → s.needsJitterBuffer = true → s.maxAudioJitterDelay ≠ 0 →
      (CheckForLocalRTP OnLocalRTP connectionsActive ep s).1 = true →
      (s.IsSynchronous OnLocalRTP connectionsActive ep).1 = false) := by
  unfold OpalRTPMediaStream.IsSynchronous OpalRTPMediaStream.RequiresPatchThread
  refine ⟨?_, ?_, ?_⟩
  · intro h
    simp [h]
  · intro h
    cases h2 : s.needsJitterBuffer
    · simp [h]
    · by_cases h3 : s.maxAudioJitterDelay = 0
      · simp [h, h3]
      · simp [h, h3]
  · intro h h2 h3 h4
    simp [h, h2, h3, h4]

/-- C10, as stated, fails. On an open audio sink whose `m_rewriteHeaders` is
false, an empty packet with the marker clear is handed to the session's
`WriteData` (with `e_RewriteSSRC`), and the call returns what the session
returns, here false. -/
theorem C10_counterexample :
    (sinkStream false).IsOpen = true ∧ (sinkStream false).isSource = false ∧
    (sinkStream false).mediaType = OpalMediaType.Audio ∧
    keepAliveFrame.payloadSize = 0 ∧ keepAliveFrame.marker = false ∧
    (sinkStream false).WritePacket (fun _ _ => false) 0 keepAliveFrame
      = (false, { sinkStream false with timestamp := 160 }, keepAliveFrame,
         [StreamEvent.WriteData keepAliveFrame RewriteMode.e_RewriteSSRC]) := by
  decide

/-- C10, amended. Keep-alive drop: for every open sink stream whose
`m_rewriteHeaders` is true and every packet with zero payload size and the
marker bit clear (audio in particular), `WritePacket` returns true and does not
hand the packet to the session's `WriteData`. -/
theorem C10_keep_alive_drop
    (WriteData : RTP_DataFrame → RewriteMode → Bool) (now : Nat)
    (s : OpalRTPMediaStream) (packet : RTP_DataFrame)
    (hopen : s.IsOpen = true) (hsink : s.isSource = false)
    (hrewrite : s.m_rewriteHeaders = true)
    (hsize : packet.payloadSize = 0) (hmarker : packet.marker = false) :
    (s.WritePacket WriteData now packet).1 = true ∧
    ∀ p mode, StreamEvent.WriteData p mode ∉ (s.WritePacket WriteData now packet).2.2.2 := by
  unfold OpalRTPMediaStream.WritePacket
  simp only [hopen, hsink, hrewrite, hsize, hmarker]
  constructor
  · simp
  · intro p mode
    by_cases hf : (OPAL_VIDEO && (s.m_forceIntraFrameFlag && s.HasExpired now)) = true
    · simp [hf]
    · simp [hf]

/-- C10, amended, at an open audio sink with header rewriting, whose session
would refuse the packet. -/
theorem C10_keep_alive_drop_witness :
    ((sinkStream true).WritePacket (fun _ _ => false) 0 keepAliveFrame).1 = true ∧
    ∀ p mode, StreamEvent.WriteData p mode ∉
      ((sinkStream true).WritePacket (fun _ _ => false) 0 keepAliveFrame).2.2.2 :=
  C10_keep_alive_drop (fun _ _ => false) 0 (sinkStream true) keepAliveFrame rfl rfl rfl rfl rfl

/-- C11. Header-rewrite and SSRC policy: on an open sink, for a packet that is
not dropped as an empty keep-alive (the drop takes a packet with
`m_rewriteHeaders` set, zero payload size, and the marker clear or a media type
other than video), `WritePacket` calls the session's `WriteData` exactly once
and returns its result; the mode is `e_RewriteHeader` when `m_rewriteHeaders`
is true and `e_RewriteSSRC` when it is false, never the third mode; the packet
handed over is the caller's packet with the stream's `m_syncSource` as SSRC
when that is non-zero, and the caller's packet itself when it is zero. -/
theorem C11_rewrite_and_ssrc_policy
    (WriteData : RTP_DataFrame → RewriteMode → Bool) (now : Nat)
    (s : OpalRTPMediaStream) (packet : RTP_DataFrame)
    (hopen : s.IsOpen = true) (hsink : s.isSource = false)
    (hkept : ¬ (s.m_rewriteHeaders = true ∧ packet.payloadSize = 0 ∧
      (packet.marker = false ∨ s.mediaType ≠ OpalMediaType.Video))) :
    ∃ handed mode,
      writeDataCalls (s.WritePacket WriteData now packet).2.2.2 = [(handed, mode)] ∧
      (s.WritePacket WriteData now packet).1 = WriteData handed mode ∧
      (s.m_rewriteHeaders = true → mode = RewriteMode.e_RewriteHeader) ∧
      (s.m_rewriteHeaders = false → mode = RewriteMode.e_RewriteSSRC) ∧
      mode ≠ RewriteMode.e_RewriteNothing ∧
      (s.m_syncSource ≠ 0 → handed = { packet with syncSource := s.m_syncSource }) ∧
      (s.m_syncSource = 0 → handed = packet) ∧
      (s.WritePacket WriteData now packet).2.2.1 = handed := by
  have hcond : (s.m_rewriteHeaders && packet.payloadSize == 0
      && (!OPAL_VIDEO || (!packet.marker || s.mediaType != OpalMediaType.Video))) = false := by
    cases hc : (s.m_rewriteHeaders && packet.payloadSize == 0
      && (!OPAL_VIDEO || (!packet.marker || s.mediaType != OpalMediaType.Video)))
    · rfl
    · exfalso
      apply hkept
      simp [OPAL_VIDEO] at hc
      exact ⟨hc.1.1, hc.1.2, hc.2⟩
  refine ⟨if s.m_syncSource != 0 then { packet with syncSource := s.m_syncSource } else packet,
    if s.m_rewriteHeaders then RewriteMode.e_RewriteHeader else RewriteMode.e_RewriteSSRC,
    ?_, ?_, ?_, ?_, ?_, ?_, ?_, ?_⟩
  · unfold OpalRTPMediaStream.WritePacket
    simp only [hopen, hsink, hcond]
    by_cases hf : (OPAL_VIDEO && (s.m_forceIntraFrameFlag && s.HasExpired now)) = true
    · simp [hf, writeDataCalls]
    · simp [hf, writeDataCalls]
  · unfold OpalRTPMediaStream.WritePacket
    simp [hopen, hsink, hcond]
  · intro h
    simp [h]
  · intro h
    simp [h]
  · cases s.m_rewriteHeaders <;> simp
  · intro h
    simp [h]
  · intro h
    simp [h]
  · unfold OpalRTPMediaStream.WritePacket
    simp [hopen, hsink, hcond]

/-- C11 at an open audio sink without header rewriting and with explicit sync
source 5, writing a frame with payload. -/
theorem C11_rewrite_and_ssrc_policy_witness :
    ∃ handed mode,
      writeDataCalls
        (({ sinkStream false with m_syncSource := 5 } : OpalRTPMediaStream).WritePacket
          (fun _ _ => true) 0 frameAfterLoss).2.2.2 = [(handed, mode)] ∧
      mode = RewriteMode.e_RewriteSSRC ∧
      handed = { frameAfterLoss with syncSource := 5 } := by
  obtain ⟨handed, mode, h1, _, _, h4, _, h6, _, _⟩ :=
    C11_rewrite_and_ssrc_policy (fun _ _ => true) 0
      ({ sinkStream false with m_syncSource := 5 } : OpalRTPMediaStream) frameAfterLoss
      rfl rfl (by decide)
  exact ⟨handed, mode, h1, h4 rfl, h6 (by decide)⟩

/-- C12. Failure conditions of `InternalSetJitterBuffer`: it returns false
exactly when the stream is not open, or is a sink, or does not require a patch
thread (`CheckForLocalRTP` returns true); and whenever it returns false the
stream is as it was (the jitter buffer instance is neither closed nor replaced)
and nobody is called (the session's `SetJitterBuffer` in particular). -/
theorem C12_InternalSetJitterBuffer_failure_conditions
    (OnLocalRTP : LocalRTPCallback) (connectionsActive : List (Option OpalRTPConnection))
    (ep : OpalRTPEndPoint) (newId : Nat) (s : OpalRTPMediaStream) (init : JitterInit) :
    ((s.InternalSetJitterBuffer OnLocalRTP connectionsActive ep newId init).1 = false ↔
      (s.IsOpen = false ∨ s.isSource = false ∨
        (CheckForLocalRTP OnLocalRTP connectionsActive ep s).1 = true)) ∧
    ((s.InternalSetJitterBuffer OnLocalRTP connectionsActive ep newId init).1 = false →
      (s.InternalSetJitterBuffer OnLocalRTP connectionsActive ep newId init).2.1 = s ∧
      (s.InternalSetJitterBuffer OnLocalRTP connectionsActive ep newId init).2.1.m_jitterBuffer
        = s.m_jitterBuffer ∧
      (s.InternalSetJitterBuffer OnLocalRTP connectionsActive ep newId init).2.2.2 = []) := by
  unfold OpalRTPMediaStream.InternalSetJitterBuffer OpalRTPMediaStream.RequiresPatchThread
  cases h1 : s.IsOpen <;> cases h2 : s.isSource <;>
    cases h3 : (CheckForLocalRTP OnLocalRTP connectionsActive ep s).1 <;> simp [h3]

/-- C13. `InternalSetPaused` without a state change: for every stream and every
`pause`, `fromUser`, `fromPatch`, when the base class reports that the paused
state did not change the call returns false, leaves the stream as it was, and
its only call is the one to the base class (no jitter buffer `Close`, no
`EnableJitterBuffer`); when the base class reports a change it returns true. -/
theorem C13_InternalSetPaused_unchanged
    (s : OpalRTPMediaStream) (pause fromUser fromPatch : Bool) :
    (s.InternalSetPaused false pause fromUser fromPatch).1 = false ∧
    (s.InternalSetPaused false pause fromUser fromPatch).2.1 = s ∧
    (s.InternalSetPaused false pause fromUser fromPatch).2.2
      = [StreamEvent.BaseInternalSetPaused pause fromUser fromPatch] ∧
    (∀ b, StreamEvent.JitterClose b ∉ (s.InternalSetPaused false pause fromUser fromPatch).2.2) ∧
    (∀ patch enab, StreamEvent.EnableJitterBuffer patch enab ∉
      (s.InternalSetPaused false pause fromUser fromPatch).2.2) ∧
    (s.InternalSetPaused true pause fromUser fromPatch).1 = true := by
  unfold OpalRTPMediaStream.InternalSetPaused
  refine ⟨by simp, by simp, by simp, by simp, by simp, ?_⟩
  cases s.isSource <;> simp

/-- C14, as stated, fails. On an open source attached to a patch, a
state-changing `InternalSetPaused(pause = true)` does not close the jitter
buffer, and a state-changing `InternalSetPaused(pause = false)` closes it. -/
theorem C14_counterexample :
    videoSourceStream.isSource = true ∧
    videoSourceStream.InternalSetPaused true true false false
      = (true, { videoSourceStream with m_paused := true },
         [StreamEvent.BaseInternalSetPaused true false false,
          StreamEvent.EnableJitterBuffer 7 false]) ∧
    videoSourceStream.InternalSetPaused true false false false
      = (true,
         { videoSourceStream with
           m_paused := false,
           m_jitterBuffer := { videoSourceStream.m_jitterBuffer with closed := true } },
         [StreamEvent.BaseInternalSetPaused false false false,
          StreamEvent.JitterClose 0,
          StreamEvent.EnableJitterBuffer 7 true]) := by
  decide

/-- C14, amended. Which pause transition closes the buffer: on a source stream,
a state-changing `InternalSetPaused(pause = false)` closes the jitter buffer,
once, right after the base class call, and a state-changing
`InternalSetPaused(pause = true)` does not close it and leaves the instance as
it was. -/
theorem C14_unpause_closes_buffer
    (s : OpalRTPMediaStream) (fromUser fromPatch : Bool) (hsource : s.isSource = true) :
    (jitterBufferCalls (s.InternalSetPaused true false fromUser fromPatch).2.2
        = [StreamEvent.JitterClose s.m_jitterBuffer.id] ∧
      (s.InternalSetPaused true false fromUser fromPatch).2.1.m_jitterBuffer.closed = true) ∧
    (jitterBufferCalls (s.InternalSetPaused true true fromUser fromPatch).2.2 = [] ∧
      (∀ b, StreamEvent.JitterClose b ∉ (s.InternalSetPaused true true fromUser fromPatch).2.2) ∧
      (s.InternalSetPaused true true fromUser fromPatch).2.1.m_jitterBuffer = s.m_jitterBuffer) := by
  unfold OpalRTPMediaStream.InternalSetPaused
  cases hp : s.m_mediaPatch <;> simp [hsource, jitterBufferCalls]

/-- C14, amended, at the open video source attached to patch `7`. -/
theorem C14_unpause_closes_buffer_witness :
    jitterBufferCalls (videoSourceStream.InternalSetPaused true false true false).2.2
      = [StreamEvent.JitterClose 0] ∧
    jitterBufferCalls (videoSourceStream.InternalSetPaused true true true false).2.2 = [] :=
  have h := C14_unpause_closes_buffer videoSourceStream true false rfl
  ⟨h.1.1, h.2.1⟩

/-- C15. Ordering in `SetPatch`: for a sink, or a stream that is not open, the
call returns what the base class `SetPatch` returns and its only call is that
one (no jitter buffer `Close` or `Restart`); for an open source it returns true
and calls, in this order, `InternalSetPatchPart1` with the new patch, the
jitter buffer's `Close`, `InternalSetPatchPart2` with the old patch, and the
jitter buffer's `Restart`. -/
theorem C15_SetPatch_ordering
    (baseSetPatch : Bool) (s : OpalRTPMediaStream) (patch : Option Nat) :
    (s.isSource = false ∨ s.IsOpen = false →
      (s.SetPatch baseSetPatch patch).1 = baseSetPatch ∧
      (s.SetPatch baseSetPatch patch).2.2 = [StreamEvent.BaseSetPatch patch] ∧
      jitterBufferCalls (s.SetPatch baseSetPatch patch).2.2 = []) ∧
    (s.isSource = true → s.IsOpen = true →
      (s.SetPatch baseSetPatch patch).1 = true ∧
      (s.SetPatch baseSetPatch patch).2.2
        = [StreamEvent.InternalSetPatchPart1 patch,
           StreamEvent.JitterClose s.m_jitterBuffer.id,
           StreamEvent.InternalSetPatchPart2 s.m_mediaPatch,
           StreamEvent.JitterRestart s.m_jitterBuffer.id]) := by
  unfold OpalRTPMediaStream.SetPatch
  cases h1 : s.IsOpen <;> cases h2 : s.isSource <;> simp [jitterBufferCalls]

/-- C16. `Open` is idempotent: on a stream that is already open (`m_isOpen`, and
so also when `IsOpen()` holds) `Open` returns true, leaves the stream as it was
(forced-intra-frame flag and timer included) and calls nobody (no second
`AddDataNotifier`, no base class `Open`); hence after an `Open` that succeeded,
a second `Open` returns true and changes nothing, whatever the base class would
answer and whenever it is called. -/
theorem C16_Open_idempotent
    (baseOpen : Bool) (now : Nat) (s : OpalRTPMediaStream) :
    (s.m_isOpen = true → s.Open baseOpen now = (true, s, [])) ∧
    (s.IsOpen = true → s.Open baseOpen now = (true, s, [])) ∧
    ((s.Open baseOpen now).1 = true →
      ∀ (baseOpen2 : Bool) (now2 : Nat),
        (s.Open baseOpen now).2.1.Open baseOpen2 now2 = (true, (s.Open baseOpen now).2.1, [])) := by
  have h1 : ∀ (t : OpalRTPMediaStream) (b : Bool) (n : Nat),
      t.m_isOpen = true → t.Open b n = (true, t, []) := by
    intro t b n ht
    simp [OpalRTPMediaStream.Open, ht]
  refine ⟨h1 s baseOpen now, ?_, ?_⟩
  · intro h
    apply h1
    simp [OpalRTPMediaStream.IsOpen] at h
    exact h.1
  · intro h baseOpen2 now2
    apply h1
    cases ho : s.m_isOpen
    · simp [OpalRTPMediaStream.Open, ho] at h
      simp [OpalRTPMediaStream.Open, ho, h]
    · simp [OpalRTPMediaStream.Open, ho]

/-- C17. `ReadPacket` updates the last timestamp: whenever `ReadPacket` returns
true (which needs an open source stream), the jitter buffer delivered a frame
in that call, the caller's packet is that frame, and the stream's `timestamp`
is the timestamp of that frame. -/
theorem C17_ReadPacket_updates_timestamp
    (ReadData : Option RTP_DataFrame) (s : OpalRTPMediaStream) (packet : RTP_DataFrame)
    (h : (s.ReadPacket ReadData packet).1 = true) :
    ∃ delivered, ReadData = some delivered ∧
      (s.IsOpen = true ∧ s.isSource = true) ∧
      (s.ReadPacket ReadData packet).2.2.1 = delivered ∧
      (s.ReadPacket ReadData packet).2.1.timestamp = delivered.timestamp := by
  unfold OpalRTPMediaStream.ReadPacket at h ⊢
  cases h1 : s.IsOpen
  · simp [h1] at h
  · cases h2 : s.isSource
    · simp [h1, h2] at h
    · cases ReadData with
      | none => simp [h1, h2] at h
      | some delivered => exact ⟨delivered, rfl, ⟨rfl, rfl⟩, by simp [h1, h2], by simp [h1, h2]⟩

/-- C17 at the open video source, the jitter buffer delivering a frame of
timestamp 4800. -/
theorem C17_ReadPacket_updates_timestamp_witness :
    ∃ delivered, some frameAfterLoss = some delivered ∧
      (videoSourceStream.ReadPacket (some frameAfterLoss) keepAliveFrame).2.1.timestamp
        = delivered.timestamp := by
  obtain ⟨delivered, h1, _, _, h4⟩ :=
    C17_ReadPacket_updates_timestamp (some frameAfterLoss) videoSourceStream keepAliveFrame rfl
  exact ⟨delivered, h1, h4⟩

/-- C18. A discontinuity becomes a key-frame request, not a failure: on an open
source stream, when the jitter buffer delivers a frame, `ReadPacket` returns
true; the commands it issues are exactly one `OpalVideoPictureLoss` with the
frame's sequence number and timestamp when the media type is video and the
frame's discontinuity count is greater than 0, and none otherwise. -/
theorem C18_discontinuity_requests_key_frame
    (delivered : RTP_DataFrame) (s : OpalRTPMediaStream) (packet : RTP_DataFrame)
    (hopen : s.IsOpen = true) (hsource : s.isSource = true) :
    (s.ReadPacket (some delivered) packet).1 = true ∧
    (s.mediaType = OpalMediaType.Video ∧ 0 < delivered.discontinuity →
      executedCommands (s.ReadPacket (some delivered) packet).2.2.2
        = [OpalMediaCommand.OpalVideoPictureLoss delivered.sequenceNumber delivered.timestamp]) ∧
    (¬ (s.mediaType = OpalMediaType.Video ∧ 0 < delivered.discontinuity) →
      executedCommands (s.ReadPacket (some delivered) packet).2.2.2 = []) := by
  unfold OpalRTPMediaStream.ReadPacket
  simp only [hopen, hsource]
  refine ⟨by simp, ?_, ?_⟩
  · intro h
    simp [OPAL_VIDEO, h.1, h.2, executedCommands]
  · intro h
    by_cases hv : s.mediaType = OpalMediaType.Video
    · have hd : ¬ 0 < delivered.discontinuity := fun hd => h ⟨hv, hd⟩
      simp [OPAL_VIDEO, hd, executedCommands]
    · simp [OPAL_VIDEO, hv, executedCommands]

/-- C18 at the open video source, the jitter buffer delivering a frame that
follows three lost packets. -/
theorem C18_discontinuity_requests_key_frame_witness :
    (videoSourceStream.ReadPacket (some frameAfterLoss) keepAliveFrame).1 = true ∧
    executedCommands (videoSourceStream.ReadPacket (some frameAfterLoss) keepAliveFrame).2.2.2
      = [OpalMediaCommand.OpalVideoPictureLoss 31 4800] :=
  have h := C18_discontinuity_requests_key_frame frameAfterLoss videoSourceStream keepAliveFrame
    rfl rfl
  ⟨h.1, h.2.1 (by decide)⟩

/-- C19. Buffer swap sequence: whenever `InternalSetJitterBuffer` returns true,
its calls on the buffer are, in this order, `Close` on the old instance,
`delete` of the old instance, `Create` of a new instance from the given
configuration, and the session's `SetJitterBuffer` with the new instance and
the stream's `m_syncSource`; the stream then holds that same new instance,
created from the given configuration. The old instance is closed under the read
lock and replaced under the write lock. -/
theorem C19_buffer_swap_sequence
    (OnLocalRTP : LocalRTPCallback) (connectionsActive : List (Option OpalRTPConnection))
    (ep : OpalRTPEndPoint) (newId : Nat) (s : OpalRTPMediaStream) (init : JitterInit)
    (h : (s.InternalSetJitterBuffer OnLocalRTP connectionsActive ep newId init).1 = true) :
    jitterBufferCalls (s.InternalSetJitterBuffer OnLocalRTP connectionsActive ep newId init).2.2.2
      = [StreamEvent.JitterClose s.m_jitterBuffer.id,
         StreamEvent.JitterDelete s.m_jitterBuffer.id,
         StreamEvent.JitterCreate newId init,
         StreamEvent.SetJitterBuffer newId s.m_syncSource] ∧
    (s.InternalSetJitterBuffer OnLocalRTP connectionsActive ep newId init).2.2.2
      = [StreamEvent.StartRead,
         StreamEvent.JitterClose s.m_jitterBuffer.id,
         StreamEvent.StartWrite,
         StreamEvent.JitterDelete s.m_jitterBuffer.id,
         StreamEvent.JitterCreate newId init,
         StreamEvent.EndWrite,
         StreamEvent.SetJitterBuffer newId s.m_syncSource,
         StreamEvent.EndRead] ∧
    (s.InternalSetJitterBuffer OnLocalRTP connectionsActive ep newId init).2.1.m_jitterBuffer
      = { id := newId, init := init, closed := false } := by
  unfold OpalRTPMediaStream.InternalSetJitterBuffer OpalRTPMediaStream.RequiresPatchThread at h ⊢
  cases h1 : s.IsOpen
  · simp [h1] at h
  · cases h2 : s.isSource
    · simp [h1, h2] at h
    · cases h3 : (CheckForLocalRTP OnLocalRTP connectionsActive ep s).1
      · simp [h1, h2, h3, jitterBufferCalls]
      · simp [h1, h2, h3] at h

/-- C19 at an open source whose peer is not in this process, so that a patch
thread is required. -/
theorem C19_buffer_swap_sequence_witness :
    jitterBufferCalls
      ((loopbackStream 1 5000 6000).InternalSetJitterBuffer alwaysBypass [] OpalRTPEndPoint.empty 1
        { m_minJitterDelay := 40, m_maxJitterDelay := 200, m_timeUnits := 8 }).2.2.2
      = [StreamEvent.JitterClose 0,
         StreamEvent.JitterDelete 0,
         StreamEvent.JitterCreate 1 { m_minJitterDelay := 40, m_maxJitterDelay := 200, m_timeUnits := 8 },
         StreamEvent.SetJitterBuffer 1 0] :=
  (C19_buffer_swap_sequence alwaysBypass [] OpalRTPEndPoint.empty 1 (loopbackStream 1 5000 6000)
    { m_minJitterDelay := 40, m_maxJitterDelay := 200, m_timeUnits := 8 } (by decide)).1

/-- C20. Teardown notification: `CheckEndLocalRTP` with a null session, or with
a session whose local data port has no cache entry, leaves the endpoint as it
was (cache unchanged, no callback). Otherwise the cache afterwards is the cache
without the local-port entry; when an entry for the session's remote data port
is then present, the callback is invoked exactly once, with the closing
connection, that entry's connection, the session id and `opened = false`; when
no such entry is present, the callback is not invoked. -/
theorem C20_teardown_notification
    (OnLocalRTP : LocalRTPCallback) (ep : OpalRTPEndPoint) (connection : Nat) (rtp : RTP_UDP) :
    CheckEndLocalRTP OnLocalRTP ep connection none = ep ∧
    (ep.m_connectionsByRtpLocalPort.find rtp.localDataPort = none →
      CheckEndLocalRTP OnLocalRTP ep connection (some rtp) = ep) ∧
    (ep.m_connectionsByRtpLocalPort.find rtp.localDataPort ≠ none →
      (CheckEndLocalRTP OnLocalRTP ep connection (some rtp)).m_connectionsByRtpLocalPort
        = ep.m_connectionsByRtpLocalPort.erase rtp.localDataPort ∧
      (CheckEndLocalRTP OnLocalRTP ep connection (some rtp)).m_connectionsByRtpLocalPort.find
        rtp.localDataPort = none ∧
      (∀ it, (ep.m_connectionsByRtpLocalPort.erase rtp.localDataPort).find rtp.remoteDataPort
          = some it →
        (CheckEndLocalRTP OnLocalRTP ep connection (some rtp)).history
          = ep.history ++
            [EpEvent.OnLocalRTP connection it.m_connection rtp.sessionID false
              (OnLocalRTP ep.history connection it.m_connection rtp.sessionID false)] ∧
        callbackCount (CheckEndLocalRTP OnLocalRTP ep connection (some rtp)).history
          = callbackCount ep.history + 1) ∧
      ((ep.m_connectionsByRtpLocalPort.erase rtp.localDataPort).find rtp.remoteDataPort = none →
        (CheckEndLocalRTP OnLocalRTP ep connection (some rtp)).history = ep.history)) := by
  refine ⟨rfl, ?_, ?_⟩
  · intro h
    simp [CheckEndLocalRTP, h]
  · intro h
    cases hown : ep.m_connectionsByRtpLocalPort.find rtp.localDataPort with
    | none => exact absurd hown h
    | some own =>
      cases hrem : (ep.m_connectionsByRtpLocalPort.erase rtp.localDataPort).find rtp.remoteDataPort with
      | none =>
        simp [CheckEndLocalRTP, hown, hrem, LocalRtpInfoMap.find_erase_self]
      | some it =>
        simp [CheckEndLocalRTP, hown, hrem, LocalRtpInfoMap.find_erase_self,
          callbackCount_append, callbackCount]

/-! ## The bypass cache over histories: claims -/

/-- Writing a decision through an iterator does not change the connection any
entry refers to. -/
theorem find_setPreviousResult_connection (m : LocalRtpInfoMap) (p k : Nat) (r : Int) :
    ((m.setPreviousResult p r).find k).map (fun i => i.m_connection)
      = (m.find k).map (fun i => i.m_connection) := by
  by_cases hpk : p = k
  · subst hpk
    rw [LocalRtpInfoMap.find_setPreviousResult_self]
    cases m.find p <;> simp
  · rw [LocalRtpInfoMap.find_setPreviousResult_of_ne _ _ _ _ hpk]

/-- After a call on a loopback stream the own port has an entry; it refers to
the connection of the entry that was there before, or to the stream's own
connection when there was none. -/
theorem CheckForLocalRTP_own_connection (OnLocalRTP : LocalRTPCallback)
    (connectionsActive : List (Option OpalRTPConnection))
    (ep : OpalRTPEndPoint) (stream : OpalRTPMediaStream) (rtp : RTP_UDP)
    (hr : stream.rtp = some rtp) (hl : rtp.remoteIsLocalHost = true) :
    ((CheckForLocalRTP OnLocalRTP connectionsActive ep stream).2.m_connectionsByRtpLocalPort.find
        rtp.localDataPort).map (fun i => i.m_connection)
      = some (((ep.m_connectionsByRtpLocalPort.find rtp.localDataPort).map
          (fun i => i.m_connection)).getD stream.connection) := by
  have hown : ((ep.m_connectionsByRtpLocalPort.insert rtp.localDataPort stream.connection).1.find
      rtp.localDataPort).map (fun i => i.m_connection)
      = some (((ep.m_connectionsByRtpLocalPort.find rtp.localDataPort).map
          (fun i => i.m_connection)).getD stream.connection) := by
    rw [LocalRtpInfoMap.find_insert_self]
    cases ep.m_connectionsByRtpLocalPort.find rtp.localDataPort <;> simp [LocalRtpInfo.mk1]
  cases hfind : (ep.m_connectionsByRtpLocalPort.insert rtp.localDataPort stream.connection).1.find
      rtp.remoteDataPort with
  | some info =>
    by_cases hlt : info.m_previousResult < 0
    · rw [CheckForLocalRTP_cached_unknown OnLocalRTP connectionsActive ep stream rtp info hr hl hfind hlt]
      cases (ep.m_connectionsByRtpLocalPort.insert rtp.localDataPort stream.connection).2
      · simp only [Bool.false_eq_true, if_false]
        rw [find_setPreviousResult_connection]
        exact hown
      · simp only [if_true]
        rw [find_setPreviousResult_connection, find_setPreviousResult_connection]
        exact hown
    · rw [CheckForLocalRTP_cached_decided OnLocalRTP connectionsActive ep stream rtp info hr hl hfind hlt]
      exact hown
  | none =>
    cases hscan : scanConnectionsActive connectionsActive rtp.remoteDataPort with
    | none =>
      rw [CheckForLocalRTP_scan_failed OnLocalRTP connectionsActive ep stream rtp hr hl hfind hscan]
      exact hown
    | some peer =>
      have hne : rtp.remoteDataPort ≠ rtp.localDataPort := by
        intro heq
        rw [heq, LocalRtpInfoMap.find_insert_self] at hfind
        exact Option.noConfusion hfind
      rw [CheckForLocalRTP_scanned OnLocalRTP connectionsActive ep stream rtp peer hr hl hfind hscan]
      cases (ep.m_connectionsByRtpLocalPort.insert rtp.localDataPort stream.connection).2
      · simp only [Bool.false_eq_true, if_false]
        rw [find_setPreviousResult_connection, LocalRtpInfoMap.find_insert_of_ne _ _ _ _ hne]
        exact hown
      · simp only [if_true]
        rw [find_setPreviousResult_connection, find_setPreviousResult_connection,
          LocalRtpInfoMap.find_insert_of_ne _ _ _ _ hne]
        exact hown

/-- C21, as stated, fails. Connection 9 has a session bound to port 5000; the
call from the stream of connection 2 (ports 6000/5000) finds it by the scan and
records port 5000 for connection 9. After the following call from the stream of
connection 1, bound to port 5000, the entry of port 5000 still refers to
connection 9. -/
theorem C21_counterexample :
    (loopbackStream 1 5000 6000).connection = 1 ∧
    (CheckForLocalRTP alwaysBypass [some connectionC, some connectionB]
        (CheckForLocalRTP alwaysBypass [some connectionC, some connectionB] OpalRTPEndPoint.empty
          (loopbackStream 2 6000 5000)).2
        (loopbackStream 1 5000 6000)).2.m_connectionsByRtpLocalPort.find 5000
      = some { m_connection := 9, m_previousResult := 1 } := by
  decide

/-- C21, amended. The own port is recorded: for every cache state, after any
`CheckForLocalRTP` call on a loopback RTP stream, whatever it returns, the cache
contains an entry keyed by the stream's own local data port; when no entry for
that port existed before the call it refers to the stream's own connection, and
when one existed it still refers to the connection it referred to before. -/
theorem C21_own_port_recorded
    (OnLocalRTP : LocalRTPCallback) (connectionsActive : List (Option OpalRTPConnection))
    (ep : OpalRTPEndPoint) (stream : OpalRTPMediaStream) (rtp : RTP_UDP)
    (hr : stream.rtp = some rtp) (hl : rtp.remoteIsLocalHost = true) :
    (∃ info, (CheckForLocalRTP OnLocalRTP connectionsActive ep stream).2.m_connectionsByRtpLocalPort.find
        rtp.localDataPort = some info) ∧
    (ep.m_connectionsByRtpLocalPort.find rtp.localDataPort = none →
      ∃ info, (CheckForLocalRTP OnLocalRTP connectionsActive ep stream).2.m_connectionsByRtpLocalPort.find
          rtp.localDataPort = some info ∧ info.m_connection = stream.connection) ∧
    (∀ own, ep.m_connectionsByRtpLocalPort.find rtp.localDataPort = some own →
      ∃ info, (CheckForLocalRTP OnLocalRTP connectionsActive ep stream).2.m_connectionsByRtpLocalPort.find
          rtp.localDataPort = some info ∧ info.m_connection = own.m_connection) := by
  have h := CheckForLocalRTP_own_connection OnLocalRTP connectionsActive ep stream rtp hr hl
  cases hafter : (CheckForLocalRTP OnLocalRTP connectionsActive ep stream).2.m_connectionsByRtpLocalPort.find
      rtp.localDataPort with
  | none => simp [hafter] at h
  | some info =>
    rw [hafter] at h
    refine ⟨⟨info, rfl⟩, ?_, ?_⟩
    · intro hnone
      rw [hnone] at h
      exact ⟨info, rfl, by simpa using h⟩
    · intro own hown
      rw [hown] at h
      exact ⟨info, rfl, by simpa using h⟩

/-- C21, amended, at the first call of the scenario: the entry of port 5000 is
created for connection 1. -/
theorem C21_own_port_recorded_witness :
    ∃ info, (CheckForLocalRTP neverBypass [some connectionB] OpalRTPEndPoint.empty
        (loopbackStream 1 5000 6000)).2.m_connectionsByRtpLocalPort.find 5000 = some info ∧
      info.m_connection = 1 :=
  (C21_own_port_recorded neverBypass [some connectionB] OpalRTPEndPoint.empty
    (loopbackStream 1 5000 6000)
    { remoteIsLocalHost := true, localDataPort := 5000, remoteDataPort := 6000, sessionID := 1 }
    rfl rfl).2.1 (by decide)

/-! ## The forced key frame: claim -/

/-- One `WritePacket` call keeps the media type and the timer; either it issues
no `OpalVideoUpdatePicture` and does not set the flag, or it issues exactly one,
with the flag set and the timer expired before, and the flag cleared after. -/
theorem WritePacket_forced_update (WriteData : RTP_DataFrame → RewriteMode → Bool) (now : Nat)
    (s : OpalRTPMediaStream) (packet : RTP_DataFrame) :
    (s.WritePacket WriteData now packet).2.1.mediaType = s.mediaType ∧
    (s.WritePacket WriteData now packet).2.1.m_forceIntraFrameTimer = s.m_forceIntraFrameTimer ∧
    ((updatePictureCount (executedCommands (s.WritePacket WriteData now packet).2.2.2) = 0 ∧
        ((s.WritePacket WriteData now packet).2.1.m_forceIntraFrameFlag = true →
          s.m_forceIntraFrameFlag = true)) ∨
     (updatePictureCount (executedCommands (s.WritePacket WriteData now packet).2.2.2) = 1 ∧
        s.m_forceIntraFrameFlag = true ∧ s.m_forceIntraFrameTimer ≤ now ∧
        (s.WritePacket WriteData now packet).2.1.m_forceIntraFrameFlag = false)) := by
  unfold OpalRTPMediaStream.WritePacket
  cases h1 : s.IsOpen
  · simp [executedCommands, updatePictureCount]
  · cases h2 : s.isSource
    · cases h3 : s.m_forceIntraFrameFlag
      · cases h4 : (s.m_rewriteHeaders && packet.payloadSize == 0
            && (!OPAL_VIDEO || (!packet.marker || s.mediaType != OpalMediaType.Video)))
        · simp [h4, h3, executedCommands, updatePictureCount]
        · simp [h4, h3, executedCommands, updatePictureCount]
      · by_cases h5 : s.m_forceIntraFrameTimer ≤ now
        · cases h4 : (s.m_rewriteHeaders && packet.payloadSize == 0
              && (!OPAL_VIDEO || (!packet.marker || s.mediaType != OpalMediaType.Video)))
          · simp [h4, h3, h5, OPAL_VIDEO, OpalRTPMediaStream.HasExpired, executedCommands,
              updatePictureCount]
          · simp [h4, h3, h5, OPAL_VIDEO, OpalRTPMediaStream.HasExpired, executedCommands,
              updatePictureCount]
        · cases h4 : (s.m_rewriteHeaders && packet.payloadSize == 0
              && (!OPAL_VIDEO || (!packet.marker || s.mediaType != OpalMediaType.Video)))
          · simp [h4, h3, h5, OPAL_VIDEO, OpalRTPMediaStream.HasExpired, executedCommands,
              updatePictureCount]
          · simp [h4, h3, h5, OPAL_VIDEO, OpalRTPMediaStream.HasExpired, executedCommands,
              updatePictureCount]
    · simp [executedCommands, updatePictureCount]

theorem updatePictureCount_pos_of_mem (commands : List OpalMediaCommand)
    (h : OpalMediaCommand.OpalVideoUpdatePicture ∈ commands) : 0 < updatePictureCount commands := by
  induction commands with
  | nil => simp at h
  | cons c rest ih =>
    cases c with
    | OpalVideoUpdatePicture => simp [updatePictureCount]
    | OpalVideoPictureLoss sequenceNumber timestamp =>
      have h2 : OpalMediaCommand.OpalVideoUpdatePicture ∈ rest := by simpa using h
      simpa [updatePictureCount] using ih h2

theorem forcedUpdateCount_append (a b : List (Nat × Bool × List StreamEvent)) :
    forcedUpdateCount (a ++ b) = forcedUpdateCount a + forcedUpdateCount b := by
  induction a with
  | nil => simp [forcedUpdateCount]
  | cons o rest ih =>
    obtain ⟨now, result, events⟩ := o
    simp [forcedUpdateCount, ih]
    omega

theorem forcedUpdateCount_pos_of_mem (outs : List (Nat × Bool × List StreamEvent))
    (o : Nat × Bool × List StreamEvent) (ho : o ∈ outs)
    (h : OpalMediaCommand.OpalVideoUpdatePicture ∈ executedCommands o.2.2) :
    0 < forcedUpdateCount outs := by
  induction outs with
  | nil => simp at ho
  | cons x rest ih =>
    obtain ⟨now, result, events⟩ := x
    rcases List.mem_cons.mp ho with h1 | h1
    · subst h1
      have hpos := updatePictureCount_pos_of_mem _ h
      dsimp only at hpos
      simp only [forcedUpdateCount]
      omega
    · have := ih h1
      simp [forcedUpdateCount]
      omega

/-- Over any sequence of `WritePacket` calls, `OpalVideoUpdatePicture` is issued
at most once, and not at all when the flag is not set at the start; a call that
issues it runs with the timer expired, and the flag was set at the start. -/
theorem runWritePacket_forced_update
    (calls : List (Nat × RTP_DataFrame × (RTP_DataFrame → RewriteMode → Bool))) :
    ∀ s : OpalRTPMediaStream,
      forcedUpdateCount (runWritePacket s calls).1 ≤ (if s.m_forceIntraFrameFlag then 1 else 0) ∧
      ∀ o ∈ (runWritePacket s calls).1,
        0 < updatePictureCount (executedCommands o.2.2) →
          s.m_forceIntraFrameFlag = true ∧ s.m_forceIntraFrameTimer ≤ o.1 := by
  induction calls with
  | nil =>
    intro s
    simp [runWritePacket, forcedUpdateCount]
  | cons c rest ih =>
    intro s
    obtain ⟨now, packet, WriteData⟩ := c
    obtain ⟨_, htimer, hstep⟩ := WritePacket_forced_update WriteData now s packet
    obtain ⟨hcount, hcalls⟩ := ih (s.WritePacket WriteData now packet).2.1
    simp only [runWritePacket, forcedUpdateCount]
    rcases hstep with ⟨h0, hflag⟩ | ⟨h1, hset, hexp, hclear⟩
    · constructor
      · rw [h0]
        cases hf : (s.WritePacket WriteData now packet).2.1.m_forceIntraFrameFlag
        · rw [hf] at hcount
          simp at hcount
          simp [hcount]
        · rw [hflag hf]
          rw [hf] at hcount
          simpa using hcount
      · intro o ho hpos
        rcases List.mem_cons.mp ho with h | h
        · subst h
          simp only at hpos
          omega
        · obtain ⟨hf, ht⟩ := hcalls o h hpos
          exact ⟨hflag hf, by rw [← htimer]; exact ht⟩
    · constructor
      · rw [h1, hset]
        rw [hclear] at hcount
        simp at hcount
        simp [hcount]
      · intro o ho hpos
        rcases List.mem_cons.mp ho with h | h
        · subst h
          exact ⟨hset, hexp⟩
        · obtain ⟨hf, _⟩ := hcalls o h hpos
          rw [hclear] at hf
          exact absurd hf (by simp)

/-- C22. One-shot forced key frame: after a first `Open` (the stream was not
open) at the instant `openTime`, over any sequence of `WritePacket` calls on
the stream, `OpalVideoUpdatePicture` is issued at most once; a call that issues
it is on a video stream and is made when the 500 ms timer started by `Open` has
expired; and no call after one that issued it issues it again. -/
theorem C22_one_shot_forced_key_frame
    (baseOpen : Bool) (openTime : Nat) (s0 : OpalRTPMediaStream)
    (calls : List (Nat × RTP_DataFrame × (RTP_DataFrame → RewriteMode → Bool)))
    (hfirst : s0.m_isOpen = false) :
    forcedUpdateCount (runWritePacket (s0.Open baseOpen openTime).2.1 calls).1 ≤ 1 ∧
    (∀ o ∈ (runWritePacket (s0.Open baseOpen openTime).2.1 calls).1,
      OpalMediaCommand.OpalVideoUpdatePicture ∈ executedCommands o.2.2 →
        s0.mediaType = OpalMediaType.Video ∧ openTime + 500 ≤ o.1) ∧
    (∀ before o after,
      (runWritePacket (s0.Open baseOpen openTime).2.1 calls).1 = before ++ o :: after →
      OpalMediaCommand.OpalVideoUpdatePicture ∈ executedCommands o.2.2 →
      ∀ later ∈ after, OpalMediaCommand.OpalVideoUpdatePicture ∉ executedCommands later.2.2) := by
  have hflag : (s0.Open baseOpen openTime).2.1.m_forceIntraFrameFlag
      = decide (s0.mediaType = OpalMediaType.Video) := by
    simp [OpalRTPMediaStream.Open, hfirst, OPAL_VIDEO]
  have htimer : (s0.Open baseOpen openTime).2.1.m_forceIntraFrameTimer = openTime + 500 := by
    simp [OpalRTPMediaStream.Open, hfirst, OPAL_VIDEO]
  obtain ⟨hcount, hcalls⟩ := runWritePacket_forced_update calls (s0.Open baseOpen openTime).2.1
  have hle : forcedUpdateCount (runWritePacket (s0.Open baseOpen openTime).2.1 calls).1 ≤ 1 := by
    refine le_trans hcount ?_
    cases (s0.Open baseOpen openTime).2.1.m_forceIntraFrameFlag <;> simp
  refine ⟨hle, ?_, ?_⟩
  · intro o ho hmem
    obtain ⟨hf, ht⟩ := hcalls o ho (updatePictureCount_pos_of_mem _ hmem)
    rw [hflag] at hf
    rw [htimer] at ht
    exact ⟨by simpa using hf, ht⟩
  · intro before o after hsplit hmem later hlater hmem2
    rw [hsplit, forcedUpdateCount_append] at hle
    have h2 := forcedUpdateCount_pos_of_mem after later hlater hmem2
    obtain ⟨now, result, events⟩ := o
    have h3 := updatePictureCount_pos_of_mem _ hmem
    dsimp only at h3
    simp only [forcedUpdateCount] at hle
    omega

/-- C22 at a video sink opened at the instant 1000 and written to at the
instants 1200, 1500 and 1600: the command is issued once, in the call at 1500. -/
theorem C22_one_shot_forced_key_frame_witness :
    forcedUpdateCount (runWritePacket (closedVideoSink.Open true 1000).2.1
      [(1200, frameAfterLoss, fun _ _ => true), (1500, frameAfterLoss, fun _ _ => true),
       (1600, frameAfterLoss, fun _ _ => true)]).1 ≤ 1 ∧
    forcedUpdateCount (runWritePacket (closedVideoSink.Open true 1000).2.1
      [(1200, frameAfterLoss, fun _ _ => true), (1500, frameAfterLoss, fun _ _ => true),
       (1600, frameAfterLoss, fun _ _ => true)]).1 = 1 :=
  ⟨(C22_one_shot_forced_key_frame true 1000 closedVideoSink
      [(1200, frameAfterLoss, fun _ _ => true), (1500, frameAfterLoss, fun _ _ => true),
       (1600, frameAfterLoss, fun _ _ => true)] rfl).1,
   by decide⟩

/-! ## The decision over any history: claims -/

/-- An entry that holds a decision is left exactly as it is by any
`CheckForLocalRTP` call. -/
theorem CheckForLocalRTP_frozen (OnLocalRTP : LocalRTPCallback)
    (connectionsActive : List (Option OpalRTPConnection))
    (ep : OpalRTPEndPoint) (stream : OpalRTPMediaStream) (k : Nat) (i : LocalRtpInfo)
    (hk : ep.m_connectionsByRtpLocalPort.find k = some i) (hi : 0 ≤ i.m_previousResult) :
    (CheckForLocalRTP OnLocalRTP connectionsActive ep stream).2.m_connectionsByRtpLocalPort.find k
      = some i := by
  cases hr : stream.rtp with
  | none =>
    rw [CheckForLocalRTP_not_local OnLocalRTP connectionsActive ep stream
      (by intro rtp h; rw [hr] at h; exact Option.noConfusion h)]
    exact hk
  | some rtp =>
    cases hl : rtp.remoteIsLocalHost with
    | false =>
      rw [CheckForLocalRTP_not_local OnLocalRTP connectionsActive ep stream
        (by intro rtp2 h; rw [hr] at h; rw [← Option.some.inj h]; exact hl)]
      exact hk
    | true =>
      have hk1 := LocalRtpInfoMap.find_insert_of_some ep.m_connectionsByRtpLocalPort
        rtp.localDataPort stream.connection k i hk
      have hnew : (ep.m_connectionsByRtpLocalPort.insert rtp.localDataPort stream.connection).2 = true →
          rtp.localDataPort ≠ k := by
        intro h2 heq
        rw [heq] at h2
        rw [LocalRtpInfoMap.insert_of_some _ _ _ i hk] at h2
        exact Bool.noConfusion h2
      cases hfind : (ep.m_connectionsByRtpLocalPort.insert rtp.localDataPort stream.connection).1.find
          rtp.remoteDataPort with
      | some info =>
        by_cases hlt : info.m_previousResult < 0
        · have hne : rtp.remoteDataPort ≠ k := by
            intro heq
            rw [heq, hk1] at hfind
            rw [Option.some.inj hfind] at hi
            exact absurd hlt (not_lt.mpr hi)
          rw [CheckForLocalRTP_cached_unknown OnLocalRTP connectionsActive ep stream rtp info hr hl
            hfind hlt]
          cases hb : (ep.m_connectionsByRtpLocalPort.insert rtp.localDataPort stream.connection).2
          · simp only [Bool.false_eq_true, if_false]
            rw [LocalRtpInfoMap.find_setPreviousResult_of_ne _ _ _ _ hne]
            exact hk1
          · simp only [if_true]
            rw [LocalRtpInfoMap.find_setPreviousResult_of_ne _ _ _ _ (hnew hb),
              LocalRtpInfoMap.find_setPreviousResult_of_ne _ _ _ _ hne]
            exact hk1
        · rw [CheckForLocalRTP_cached_decided OnLocalRTP connectionsActive ep stream rtp info hr hl
            hfind hlt]
          exact hk1
      | none =>
        have hne : rtp.remoteDataPort ≠ k := by
          intro heq
          rw [heq, hk1] at hfind
          exact Option.noConfusion hfind
        cases hscan : scanConnectionsActive connectionsActive rtp.remoteDataPort with
        | none =>
          rw [CheckForLocalRTP_scan_failed OnLocalRTP connectionsActive ep stream rtp hr hl hfind hscan]
          exact hk1
        | some peer =>
          rw [CheckForLocalRTP_scanned OnLocalRTP connectionsActive ep stream rtp peer hr hl hfind hscan]
          cases hb : (ep.m_connectionsByRtpLocalPort.insert rtp.localDataPort stream.connection).2
          · simp only [Bool.false_eq_true, if_false]
            rw [LocalRtpInfoMap.find_setPreviousResult_of_ne _ _ _ _ hne,
              LocalRtpInfoMap.find_insert_of_ne _ _ _ _ hne]
            exact hk1
          · simp only [if_true]
            rw [LocalRtpInfoMap.find_setPreviousResult_of_ne _ _ _ _ (hnew hb),
              LocalRtpInfoMap.find_setPreviousResult_of_ne _ _ _ _ hne,
              LocalRtpInfoMap.find_insert_of_ne _ _ _ _ hne]
            exact hk1

theorem decidedCount_le_one (m : LocalRtpInfoMap) (k : Nat) : decidedCount m k ≤ 1 := by
  unfold decidedCount
  cases m.find k with
  | none => simp
  | some i => by_cases h : 0 ≤ i.m_previousResult <;> simp [h]

theorem decidedCount_eq_one (m : LocalRtpInfoMap) (k : Nat) (d : Int) (hd : 0 ≤ d)
    (h : (m.find k).map (fun i => i.m_previousResult) = some d) : decidedCount m k = 1 := by
  unfold decidedCount
  cases hf : m.find k with
  | none => simp [hf] at h
  | some i =>
    have hi : i.m_previousResult = d := by simpa [hf] using h
    simp [hi, hd]

/-- The number of decided entries among any given port never goes down over a
`CheckForLocalRTP` call. -/
theorem CheckForLocalRTP_decidedCount_mono (OnLocalRTP : LocalRTPCallback)
    (connectionsActive : List (Option OpalRTPConnection))
    (ep : OpalRTPEndPoint) (stream : OpalRTPMediaStream) (k : Nat) :
    decidedCount ep.m_connectionsByRtpLocalPort k
      ≤ decidedCount (CheckForLocalRTP OnLocalRTP connectionsActive ep stream).2.m_connectionsByRtpLocalPort k := by
  cases hf : ep.m_connectionsByRtpLocalPort.find k with
  | none => simp [decidedCount, hf]
  | some i =>
    by_cases hi : 0 ≤ i.m_previousResult
    · have h2 := CheckForLocalRTP_frozen OnLocalRTP connectionsActive ep stream k i hf hi
      simp [decidedCount, hf, h2]
    · simp [decidedCount, hf, hi]

/-- Every invocation of the callback in a call on a loopback stream turns the
entry of the remote port from undecided into decided. -/
theorem CheckForLocalRTP_callback_decides (OnLocalRTP : LocalRTPCallback)
    (connectionsActive : List (Option OpalRTPConnection))
    (ep : OpalRTPEndPoint) (stream : OpalRTPMediaStream) (rtp : RTP_UDP)
    (hr : stream.rtp = some rtp) (hl : rtp.remoteIsLocalHost = true) :
    callbackCount (CheckForLocalRTP OnLocalRTP connectionsActive ep stream).2.history
        + decidedCount ep.m_connectionsByRtpLocalPort rtp.remoteDataPort
      ≤ callbackCount ep.history
        + decidedCount (CheckForLocalRTP OnLocalRTP connectionsActive ep stream).2.m_connectionsByRtpLocalPort
            rtp.remoteDataPort := by
  have hmono := CheckForLocalRTP_decidedCount_mono OnLocalRTP connectionsActive ep stream
    rtp.remoteDataPort
  cases hfind : (ep.m_connectionsByRtpLocalPort.insert rtp.localDataPort stream.connection).1.find
      rtp.remoteDataPort with
  | some info =>
    by_cases hlt : info.m_previousResult < 0
    · have hbefore : decidedCount ep.m_connectionsByRtpLocalPort rtp.remoteDataPort = 0 := by
        cases hf : ep.m_connectionsByRtpLocalPort.find rtp.remoteDataPort with
        | none => simp [decidedCount, hf]
        | some j =>
          have hj := LocalRtpInfoMap.find_insert_of_some ep.m_connectionsByRtpLocalPort
            rtp.localDataPort stream.connection rtp.remoteDataPort j hf
          rw [hfind] at hj
          have hji : j = info := (Option.some.inj hj).symm
          subst hji
          simp [decidedCount, hf, hlt]
      have hafter : decidedCount
          (CheckForLocalRTP OnLocalRTP connectionsActive ep stream).2.m_connectionsByRtpLocalPort
          rtp.remoteDataPort = 1 := by
        rw [CheckForLocalRTP_cached_unknown OnLocalRTP connectionsActive ep stream rtp info hr hl
          hfind hlt]
        exact decidedCount_eq_one _ _ _ (boolToInt_nonneg _) (memoized_remote _ _ _ _ _ info hfind)
      rw [hbefore, hafter,
        CheckForLocalRTP_cached_unknown OnLocalRTP connectionsActive ep stream rtp info hr hl hfind hlt]
      simp [callbackCount_append, callbackCount]
    · rw [CheckForLocalRTP_cached_decided OnLocalRTP connectionsActive ep stream rtp info hr hl
        hfind hlt] at hmono ⊢
      simp only at hmono ⊢
      omega
  | none =>
    cases hscan : scanConnectionsActive connectionsActive rtp.remoteDataPort with
    | none =>
      rw [CheckForLocalRTP_scan_failed OnLocalRTP connectionsActive ep stream rtp hr hl hfind hscan]
        at hmono ⊢
      simp only [callbackCount_append, callbackCount] at hmono ⊢
      omega
    | some peer =>
      have hbefore : decidedCount ep.m_connectionsByRtpLocalPort rtp.remoteDataPort = 0 := by
        cases hf : ep.m_connectionsByRtpLocalPort.find rtp.remoteDataPort with
        | none => simp [decidedCount, hf]
        | some j =>
          have hj := LocalRtpInfoMap.find_insert_of_some ep.m_connectionsByRtpLocalPort
            rtp.localDataPort stream.connection rtp.remoteDataPort j hf
          rw [hfind] at hj
          exact Option.noConfusion hj
      have hremote := LocalRtpInfoMap.find_insert_self
        (ep.m_connectionsByRtpLocalPort.insert rtp.localDataPort stream.connection).1
        rtp.remoteDataPort peer
      have hafter : decidedCount
          (CheckForLocalRTP OnLocalRTP connectionsActive ep stream).2.m_connectionsByRtpLocalPort
          rtp.remoteDataPort = 1 := by
        rw [CheckForLocalRTP_scanned OnLocalRTP connectionsActive ep stream rtp peer hr hl hfind hscan]
        exact decidedCount_eq_one _ _ _ (boolToInt_nonneg _) (memoized_remote _ _ _ _ _ _ hremote)
      rw [hbefore, hafter,
        CheckForLocalRTP_scanned OnLocalRTP connectionsActive ep stream rtp peer hr hl hfind hscan]
      simp [callbackCount_append, callbackCount]

/-- Over a sequence of calls from loopback streams that send to port `p` or to
port `q`, every invocation of the callback is paid for by one more decided
entry among the two ports. -/
theorem runCheckForLocalRTPWith_callback_bound (OnLocalRTP : LocalRTPCallback) (p q : Nat)
    (calls : List (List (Option OpalRTPConnection) × OpalRTPMediaStream)) :
    ∀ ep : OpalRTPEndPoint,
      (∀ c ∈ calls, ∃ rtp, c.2.rtp = some rtp ∧ rtp.remoteIsLocalHost = true ∧
        (rtp.remoteDataPort = p ∨ rtp.remoteDataPort = q)) →
      callbackCount (runCheckForLocalRTPWith OnLocalRTP ep calls).2.history
          + (decidedCount ep.m_connectionsByRtpLocalPort p
              + decidedCount ep.m_connectionsByRtpLocalPort q)
        ≤ callbackCount ep.history
          + (decidedCount (runCheckForLocalRTPWith OnLocalRTP ep calls).2.m_connectionsByRtpLocalPort p
              + decidedCount (runCheckForLocalRTPWith OnLocalRTP ep calls).2.m_connectionsByRtpLocalPort q) := by
  induction calls with
  | nil =>
    intro ep _
    simp [runCheckForLocalRTPWith]
  | cons c rest ih =>
    intro ep hcalls
    obtain ⟨connectionsActive, stream⟩ := c
    obtain ⟨rtp, hr, hl, hport⟩ := hcalls (connectionsActive, stream) (List.mem_cons_self _ _)
    have hrest := ih (CheckForLocalRTP OnLocalRTP connectionsActive ep stream).2
      (fun c hc => hcalls c (List.mem_cons_of_mem _ hc))
    have hstep := CheckForLocalRTP_callback_decides OnLocalRTP connectionsActive ep stream rtp hr hl
    have hmp := CheckForLocalRTP_decidedCount_mono OnLocalRTP connectionsActive ep stream p
    have hmq := CheckForLocalRTP_decidedCount_mono OnLocalRTP connectionsActive ep stream q
    simp only [runCheckForLocalRTPWith]
    rcases hport with h | h
    · rw [h] at hstep
      omega
    · rw [h] at hstep
      omega

/-- Once the entry of port `k` holds a decision, it keeps it over any sequence
of calls, and every call from a loopback stream that sends to port `k` returns
it. -/
theorem runCheckForLocalRTPWith_memoized (OnLocalRTP : LocalRTPCallback) (k : Nat)
    (i : LocalRtpInfo) (hi : 0 ≤ i.m_previousResult)
    (calls : List (List (Option OpalRTPConnection) × OpalRTPMediaStream)) :
    ∀ ep : OpalRTPEndPoint, ep.m_connectionsByRtpLocalPort.find k = some i →
      (runCheckForLocalRTPWith OnLocalRTP ep calls).2.m_connectionsByRtpLocalPort.find k = some i ∧
      ∀ x ∈ List.zip calls (runCheckForLocalRTPWith OnLocalRTP ep calls).1,
        (∃ rtp, x.1.2.rtp = some rtp ∧ rtp.remoteIsLocalHost = true ∧ rtp.remoteDataPort = k) →
        x.2 = (i.m_previousResult != 0) := by
  induction calls with
  | nil =>
    intro ep hk
    simp [runCheckForLocalRTPWith, hk]
  | cons c rest ih =>
    intro ep hk
    obtain ⟨connectionsActive, stream⟩ := c
    have hk1 := CheckForLocalRTP_frozen OnLocalRTP connectionsActive ep stream k i hk hi
    obtain ⟨hfinal, hresults⟩ := ih (CheckForLocalRTP OnLocalRTP connectionsActive ep stream).2 hk1
    simp only [runCheckForLocalRTPWith]
    refine ⟨hfinal, ?_⟩
    intro x hx hside
    simp only [List.zip_cons_cons, List.mem_cons] at hx
    rcases hx with h | h
    · subst h
      obtain ⟨rtp, hr, hl, hport⟩ := hside
      simp only at hr
      rw [← hport] at hk
      rw [CheckForLocalRTP_memoized OnLocalRTP connectionsActive ep stream rtp i hr hl hk hi]
    · exact hresults x h hside

/-- C23, as stated, fails. Streams A (ports 5000/6000) and B (ports 6000/5000),
empty cache. A calls before B is discoverable (false), A calls again once B is
discoverable (first invocation), then B, A and B call. With a callback that
always decides for bypass the callback is invoked twice for the pair. With a
callback that decides for bypass only the first time, the calls after the first
invocation return false to B and true to A. -/
theorem C23_counterexample :
    callbackCount (runCheckForLocalRTPWith alwaysBypass OpalRTPEndPoint.empty
      [([], loopbackStream 1 5000 6000),
       ([some connectionB], loopbackStream 1 5000 6000),
       ([some connectionA, some connectionB], loopbackStream 2 6000 5000)]).2.history = 2 ∧
    runCheckForLocalRTPWith bypassOnlyFirst OpalRTPEndPoint.empty
      [([], loopbackStream 1 5000 6000),
       ([some connectionB], loopbackStream 1 5000 6000),
       ([some connectionA, some connectionB], loopbackStream 2 6000 5000),
       ([some connectionA, some connectionB], loopbackStream 1 5000 6000),
       ([some connectionA, some connectionB], loopbackStream 2 6000 5000)]
      = ([false, true, false, true, false],
         { m_connectionsByRtpLocalPort :=
             [(6000, { m_connection := 2, m_previousResult := 1 }),
              (5000, { m_connection := 1, m_previousResult := 0 })],
           history :=
             [EpEvent.scan 6000, EpEvent.scan 6000,
              EpEvent.OnLocalRTP 1 2 1 true true, EpEvent.OnLocalRTP 2 1 1 true false] }) := by
  decide

/-- C23, amended. For two loopback streams whose local and remote data ports
match each other, over every sequence of `CheckForLocalRTP` calls from either
side starting from an empty cache, whatever the active connections are at each
call (so also when a call is made before the peer is discoverable and returns
false): the callback is invoked at most once per decided entry of the two
ports, hence at most twice for the pair; and once the entry of a side's remote
data port holds a decision, that entry keeps it and every later call from that
side returns it. -/
theorem C23_at_most_once_per_entry
    (OnLocalRTP : LocalRTPCallback) (streamA streamB : OpalRTPMediaStream) (rtpA rtpB : RTP_UDP)
    (hA : streamA.rtp = some rtpA) (hAlocal : rtpA.remoteIsLocalHost = true)
    (hB : streamB.rtp = some rtpB) (hBlocal : rtpB.remoteIsLocalHost = true)
    (hAB : rtpA.remoteDataPort = rtpB.localDataPort)
    (hBA : rtpB.remoteDataPort = rtpA.localDataPort)
    (calls : List (List (Option OpalRTPConnection) × OpalRTPMediaStream))
    (hcalls : ∀ c ∈ calls, c.2 = streamA ∨ c.2 = streamB) :
    callbackCount (runCheckForLocalRTPWith OnLocalRTP OpalRTPEndPoint.empty calls).2.history
      ≤ decidedCount
          (runCheckForLocalRTPWith OnLocalRTP OpalRTPEndPoint.empty calls).2.m_connectionsByRtpLocalPort
          rtpA.localDataPort
        + decidedCount
          (runCheckForLocalRTPWith OnLocalRTP OpalRTPEndPoint.empty calls).2.m_connectionsByRtpLocalPort
          rtpB.localDataPort ∧
    callbackCount (runCheckForLocalRTPWith OnLocalRTP OpalRTPEndPoint.empty calls).2.history ≤ 2 ∧
    (∀ (later : List (List (Option OpalRTPConnection) × OpalRTPMediaStream)) (i : LocalRtpInfo),
      (runCheckForLocalRTPWith OnLocalRTP OpalRTPEndPoint.empty calls).2.m_connectionsByRtpLocalPort.find
          rtpA.remoteDataPort = some i →
      0 ≤ i.m_previousResult →
      (runCheckForLocalRTPWith OnLocalRTP
          (runCheckForLocalRTPWith OnLocalRTP OpalRTPEndPoint.empty calls).2
          later).2.m_connectionsByRtpLocalPort.find rtpA.remoteDataPort = some i ∧
      ∀ x ∈ List.zip later
          (runCheckForLocalRTPWith OnLocalRTP
            (runCheckForLocalRTPWith OnLocalRTP OpalRTPEndPoint.empty calls).2 later).1,
        x.1.2 = streamA → x.2 = (i.m_previousResult != 0)) ∧
    (∀ (later : List (List (Option OpalRTPConnection) × OpalRTPMediaStream)) (i : LocalRtpInfo),
      (runCheckForLocalRTPWith OnLocalRTP OpalRTPEndPoint.empty calls).2.m_connectionsByRtpLocalPort.find
          rtpB.remoteDataPort = some i →
      0 ≤ i.m_previousResult →
      (runCheckForLocalRTPWith OnLocalRTP
          (runCheckForLocalRTPWith OnLocalRTP OpalRTPEndPoint.empty calls).2
          later).2.m_connectionsByRtpLocalPort.find rtpB.remoteDataPort = some i ∧
      ∀ x ∈ List.zip later
          (runCheckForLocalRTPWith OnLocalRTP
            (runCheckForLocalRTPWith OnLocalRTP OpalRTPEndPoint.empty calls).2 later).1,
        x.1.2 = streamB → x.2 = (i.m_previousResult != 0)) := by
  have hside : ∀ c ∈ calls, ∃ rtp, c.2.rtp = some rtp ∧ rtp.remoteIsLocalHost = true ∧
      (rtp.remoteDataPort = rtpA.localDataPort ∨ rtp.remoteDataPort = rtpB.localDataPort) := by
    intro c hc
    rcases hcalls c hc with h | h
    · exact ⟨rtpA, by rw [h]; exact hA, hAlocal, Or.inr hAB⟩
    · exact ⟨rtpB, by rw [h]; exact hB, hBlocal, Or.inl hBA⟩
  have hbound := runCheckForLocalRTPWith_callback_bound OnLocalRTP rtpA.localDataPort
    rtpB.localDataPort calls OpalRTPEndPoint.empty hside
  have h0 : callbackCount OpalRTPEndPoint.empty.history = 0 := rfl
  have h1 := decidedCount_le_one
    (runCheckForLocalRTPWith OnLocalRTP OpalRTPEndPoint.empty calls).2.m_connectionsByRtpLocalPort
    rtpA.localDataPort
  have h2 := decidedCount_le_one
    (runCheckForLocalRTPWith OnLocalRTP OpalRTPEndPoint.empty calls).2.m_connectionsByRtpLocalPort
    rtpB.localDataPort
  refine ⟨by omega, by omega, ?_, ?_⟩
  · intro later i hfind hi
    obtain ⟨hkeep, hresults⟩ := runCheckForLocalRTPWith_memoized OnLocalRTP rtpA.remoteDataPort i hi
      later _ hfind
    refine ⟨hkeep, ?_⟩
    intro x hx hfrom
    exact hresults x hx ⟨rtpA, by rw [hfrom]; exact hA, hAlocal, rfl⟩
  · intro later i hfind hi
    obtain ⟨hkeep, hresults⟩ := runCheckForLocalRTPWith_memoized OnLocalRTP rtpB.remoteDataPort i hi
      later _ hfind
    refine ⟨hkeep, ?_⟩
    intro x hx hfrom
    exact hresults x hx ⟨rtpB, by rw [hfrom]; exact hB, hBlocal, rfl⟩

/-- C23, amended, at the history of the counterexample: two invocations, not
more. -/
theorem C23_at_most_once_per_entry_witness :
    callbackCount (runCheckForLocalRTPWith bypassOnlyFirst OpalRTPEndPoint.empty
      [([], loopbackStream 1 5000 6000),
       ([some connectionB], loopbackStream 1 5000 6000),
       ([some connectionA, some connectionB], loopbackStream 2 6000 5000)]).2.history ≤ 2 :=
  (C23_at_most_once_per_entry bypassOnlyFirst (loopbackStream 1 5000 6000) (loopbackStream 2 6000 5000)
    { remoteIsLocalHost := true, localDataPort := 5000, remoteDataPort := 6000, sessionID := 1 }
    { remoteIsLocalHost := true, localDataPort := 6000, remoteDataPort := 5000, sessionID := 1 }
    rfl rfl rfl rfl rfl rfl
    [([], loopbackStream 1 5000 6000),
     ([some connectionB], loopbackStream 1 5000 6000),
     ([some connectionA, some connectionB], loopbackStream 2 6000 5000)]
    (by intro c hc; simp at hc; rcases hc with h | h | h <;> simp [h])).2.1

/-! ## The decision comes from the callback: claim -/

namespace LocalRtpInfoMap

theorem mem_of_find (m : LocalRtpInfoMap) (k : Nat) (v : LocalRtpInfo) (h : find m k = some v) :
    (k, v) ∈ m := by
  induction m with
  | nil => simp [find] at h
  | cons e rest ih =>
    obtain ⟨k2, v2⟩ := e
    by_cases hk : k2 = k
    · subst hk
      simp [find] at h
      simp [h]
    · simp [find, hk] at h
      exact List.mem_cons_of_mem _ (ih h)

theorem mem_insert (m : LocalRtpInfoMap) (p c : Nat) (e : Nat × LocalRtpInfo)
    (h : e ∈ (insert m p c).1) : e ∈ m ∨ e = (p, LocalRtpInfo.mk1 c) := by
  unfold insert at h
  cases hf : find m p with
  | none =>
    simp [hf] at h
    rcases h with h | h
    · exact Or.inr h
    · exact Or.inl h
  | some v =>
    simp [hf] at h
    exact Or.inl h

theorem mem_setPreviousResult (m : LocalRtpInfoMap) (p : Nat) (r : Int) (e : Nat × LocalRtpInfo)
    (h : e ∈ setPreviousResult m p r) : e.2.m_previousResult = r ∨ e ∈ m := by
  induction m with
  | nil => simp [setPreviousResult] at h
  | cons x rest ih =>
    obtain ⟨k, v⟩ := x
    by_cases hk : k = p
    · simp [setPreviousResult, hk] at h
      rcases h with h | h
      · left
        rw [h]
      · rcases ih h with h2 | h2
        · exact Or.inl h2
        · exact Or.inr (List.mem_cons_of_mem _ h2)
    · simp [setPreviousResult, hk] at h
      rcases h with h | h
      · right
        rw [h]
        exact List.mem_cons_self _ _
      · rcases ih h with h2 | h2
        · exact Or.inl h2
        · exact Or.inr (List.mem_cons_of_mem _ h2)

theorem mem_erase (m : LocalRtpInfoMap) (p : Nat) (e : Nat × LocalRtpInfo)
    (h : e ∈ erase m p) : e ∈ m := by
  induction m with
  | nil => simp [erase] at h
  | cons x rest ih =>
    obtain ⟨k, v⟩ := x
    by_cases hk : k = p
    · simp [erase, hk] at h
      exact List.mem_cons_of_mem _ (ih h)
    · simp [erase, hk] at h
      rcases h with h | h
      · rw [h]
        exact List.mem_cons_self _ _
      · exact List.mem_cons_of_mem _ (ih h)

end LocalRtpInfoMap

theorem openedResults_append (h1 h2 : List EpEvent) :
    openedResults (h1 ++ h2) = openedResults h1 ++ openedResults h2 := by
  induction h1 with
  | nil => simp [openedResults]
  | cons e rest ih =>
    cases e with
    | scan port => simpa [openedResults] using ih
    | OnLocalRTP c1 c2 sid opened result =>
      cases opened
      · simpa [openedResults] using ih
      · simp [openedResults, ih]

/-- The property is kept by a step that only extends the history and whose new
or changed entries are Unknown or hold a result found in the new history. -/
theorem decisionsComeFromCallback_step (ep ep2 : OpalRTPEndPoint)
    (hP : decisionsComeFromCallback ep)
    (hhist : ∀ b ∈ openedResults ep.history, b ∈ openedResults ep2.history)
    (hentries : ∀ e ∈ ep2.m_connectionsByRtpLocalPort,
      e ∈ ep.m_connectionsByRtpLocalPort ∨ e.2.m_previousResult = -1 ∨
        ∃ b ∈ openedResults ep2.history, e.2.m_previousResult = boolToInt b) :
    decisionsComeFromCallback ep2 := by
  intro e he
  rcases hentries e he with h | h | h
  · rcases hP e h with h2 | ⟨b, hb, h2⟩
    · exact Or.inl h2
    · exact Or.inr ⟨b, hhist b hb, h2⟩
  · exact Or.inl h
  · exact Or.inr h

/-- The entries after the decision has been written through the iterators hold
that decision or were there before. -/
theorem mem_memoized (m : LocalRtpInfoMap) (localPort remotePort : Nat) (d : Int) (b : Bool)
    (e : Nat × LocalRtpInfo)
    (h : e ∈ (if b then (m.setPreviousResult remotePort d).setPreviousResult localPort d
        else m.setPreviousResult remotePort d)) :
    e.2.m_previousResult = d ∨ e ∈ m := by
  cases b with
  | false =>
    simp only [Bool.false_eq_true, if_false] at h
    exact LocalRtpInfoMap.mem_setPreviousResult _ _ _ _ h
  | true =>
    simp only [if_true] at h
    rcases LocalRtpInfoMap.mem_setPreviousResult _ _ _ _ h with h2 | h2
    · exact Or.inl h2
    · exact LocalRtpInfoMap.mem_setPreviousResult _ _ _ _ h2

/-- `CheckForLocalRTP` keeps the property. -/
theorem decisionsComeFromCallback_CheckForLocalRTP (OnLocalRTP : LocalRTPCallback)
    (connectionsActive : List (Option OpalRTPConnection))
    (ep : OpalRTPEndPoint) (stream : OpalRTPMediaStream)
    (hP : decisionsComeFromCallback ep) :
    decisionsComeFromCallback (CheckForLocalRTP OnLocalRTP connectionsActive ep stream).2 := by
  cases hr : stream.rtp with
  | none =>
    rw [CheckForLocalRTP_not_local OnLocalRTP connectionsActive ep stream
      (by intro rtp h; rw [hr] at h; exact Option.noConfusion h)]
    exact hP
  | some rtp =>
    cases hl : rtp.remoteIsLocalHost with
    | false =>
      rw [CheckForLocalRTP_not_local OnLocalRTP connectionsActive ep stream
        (by intro rtp2 h; rw [hr] at h; rw [← Option.some.inj h]; exact hl)]
      exact hP
    | true =>
      have hins : ∀ e ∈ (ep.m_connectionsByRtpLocalPort.insert rtp.localDataPort stream.connection).1,
          e ∈ ep.m_connectionsByRtpLocalPort ∨ e.2.m_previousResult = -1 := by
        intro e he
        rcases LocalRtpInfoMap.mem_insert _ _ _ _ he with h | h
        · exact Or.inl h
        · right
          rw [h]
          rfl
      cases hfind : (ep.m_connectionsByRtpLocalPort.insert rtp.localDataPort stream.connection).1.find
          rtp.remoteDataPort with
      | some info =>
        by_cases hlt : info.m_previousResult < 0
        · rw [CheckForLocalRTP_cached_unknown OnLocalRTP connectionsActive ep stream rtp info hr hl
            hfind hlt]
          apply decisionsComeFromCallback_step ep _ hP
          · intro b hb
            simp [openedResults_append, hb]
          · intro e he
            rcases mem_memoized _ _ _ _ _ _ he with h | h
            · right; right
              exact ⟨_, by simp [openedResults_append, openedResults], h⟩
            · rcases hins e h with h2 | h2
              · exact Or.inl h2
              · exact Or.inr (Or.inl h2)
        · rw [CheckForLocalRTP_cached_decided OnLocalRTP connectionsActive ep stream rtp info hr hl
            hfind hlt]
          apply decisionsComeFromCallback_step ep _ hP
          · intro b hb
            exact hb
          · intro e he
            rcases hins e he with h2 | h2
            · exact Or.inl h2
            · exact Or.inr (Or.inl h2)
      | none =>
        cases hscan : scanConnectionsActive connectionsActive rtp.remoteDataPort with
        | none =>
          rw [CheckForLocalRTP_scan_failed OnLocalRTP connectionsActive ep stream rtp hr hl hfind hscan]
          apply decisionsComeFromCallback_step ep _ hP
          · intro b hb
            simp [openedResults_append, hb]
          · intro e he
            rcases hins e he with h2 | h2
            · exact Or.inl h2
            · exact Or.inr (Or.inl h2)
        | some peer =>
          rw [CheckForLocalRTP_scanned OnLocalRTP connectionsActive ep stream rtp peer hr hl hfind hscan]
          apply decisionsComeFromCallback_step ep _ hP
          · intro b hb
            simp [openedResults_append, hb]
          · intro e he
            rcases mem_memoized _ _ _ _ _ _ he with h | h
            · right; right
              exact ⟨_, by simp [openedResults_append, openedResults], h⟩
            · rcases LocalRtpInfoMap.mem_insert _ _ _ _ h with h3 | h3
              · rcases hins e h3 with h2 | h2
                · exact Or.inl h2
                · exact Or.inr (Or.inl h2)
              · right; left
                rw [h3]
                rfl

/-- `CheckEndLocalRTP` keeps the property. -/
theorem decisionsComeFromCallback_CheckEndLocalRTP (OnLocalRTP : LocalRTPCallback)
    (ep : OpalRTPEndPoint) (connection : Nat) (rtp : Option RTP_UDP)
    (hP : decisionsComeFromCallback ep) :
    decisionsComeFromCallback (CheckEndLocalRTP OnLocalRTP ep connection rtp) := by
  cases rtp with
  | none => exact hP
  | some rtp =>
    cases hown : ep.m_connectionsByRtpLocalPort.find rtp.localDataPort with
    | none =>
      simp only [CheckEndLocalRTP, hown]
      exact hP
    | some own =>
      apply decisionsComeFromCallback_step ep _ hP
      · intro b hb
        simp only [CheckEndLocalRTP, hown]
        cases (ep.m_connectionsByRtpLocalPort.erase rtp.localDataPort).find rtp.remoteDataPort with
        | none => exact hb
        | some it => simp [openedResults_append, openedResults, hb]
      · intro e he
        left
        simp only [CheckEndLocalRTP, hown] at he
        cases hrem : (ep.m_connectionsByRtpLocalPort.erase rtp.localDataPort).find
            rtp.remoteDataPort with
        | none =>
          rw [hrem] at he
          exact LocalRtpInfoMap.mem_erase _ _ _ he
        | some it =>
          rw [hrem] at he
          exact LocalRtpInfoMap.mem_erase _ _ _ he

/-- The property holds along any sequence of calls. -/
theorem decisionsComeFromCallback_run (OnLocalRTP : LocalRTPCallback) (calls : List EndPointCall) :
    ∀ ep : OpalRTPEndPoint, decisionsComeFromCallback ep →
      decisionsComeFromCallback (runEndPointCalls OnLocalRTP ep calls) := by
  induction calls with
  | nil =>
    intro ep hP
    exact hP
  | cons c rest ih =>
    intro ep hP
    cases c with
    | checkForLocalRTP connectionsActive stream =>
      exact ih _ (decisionsComeFromCallback_CheckForLocalRTP OnLocalRTP connectionsActive ep stream hP)
    | checkEndLocalRTP connection rtp =>
      exact ih _ (decisionsComeFromCallback_CheckEndLocalRTP OnLocalRTP ep connection rtp hP)

/-- When the stored decisions come from the callback, a `CheckForLocalRTP` that
returns true has a callback result `true` in its history, from this call or
from before. -/
theorem CheckForLocalRTP_true_has_consent (OnLocalRTP : LocalRTPCallback)
    (connectionsActive : List (Option OpalRTPConnection))
    (ep : OpalRTPEndPoint) (stream : OpalRTPMediaStream)
    (hP : decisionsComeFromCallback ep)
    (htrue : (CheckForLocalRTP OnLocalRTP connectionsActive ep stream).1 = true) :
    true ∈ openedResults (CheckForLocalRTP OnLocalRTP connectionsActive ep stream).2.history := by
  cases hr : stream.rtp with
  | none =>
    rw [CheckForLocalRTP_not_local OnLocalRTP connectionsActive ep stream
      (by intro rtp h; rw [hr] at h; exact Option.noConfusion h)] at htrue
    exact Bool.noConfusion htrue
  | some rtp =>
    cases hl : rtp.remoteIsLocalHost with
    | false =>
      rw [CheckForLocalRTP_not_local OnLocalRTP connectionsActive ep stream
        (by intro rtp2 h; rw [hr] at h; rw [← Option.some.inj h]; exact hl)] at htrue
      exact Bool.noConfusion htrue
    | true =>
      cases hfind : (ep.m_connectionsByRtpLocalPort.insert rtp.localDataPort stream.connection).1.find
          rtp.remoteDataPort with
      | some info =>
        by_cases hlt : info.m_previousResult < 0
        · rw [CheckForLocalRTP_cached_unknown OnLocalRTP connectionsActive ep stream rtp info hr hl
            hfind hlt] at htrue ⊢
          simp only at htrue
          simp [openedResults_append, openedResults, htrue]
        · rw [CheckForLocalRTP_cached_decided OnLocalRTP connectionsActive ep stream rtp info hr hl
            hfind hlt] at htrue ⊢
          simp only at htrue ⊢
          rcases LocalRtpInfoMap.mem_insert _ _ _ _
            (LocalRtpInfoMap.mem_of_find _ _ _ hfind) with h | h
          · rcases hP _ h with h2 | ⟨b, hb, h2⟩
            · simp only at h2
              rw [h2] at hlt
              exact absurd (by decide) hlt
            · simp only at h2
              rw [h2, boolToInt_ne_zero] at htrue
              rw [htrue] at hb
              exact hb
          · have h2 : info = LocalRtpInfo.mk1 stream.connection := (Prod.mk.inj h).2
            rw [h2] at hlt
            exact absurd (by simp [LocalRtpInfo.mk1]) hlt
      | none =>
        cases hscan : scanConnectionsActive connectionsActive rtp.remoteDataPort with
        | none =>
          rw [CheckForLocalRTP_scan_failed OnLocalRTP connectionsActive ep stream rtp hr hl hfind
            hscan] at htrue
          exact Bool.noConfusion htrue
        | some peer =>
          rw [CheckForLocalRTP_scanned OnLocalRTP connectionsActive ep stream rtp peer hr hl hfind
            hscan] at htrue ⊢
          simp only at htrue
          simp [openedResults_append, openedResults, htrue]

/-- C25. Bypass is never reported without the callback's consent: in every
endpoint state reached from the empty cache by any sequence of
`CheckForLocalRTP` and `CheckEndLocalRTP` calls, every entry's stored decision
is Unknown (`-1`) or the value (`0` or `1`) of a result that an earlier
`OnLocalRTP(..., opened = true)` invocation returned; so a `CheckForLocalRTP`
made in such a state returns true only if the callback has returned true, in
this call or in an earlier one. -/
theorem C25_bypass_needs_consent
    (OnLocalRTP : LocalRTPCallback) (calls : List EndPointCall) :
    (∀ entry ∈ (runEndPointCalls OnLocalRTP OpalRTPEndPoint.empty calls).m_connectionsByRtpLocalPort,
      entry.2.m_previousResult = -1 ∨
      ∃ result ∈ openedResults (runEndPointCalls OnLocalRTP OpalRTPEndPoint.empty calls).history,
        entry.2.m_previousResult = boolToInt result) ∧
    (∀ entry ∈ (runEndPointCalls OnLocalRTP OpalRTPEndPoint.empty calls).m_connectionsByRtpLocalPort,
      entry.2.m_previousResult = -1 ∨ entry.2.m_previousResult = 0 ∨
        entry.2.m_previousResult = 1) ∧
    (∀ (connectionsActive : List (Option OpalRTPConnection)) (stream : OpalRTPMediaStream),
      (CheckForLocalRTP OnLocalRTP connectionsActive
        (runEndPointCalls OnLocalRTP OpalRTPEndPoint.empty calls) stream).1 = true →
      true ∈ openedResults (CheckForLocalRTP OnLocalRTP connectionsActive
        (runEndPointCalls OnLocalRTP OpalRTPEndPoint.empty calls) stream).2.history) := by
  have hempty : decisionsComeFromCallback OpalRTPEndPoint.empty := by
    intro e he
    simp [OpalRTPEndPoint.empty] at he
  have hP := decisionsComeFromCallback_run OnLocalRTP calls OpalRTPEndPoint.empty hempty
  refine ⟨hP, ?_, ?_⟩
  · intro entry hentry
    rcases hP entry hentry with h | ⟨b, _, h⟩
    · exact Or.inl h
    · cases b
      · exact Or.inr (Or.inl h)
      · exact Or.inr (Or.inr h)
  · intro connectionsActive stream htrue
    exact CheckForLocalRTP_true_has_consent OnLocalRTP connectionsActive _ stream hP htrue

/-! ## Access to the jitter buffer lock: claim -/

/-- C24, as stated, fails. On an open source stream, `SetPatch` makes no call
on `m_jitterMutex` at all, so its `Close` and `Restart` of the jitter buffer
run without write access; and `InternalSetJitterBuffer` closes the old
instance before it starts write access (it holds read access then), and only
destroys and creates under write access. -/
theorem C24_counterexample :
    (loopbackStream 1 5000 6000).IsOpen = true ∧ (loopbackStream 1 5000 6000).isSource = true ∧
    jitterMutexCalls ((loopbackStream 1 5000 6000).SetPatch true (some 8)).2.2 = [] ∧
    jitterCallsWithWriteAccess false ((loopbackStream 1 5000 6000).SetPatch true (some 8)).2.2
      = [(StreamEvent.JitterClose 0, false), (StreamEvent.JitterRestart 0, false)] ∧
    jitterCallsWithWriteAccess false
        ((loopbackStream 1 5000 6000).InternalSetJitterBuffer alwaysBypass [] OpalRTPEndPoint.empty 1
          { m_minJitterDelay := 40, m_maxJitterDelay := 200, m_timeUnits := 8 }).2.2.2
      = [(StreamEvent.JitterClose 0, false),
         (StreamEvent.JitterDelete 0, true),
         (StreamEvent.JitterCreate 1
            { m_minJitterDelay := 40, m_maxJitterDelay := 200, m_timeUnits := 8 }, true)] ∧
    ((loopbackStream 1 5000 6000).SetPatch true (some 8)).2.2
      = [StreamEvent.InternalSetPatchPart1 (some 8), StreamEvent.JitterClose 0,
         StreamEvent.InternalSetPatchPart2 none, StreamEvent.JitterRestart 0] ∧
    ((loopbackStream 1 5000 6000).InternalSetJitterBuffer alwaysBypass [] OpalRTPEndPoint.empty 1
          { m_minJitterDelay := 40, m_maxJitterDelay := 200, m_timeUnits := 8 }).2.2.2
      = [StreamEvent.StartRead, StreamEvent.JitterClose 0, StreamEvent.StartWrite,
         StreamEvent.JitterDelete 0,
         StreamEvent.JitterCreate 1
           { m_minJitterDelay := 40, m_maxJitterDelay := 200, m_timeUnits := 8 },
         StreamEvent.EndWrite, StreamEvent.SetJitterBuffer 1 0, StreamEvent.EndRead] := by
  decide

/-! ### Lock discipline gives race freedom -/

namespace JitterSystem

/-- A call that the lock lets through keeps the invariant. -/
theorem Invariant.step_perform (sys : JitterSystem) (t : Nat) (a : JitterAction)
    (rest : List JitterAction) (h : sys.Invariant) (hp : sys.program t = a :: rest)
    (he : sys.enabled t a = true) : (sys.perform t a rest).Invariant := by
  have hd := h.discipline t
  rw [hp] at hd
  have hother : ∀ t2, t2 ≠ t → sys.writer = some t →
      sys.readers.count t2 = 0 ∧ sys.writer ≠ some t2 := by
    intro t2 ht2 hw
    constructor
    · rw [List.count_eq_zero]
      intro hmem
      exact ht2 (h.exclusive t hw t2 hmem)
    · rw [hw]
      intro heq
      exact ht2 (Option.some.inj heq).symm
  cases a with
  | startRead =>
    simp only [enabled, decide_eq_true_eq] at he
    simp only [disciplined] at hd
    refine ⟨?_, ?_, ?_, ?_⟩
    · intro w hw r hr
      simp only [perform] at hw hr
      rcases List.mem_cons.mp hr with h1 | h1
      · rcases he with h2 | h2
        · rw [h2] at hw; exact Option.noConfusion hw
        · rw [h2] at hw; rw [h1]; exact Option.some.inj hw
      · exact h.exclusive w hw r h1
    · intro t2
      by_cases ht : t2 = t
      · subst ht
        simpa [perform] using hd
      · have := h.discipline t2
        simpa [perform, Function.update_noteq ht, List.count_cons_of_ne ht] using this
    · intro hmem
      exact h.dangling hmem
    · intro t2 p hin
      by_cases ht : t2 = t
      · subst ht
        simp [perform] at hin
      · simp only [perform, Function.update_noteq ht] at hin
        have := h.inside t2 p hin
        simpa [perform, List.count_cons_of_ne ht] using this
  | endRead =>
    simp only [disciplined, Bool.and_eq_true, decide_eq_true_eq] at hd
    refine ⟨?_, ?_, ?_, ?_⟩
    · intro w hw r hr
      simp only [perform] at hw hr
      exact h.exclusive w hw r (List.mem_of_mem_erase hr)
    · intro t2
      by_cases ht : t2 = t
      · subst ht
        simpa [perform] using hd.2
      · have := h.discipline t2
        simpa [perform, Function.update_noteq ht, List.count_erase_of_ne ht] using this
    · intro hmem
      exact h.dangling hmem
    · intro t2 p hin
      by_cases ht : t2 = t
      · subst ht
        simp [perform] at hin
      · simp only [perform, Function.update_noteq ht] at hin
        have := h.inside t2 p hin
        simpa [perform, List.count_erase_of_ne ht] using this
  | startWrite =>
    simp only [enabled, Bool.and_eq_true, decide_eq_true_eq, List.all_eq_true] at he
    simp only [disciplined, Bool.and_eq_true, Bool.not_eq_true', decide_eq_false_iff_not] at hd
    have hnone : sys.writer = none := by
      rcases he.1 with h1 | h1
      · exact h1
      · exact absurd h1 hd.1
    have hlive : sys.current ∉ sys.destroyed := by
      intro hmem
      obtain ⟨w, hw⟩ := h.dangling hmem
      rw [hnone] at hw
      exact Option.noConfusion hw
    refine ⟨?_, ?_, ?_, ?_⟩
    · intro w hw r hr
      simp only [perform] at hw hr
      rw [← Option.some.inj hw]
      exact he.2 r hr
    · intro t2
      by_cases ht : t2 = t
      · subst ht
        have hd2 := hd.2
        simp [hnone] at hd2
        simpa [perform, hlive] using hd2
      · have := h.discipline t2
        have ht' : ¬ t = t2 := fun e => ht e.symm
        simpa [perform, Function.update_noteq ht, hnone, ht'] using this
    · intro _
      exact ⟨t, rfl⟩
    · intro t2 p hin
      by_cases ht : t2 = t
      · subst ht
        simp [perform] at hin
      · simp only [perform, Function.update_noteq ht] at hin
        have hold := h.inside t2 p hin
        rcases hold.1 with h1 | h1
        · exact absurd (he.2 t2 (List.count_pos_iff.mp h1)) ht
        · rw [hnone] at h1
          exact Option.noConfusion h1
  | endWrite =>
    simp only [disciplined, Bool.and_eq_true, Bool.not_eq_true', decide_eq_true_eq,
      decide_eq_false_iff_not] at hd
    obtain ⟨⟨hw, hnd⟩, hrest⟩ := hd
    have hlive : sys.current ∉ sys.destroyed := fun hmem => hnd ⟨hw, hmem⟩
    refine ⟨?_, ?_, ?_, ?_⟩
    · intro w hw2 r hr
      simp [perform, hw] at hw2
    · intro t2
      by_cases ht : t2 = t
      · subst ht
        simpa [perform, hw, hlive] using hrest
      · have := h.discipline t2
        have ht' : ¬ t = t2 := fun e => ht e.symm
        simpa [perform, Function.update_noteq ht, hw, ht'] using this
    · intro hmem
      exact absurd hmem hlive
    · intro t2 p hin
      by_cases ht : t2 = t
      · subst ht
        simp [perform] at hin
      · simp only [perform, Function.update_noteq ht] at hin
        have hold := h.inside t2 p hin
        obtain ⟨hc, hnw⟩ := hother t2 ht hw
        rcases hold.1 with h1 | h1
        · omega
        · exact absurd h1 hnw
  | destroy =>
    simp only [disciplined, Bool.and_eq_true, decide_eq_true_eq] at hd
    obtain ⟨hw, hrest⟩ := hd
    refine ⟨?_, ?_, ?_, ?_⟩
    · intro w hw2 r hr
      exact h.exclusive w hw2 r hr
    · intro t2
      by_cases ht : t2 = t
      · subst ht
        simpa [perform, hw] using hrest
      · have := h.discipline t2
        have ht' : ¬ t = t2 := fun e => ht e.symm
        simpa [perform, Function.update_noteq ht, hw, ht'] using this
    · intro _
      exact ⟨t, hw⟩
    · intro t2 p hin
      by_cases ht : t2 = t
      · subst ht
        simp [perform] at hin
      · simp only [perform, Function.update_noteq ht] at hin
        have hold := h.inside t2 p hin
        obtain ⟨hc, hnw⟩ := hother t2 ht hw
        rcases hold.1 with h1 | h1
        · omega
        · exact absurd h1 hnw
  | create b =>
    simp only [disciplined, Bool.and_eq_true, decide_eq_true_eq] at hd
    obtain ⟨hw, hrest⟩ := hd
    have hfresh : b ∉ sys.destroyed.filter (fun d => decide (d ≠ b)) := by
      simp [List.mem_filter]
    refine ⟨?_, ?_, ?_, ?_⟩
    · intro w hw2 r hr
      exact h.exclusive w hw2 r hr
    · intro t2
      by_cases ht : t2 = t
      · subst ht
        simpa [perform, hw] using hrest
      · have := h.discipline t2
        have ht' : ¬ t = t2 := fun e => ht e.symm
        simpa [perform, Function.update_noteq ht, hw, ht'] using this
    · intro hmem
      exact absurd hmem hfresh
    · intro t2 p hin
      by_cases ht : t2 = t
      · subst ht
        simp [perform] at hin
      · simp only [perform, Function.update_noteq ht] at hin
        have hold := h.inside t2 p hin
        obtain ⟨hc, hnw⟩ := hother t2 ht hw
        rcases hold.1 with h1 | h1
        · omega
        · exact absurd h1 hnw
  | use =>
    simp only [disciplined, Bool.and_eq_true, Bool.or_eq_true, Bool.not_eq_true',
      decide_eq_true_eq, decide_eq_false_iff_not] at hd
    obtain ⟨⟨hacc, hnd⟩, hrest⟩ := hd
    have hlive : sys.current ∉ sys.destroyed := by
      intro hmem
      obtain ⟨w, hw⟩ := h.dangling hmem
      rcases hacc with h1 | h1
      · have := h.exclusive w hw t (List.count_pos_iff.mp h1)
        rw [this] at hnd
        exact hnd ⟨hw, hmem⟩
      · exact hnd ⟨h1, hmem⟩
    refine ⟨?_, ?_, ?_, ?_⟩
    · intro w hw2 r hr
      exact h.exclusive w hw2 r hr
    · intro t2
      by_cases ht : t2 = t
      · subst ht
        simpa [perform] using hrest
      · have := h.discipline t2
        simpa [perform, Function.update_noteq ht] using this
    · intro hmem
      exact h.dangling hmem
    · intro t2 p hin
      by_cases ht : t2 = t
      · subst ht
        simp only [perform, Function.update_same] at hin
        have hp2 : p = sys.current := (Option.some.inj hin).symm
        subst hp2
        exact ⟨hacc, rfl, hlive⟩
      · simp only [perform, Function.update_noteq ht] at hin
        exact h.inside t2 p hin
  | other =>
    simp only [disciplined] at hd
    refine ⟨?_, ?_, ?_, ?_⟩
    · intro w hw2 r hr
      exact h.exclusive w hw2 r hr
    · intro t2
      by_cases ht : t2 = t
      · subst ht
        simpa [perform] using hd
      · have := h.discipline t2
        simpa [perform, Function.update_noteq ht] using this
    · intro hmem
      exact h.dangling hmem
    · intro t2 p hin
      by_cases ht : t2 = t
      · subst ht
        simp [perform] at hin
      · simp only [perform, Function.update_noteq ht] at hin
        exact h.inside t2 p hin

/-- A step of the schedule keeps the invariant. -/
theorem Invariant.step (sys : JitterSystem) (t : Nat) (h : sys.Invariant) :
    (sys.step t).Invariant := by
  unfold JitterSystem.step
  cases hp : sys.program t with
  | nil => exact h
  | cons a rest =>
    by_cases he : sys.enabled t a = true
    · simp only [he, if_true]
      exact Invariant.step_perform sys t a rest h hp he
    · simp only [he]
      exact h

/-- The invariant holds after every schedule. -/
theorem Invariant.run (schedule : List Nat) :
    ∀ sys : JitterSystem, sys.Invariant → (sys.run schedule).Invariant := by
  induction schedule with
  | nil =>
    intro sys h
    exact h
  | cons t rest ih =>
    intro sys h
    exact ih _ (Invariant.step sys t h)

/-- Under the invariant no thread is inside a superseded instance. -/
theorem Invariant.raceFree (sys : JitterSystem) (h : sys.Invariant) : sys.raceFree := by
  intro t p hin
  exact (h.inside t p hin).2

end JitterSystem

/-- At the start the invariant holds when every thread's program keeps the lock
discipline. -/
theorem JitterSystem.start_invariant (current : Nat) (programs : Nat → List StreamEvent)
    (h : ∀ t, JitterSystem.disciplined 0 false false
      ((programs t).map StreamEvent.jitterAction) = true) :
    (JitterSystem.start current programs).Invariant := by
  refine ⟨?_, ?_, ?_, ?_⟩
  · intro w hw
    simp [JitterSystem.start] at hw
  · intro t
    simpa [JitterSystem.start] using h t
  · intro hmem
    simp [JitterSystem.start] at hmem
  · intro t p hin
    simp [JitterSystem.start] at hin

/-- The calls of a `ReadPacket` keep the lock discipline and leave the thread
as it was: without access to the lock. -/
theorem ReadPacket_disciplined (ReadData : Option RTP_DataFrame) (s : OpalRTPMediaStream)
    (packet : RTP_DataFrame) (rest : List JitterAction) :
    JitterSystem.disciplined 0 false false
        ((s.ReadPacket ReadData packet).2.2.2.map StreamEvent.jitterAction ++ rest)
      = JitterSystem.disciplined 0 false false rest := by
  unfold OpalRTPMediaStream.ReadPacket
  cases h1 : s.IsOpen
  · simp
  · cases h2 : s.isSource
    · simp
    · cases ReadData with
      | none => simp [JitterSystem.disciplined, StreamEvent.jitterAction]
      | some delivered =>
        by_cases h3 : (OPAL_VIDEO && (decide (delivered.discontinuity > 0)
            && decide (s.mediaType = OpalMediaType.Video))) = true
        · simp [h3, JitterSystem.disciplined, StreamEvent.jitterAction]
        · simp [h3, JitterSystem.disciplined, StreamEvent.jitterAction]

/-- The calls of an `OnReceivedPacket` keep the lock discipline and leave the
thread without access to the lock. -/
theorem OnReceivedPacket_disciplined (s : OpalRTPMediaStream) (frame : RTP_DataFrame)
    (rest : List JitterAction) :
    JitterSystem.disciplined 0 false false
        ((s.OnReceivedPacket frame).map StreamEvent.jitterAction ++ rest)
      = JitterSystem.disciplined 0 false false rest := by
  simp [OpalRTPMediaStream.OnReceivedPacket, JitterSystem.disciplined, StreamEvent.jitterAction]

/-- A thread that makes any number of `ReadPacket` and `OnReceivedPacket` calls
keeps the lock discipline. -/
theorem readerProgram_disciplined (s : OpalRTPMediaStream) (calls : List ReaderCall) :
    JitterSystem.disciplined 0 false false
      ((readerProgram s calls).map StreamEvent.jitterAction) = true := by
  induction calls with
  | nil => rfl
  | cons call rest ih =>
    cases call with
    | readPacket ReadData packet =>
      simp only [readerProgram, ReaderCall.events, List.map_append]
      rw [ReadPacket_disciplined]
      exact ih
    | onReceivedPacket frame =>
      simp only [readerProgram, ReaderCall.events, List.map_append]
      rw [OnReceivedPacket_disciplined]
      exact ih

/-- A replacement made without the lock can be observed: with the patch thread
inside `ReadData`, a thread that deletes the instance and installs another one
without taking `m_jitterMutex` leaves the patch thread inside a deleted
instance. -/
theorem unlocked_replacement_is_observed :
    ¬ ((JitterSystem.start 0
        (fun t =>
          if t = 0 then
            [StreamEvent.JitterDelete 0,
             StreamEvent.JitterCreate 1 { m_minJitterDelay := 40, m_maxJitterDelay := 200, m_timeUnits := 8 }]
          else if t = 1 then (videoSourceStream.ReadPacket (some frameAfterLoss) keepAliveFrame).2.2.2
          else [])).run [1, 1, 0]).raceFree := by
  intro h
  have h1 := h 1 0 (by decide)
  exact h1.2 (by decide)

/-- C24, amended. Race-free swap: a successful `InternalSetJitterBuffer` takes
read access, closes the old instance under it, takes write access, destroys the
old instance and installs the new one under write access, releases write
access, hands the new instance to the session and releases read access;
`SetPatch` on an open source stream makes no call on the lock, closes and
restarts the instance the stream holds in place, and replaces none. With one of
these running on one thread while every other thread makes any number of
`ReadPacket` and `OnReceivedPacket` calls (which hold read access around their
call into the buffer), under every schedule no thread is ever inside a buffer
instance that has been superseded: the instance it is inside of is the one the
stream holds and has not been deleted. -/
theorem C24_race_free_swap
    (OnLocalRTP : LocalRTPCallback) (connectionsActive : List (Option OpalRTPConnection))
    (ep : OpalRTPEndPoint) (newId : Nat) (s : OpalRTPMediaStream) (init : JitterInit)
    (baseSetPatch : Bool) (patch : Option Nat)
    (others : Nat → List ReaderCall) (schedule : List Nat) :
    ((s.InternalSetJitterBuffer OnLocalRTP connectionsActive ep newId init).1 = true →
      (s.InternalSetJitterBuffer OnLocalRTP connectionsActive ep newId init).2.2.2
        = [StreamEvent.StartRead,
           StreamEvent.JitterClose s.m_jitterBuffer.id,
           StreamEvent.StartWrite,
           StreamEvent.JitterDelete s.m_jitterBuffer.id,
           StreamEvent.JitterCreate newId init,
           StreamEvent.EndWrite,
           StreamEvent.SetJitterBuffer newId s.m_syncSource,
           StreamEvent.EndRead] ∧
      ((JitterSystem.start s.m_jitterBuffer.id
          (fun t =>
            if t = 0 then
              (s.InternalSetJitterBuffer OnLocalRTP connectionsActive ep newId init).2.2.2
            else readerProgram s (others t))).run schedule).raceFree) ∧
    (s.IsOpen = true → s.isSource = true →
      (s.SetPatch baseSetPatch patch).2.2
        = [StreamEvent.InternalSetPatchPart1 patch,
           StreamEvent.JitterClose s.m_jitterBuffer.id,
           StreamEvent.InternalSetPatchPart2 s.m_mediaPatch,
           StreamEvent.JitterRestart s.m_jitterBuffer.id] ∧
      (s.SetPatch baseSetPatch patch).2.1.m_jitterBuffer.id = s.m_jitterBuffer.id ∧
      ((JitterSystem.start s.m_jitterBuffer.id
          (fun t =>
            if t = 0 then (s.SetPatch baseSetPatch patch).2.2
            else readerProgram s (others t))).run schedule).raceFree) := by
  constructor
  · intro h
    have hev : (s.InternalSetJitterBuffer OnLocalRTP connectionsActive ep newId init).2.2.2
        = [StreamEvent.StartRead,
           StreamEvent.JitterClose s.m_jitterBuffer.id,
           StreamEvent.StartWrite,
           StreamEvent.JitterDelete s.m_jitterBuffer.id,
           StreamEvent.JitterCreate newId init,
           StreamEvent.EndWrite,
           StreamEvent.SetJitterBuffer newId s.m_syncSource,
           StreamEvent.EndRead] := by
      unfold OpalRTPMediaStream.InternalSetJitterBuffer OpalRTPMediaStream.RequiresPatchThread at h ⊢
      cases h1 : s.IsOpen
      · simp [h1] at h
      · cases h2 : s.isSource
        · simp [h1, h2] at h
        · cases h3 : (CheckForLocalRTP OnLocalRTP connectionsActive ep s).1
          · simp [h1, h2, h3]
          · simp [h1, h2, h3] at h
    refine ⟨hev, ?_⟩
    apply JitterSystem.Invariant.raceFree
    apply JitterSystem.Invariant.run
    apply JitterSystem.start_invariant
    intro t
    by_cases ht : t = 0
    · simp only [ht, if_true]
      rw [hev]
      simp [JitterSystem.disciplined, StreamEvent.jitterAction]
    · simp only [ht, if_false]
      exact readerProgram_disciplined s (others t)
  · intro h1 h2
    have hev : (s.SetPatch baseSetPatch patch).2.2
        = [StreamEvent.InternalSetPatchPart1 patch,
           StreamEvent.JitterClose s.m_jitterBuffer.id,
           StreamEvent.InternalSetPatchPart2 s.m_mediaPatch,
           StreamEvent.JitterRestart s.m_jitterBuffer.id] := by
      simp [OpalRTPMediaStream.SetPatch, h1, h2]
    refine ⟨hev, ?_, ?_⟩
    · simp [OpalRTPMediaStream.SetPatch, h1, h2]
    · apply JitterSystem.Invariant.raceFree
      apply JitterSystem.Invariant.run
      apply JitterSystem.start_invariant
      intro t
      by_cases ht : t = 0
      · simp only [ht, if_true]
        rw [hev]
        simp [JitterSystem.disciplined, StreamEvent.jitterAction]
      · simp only [ht, if_false]
        exact readerProgram_disciplined s (others t)

/-- C24, amended, with `InternalSetJitterBuffer` on thread 0, two `ReadPacket`
calls on thread 1 and an `OnReceivedPacket` on thread 2. In the schedule,
thread 1 is inside `ReadData` when thread 0 asks for write access, and thread 0
has to wait until thread 1 has released its read access. -/
theorem C24_race_free_swap_witness :
    ((JitterSystem.start (loopbackStream 1 5000 6000).m_jitterBuffer.id
        (fun t =>
          if t = 0 then
            ((loopbackStream 1 5000 6000).InternalSetJitterBuffer alwaysBypass []
              OpalRTPEndPoint.empty 1
              { m_minJitterDelay := 40, m_maxJitterDelay := 200, m_timeUnits := 8 }).2.2.2
          else
            readerProgram (loopbackStream 1 5000 6000)
              (if t = 1 then
                [ReaderCall.readPacket (some frameAfterLoss) keepAliveFrame,
                 ReaderCall.readPacket none keepAliveFrame]
               else if t = 2 then [ReaderCall.onReceivedPacket frameAfterLoss]
               else []))).run [1, 1, 0, 0, 0, 0, 1, 0, 0, 2, 0, 2, 1, 1, 0, 0, 2, 2, 1]).raceFree :=
  ((C24_race_free_swap alwaysBypass [] OpalRTPEndPoint.empty 1 (loopbackStream 1 5000 6000)
    { m_minJitterDelay := 40, m_maxJitterDelay := 200, m_timeUnits := 8 } true none
    (fun t =>
      if t = 1 then
        [ReaderCall.readPacket (some frameAfterLoss) keepAliveFrame,
         ReaderCall.readPacket none keepAliveFrame]
      else if t = 2 then [ReaderCall.onReceivedPacket frameAfterLoss]
      else [])
    [1, 1, 0, 0, 0, 0, 1, 0, 0, 2, 0, 2, 1, 1, 0, 0, 2, 2, 1]).1 (by decide)).2

end Opal
